import Mathlib

/-!
# EC2 internet gateway resource: probes, retry callbacks and waits

A shallow embedding of `internal/service/ec2/internet_gateway.go` and
`internal/service/batch/status.go`.

* A Go `error` is an `Option Err` (`none` is the nil error).
* A Go `interface{}` value is an `Option Value` (`none` is the nil interface).
* A remote client (`*ec2.EC2`, `*batch.Batch`) is a record holding, for each
  operation, the answer the remote API gives at the moment of the call.
* A function that can stop with a Go runtime panic (index out of range, nil
  pointer dereference) returns an `Option`, and `none` is the panic.
-/

namespace TerraformAws

/-! ## Errors -/

/-- A non-nil Go `error` value. -/
inductive Err where
  /-- An `awserr.Error` with its `Code()` and `Message()`. -/
  | aws (code message : String)
  /-- The value `&resource.NotFoundError{}`. -/
  | notFound
  /-- A `*resource.TimeoutError` whose `LastError` is nil. -/
  | timeout
  /-- Any other error, with its text. -/
  | other (text : String)
  /-- The error `fmt.Errorf(pre + "%s", cause)`: its text is `pre` followed by the
  text of `cause`; it is not an `awserr.Error` and does not unwrap to one. -/
  | errorf (pre : String) (cause : Err)
  deriving DecidableEq, Repr

/-- Go `strings.Contains(s, substr)`. -/
def stringsContains (s substr : String) : Bool :=
  decide (substr.data <:+: s.data)

/-- The helper `tfawserr.ErrMessageContains(err, code, message)`: `err` is an
`awserr.Error` whose code is `code` and whose message contains `message`. -/
def ErrMessageContains (err : Option Err) (code message : String) : Bool :=
  match err with
  | some (.aws c m) => c == code && stringsContains m message
  | _ => false

/-! ## Remote data -/

/-- Go `aws.StringValue`: the empty string for a nil pointer. -/
def StringValue (p : Option String) : String :=
  match p with
  | some s => s
  | none => ""

/-- The SDK type `ec2.InternetGatewayAttachment` (pointer fields are options). -/
structure InternetGatewayAttachment where
  State : Option String
  VpcId : Option String
  deriving DecidableEq, Repr

/-- The SDK type `ec2.InternetGateway`. -/
structure InternetGateway where
  Attachments : List InternetGatewayAttachment
  InternetGatewayId : Option String
  OwnerId : Option String
  Tags : List (String × String)
  deriving DecidableEq, Repr

/-- The SDK type `ec2.DescribeInternetGatewaysOutput`. -/
structure DescribeInternetGatewaysOutput where
  InternetGateways : List InternetGateway
  deriving DecidableEq, Repr

/-- The SDK type `ec2.DescribeNetworkInterfacesOutput`, with the identifiers of
the interfaces it lists. -/
structure DescribeNetworkInterfacesOutput where
  NetworkInterfaces : List String
  deriving DecidableEq, Repr

/-- The SDK type `batch.ComputeEnvironmentDetail`. -/
structure ComputeEnvironmentDetail where
  ComputeEnvironmentName : Option String
  Status : Option String
  deriving DecidableEq, Repr

/-- The SDK constants `ec2.AttachmentStatus*`. -/
def AttachmentStatusAttaching : String := "attaching"

def AttachmentStatusAttached : String := "attached"

def AttachmentStatusDetaching : String := "detaching"

def AttachmentStatusDetached : String := "detached"

/-- The answers of the EC2 API at the moment of one call. `DescribeInternetGateways`
takes the list of requested gateway ids and gives the pair `(resp, err)`;
`DetachInternetGateway` takes the gateway id and the VPC id and gives its error;
`DescribeNetworkInterfaces` takes the VPC id of the filter and gives `(out, err)`
(the SDK always hands back a non-nil output pointer). -/
structure EC2 where
  DescribeInternetGateways : List String → Option DescribeInternetGatewaysOutput × Option Err
  DetachInternetGateway : String → String → Option Err
  DescribeNetworkInterfaces : String → DescribeNetworkInterfacesOutput × Option Err
  DeleteInternetGateway : String → Option Err

/-- The answers of the Batch lookup `finder.FindComputeEnvironmentDetailByName`
at the moment of one call: the pair `(detail, err)` for a name. -/
structure Batch where
  FindComputeEnvironmentDetailByName : String → Option ComputeEnvironmentDetail × Option Err

/-! ## Probe results -/

/-- What a probe hands back as its `interface{}` value. -/
inductive Value where
  | gateway (ig : InternetGateway)
  | int (n : Int)
  | computeEnvironment (d : ComputeEnvironmentDetail)
  deriving DecidableEq, Repr

/-- The triple `(value, state, error)` returned by a `resource.StateRefreshFunc`. -/
structure ProbeResult (α : Type) where
  value : Option α
  state : String
  err : Option Err
  deriving DecidableEq, Repr

/-! ## Time -/

/-- A `time.Time`, in nanoseconds since the zero instant; `0` is the zero value. -/
abbrev Time := Nat

/-- Go `time.Second`, in nanoseconds. -/
def Second : Int := 1000000000

/-- Go `time.Minute`, in nanoseconds. -/
def Minute : Int := 60 * Second

def maxDuration : Int := 9223372036854775807

def minDuration : Int := -9223372036854775808

/-- Go `t.IsZero()`. -/
def Time.IsZero (t : Time) : Bool := t == 0

/-- Go `time.Since(start)` when the clock reads `now`: the difference as a
`time.Duration`, saturating at the ends of the 64-bit range. -/
def Since (start now : Time) : Int :=
  let d : Int := (now : Int) - (start : Int)
  if d < minDuration then minDuration else if maxDuration < d then maxDuration else d

/-! ## The probes of internet_gateway.go and status.go -/

/-- The function `findPublicNetworkInterfacesForVpcID`. -/
def findPublicNetworkInterfacesForVpcID (conn : EC2) (vpcID : String) :
    DescribeNetworkInterfacesOutput × Option Err :=
  conn.DescribeNetworkInterfaces vpcID

/-- One call of the probe returned by `DetachIGStateRefreshFunc(conn, gatewayID, vpcID)`. -/
def DetachIGStateRefreshFunc (conn : EC2) (gatewayID vpcID : String) : ProbeResult Value :=
  match conn.DetachInternetGateway gatewayID vpcID with
  | some err =>
    match err with
    | .aws code _ =>
      if code = "InvalidInternetGatewayID.NotFound" then
        ⟨none, "", none⟩
      else if code = "Gateway.NotAttached" then
        ⟨some (.int 42), AttachmentStatusDetached, none⟩
      else if code = "DependencyViolation" then
        match (findPublicNetworkInterfacesForVpcID conn vpcID).2 with
        | some err2 => ⟨some (.int 42), "detaching", some err2⟩
        | none => ⟨some (.int 42), AttachmentStatusDetaching, none⟩
      else
        ⟨some (.int 42), "", some err⟩
    | _ => ⟨some (.int 42), "", some err⟩
  | none => ⟨some (.int 42), AttachmentStatusDetached, none⟩

/-- One call of the probe returned by `IGStateRefreshFunc(conn, id)`; `none` is
the panic of `resp.InternetGateways[0]` on an empty list. -/
def IGStateRefreshFunc (conn : EC2) (id : String) : Option (ProbeResult Value) :=
  let (resp0, err) := conn.DescribeInternetGateways [id]
  let step (resp : Option DescribeInternetGatewaysOutput) : Option (ProbeResult Value) :=
    match resp with
    | none => some ⟨none, "", none⟩
    | some r =>
      match r.InternetGateways with
      | [] => none
      | ig :: _ => some ⟨some (.gateway ig), "available", none⟩
  match err with
  | some _ =>
    if ErrMessageContains err "InvalidInternetGatewayID.NotFound" "" then
      step none
    else
      some ⟨none, "", err⟩
  | none => step resp0

/-- One call of the probe returned by `IGAttachStateRefreshFunc(conn, id, expected)`.
`start` is the captured variable before the call, `now` the reading of
`time.Now()` taken when `start` is zero, `later` the reading of the clock used by
`time.Since(start)`. The result is the new `start` and the returned triple;
`none` is a panic (`resp.InternetGateways[0]` on an empty list, or the
dereference of a nil `State`). -/
def IGAttachStateRefreshFunc (conn : EC2) (id expected : String)
    (start now later : Time) : Time × Option (ProbeResult Value) :=
  let start1 : Time := if start.IsZero then now else start
  let (resp0, err) := conn.DescribeInternetGateways [id]
  let step (resp : Option DescribeInternetGatewaysOutput) : Option (ProbeResult Value) :=
    match resp with
    | none => some ⟨none, "", none⟩
    | some r =>
      match r.InternetGateways with
      | [] => none
      | ig :: _ =>
        if Since start1 later > 10 * Second then
          some ⟨some (.gateway ig), expected, none⟩
        else
          match ig.Attachments with
          | [] => some ⟨some (.gateway ig), AttachmentStatusDetached, none⟩
          | a :: _ =>
            match a.State with
            | none => none
            | some s => some ⟨some (.gateway ig), s, none⟩
  match err with
  | some _ =>
    if ErrMessageContains err "InvalidInternetGatewayID.NotFound" "" then
      (start1, step none)
    else
      (start1, some ⟨none, "", err⟩)
  | none => (start1, step resp0)

/-- The inputs of one call of the attach probe: the API answers and the two
clock readings of that call. -/
structure AttachProbeCall where
  conn : EC2
  now : Time
  later : Time

/-- Successive calls of one probe returned by `IGAttachStateRefreshFunc`, the
captured `start` being threaded from call to call: the results, in order. -/
def IGAttachStateRefreshFunc.calls (id expected : String) :
    Time → List AttachProbeCall → List (Option (ProbeResult Value))
  | _, [] => []
  | start, c :: cs =>
    let r := IGAttachStateRefreshFunc c.conn id expected start c.now c.later
    r.2 :: IGAttachStateRefreshFunc.calls id expected r.1 cs

/-- One call of the probe returned by `statusComputeEnvironment(conn, name)`.
`NotFound` is the helper `tfresource.NotFound`; `none` is the panic of reading
`Status` through a nil detail. -/
def statusComputeEnvironment (NotFound : Option Err → Bool) (conn : Batch) (name : String) :
    Option (ProbeResult Value) :=
  let (computeEnvironmentDetail, err) := conn.FindComputeEnvironmentDetailByName name
  if NotFound err then
    some ⟨none, "", none⟩
  else
    match err with
    | some _ => some ⟨none, "", err⟩
    | none =>
      match computeEnvironmentDetail with
      | none => none
      | some d => some ⟨some (.computeEnvironment d), StringValue d.Status, none⟩

/-! ## Wait configurations built in internet_gateway.go -/

/-- The probe stored in the `Refresh` field of a `resource.StateChangeConf`. -/
inductive RefreshFunc where
  | IGAttach (id expected : String)
  | DetachIG (gatewayID vpcID : String)
  deriving DecidableEq, Repr

/-- The fields of `resource.StateChangeConf` that internet_gateway.go sets; a
field that is left out of a literal has its zero value. -/
structure StateChangeConf where
  Pending : List String
  Target : List String
  Refresh : RefreshFunc
  Timeout : Int
  Delay : Int := 0
  NotFoundChecks : Int := 0
  deriving DecidableEq, Repr

/-- The `stateConf` built in `resourceInternetGatewayAttach` for the gateway `id`. -/
def resourceInternetGatewayAttach.stateConf (id : String) : StateChangeConf :=
  { Pending := [AttachmentStatusDetached, AttachmentStatusAttaching]
    Target := ["available"]
    Refresh := .IGAttach id "available"
    Timeout := 4 * Minute }

/-- The `stateConf` built in `resourceInternetGatewayDetach` for the gateway `id`
and the old VPC `vpcID`. -/
def resourceInternetGatewayDetach.stateConf (id vpcID : String) : StateChangeConf :=
  { Pending := [AttachmentStatusDetaching]
    Target := [AttachmentStatusDetached]
    Refresh := .DetachIG id vpcID
    Timeout := 15 * Minute
    Delay := 10 * Second
    NotFoundChecks := 30 }

/-! ## Retry callbacks -/

/-- The SDK type `resource.RetryError`. -/
structure RetryError where
  Err : Err
  Retryable : Bool
  deriving DecidableEq, Repr

/-- The SDK helper `resource.RetryableError`, on a non-nil error. -/
def RetryableError (err : Err) : RetryError := ⟨err, true⟩

/-- The SDK helper `resource.NonRetryableError`, on a non-nil error. -/
def NonRetryableError (err : Err) : RetryError := ⟨err, false⟩

/-- What the retry callback of `resourceInternetGatewayCreate` does with the
triple `(igRaw, _, err)` its probe returned. -/
def resourceInternetGatewayCreate.retryResult (r : ProbeResult Value) : Option RetryError :=
  if r.value ≠ none then
    none
  else
    match r.err with
    | none => some (RetryableError .notFound)
    | some err => some (NonRetryableError err)

/-- One invocation of the retry callback of `resourceInternetGatewayCreate`:
the captured `igRaw` and `err` after the call, and the returned `*RetryError`;
`none` when the probe panics. -/
def resourceInternetGatewayCreate.retryFunc (conn : EC2) (id : String) :
    Option (Option Value × Option Err × Option RetryError) :=
  match IGStateRefreshFunc conn id with
  | none => none
  | some r => some (r.value, r.err, resourceInternetGatewayCreate.retryResult r)

/-- One invocation of the retry callback of `resourceInternetGatewayDelete`. -/
def resourceInternetGatewayDelete.retryFunc (conn : EC2) (id : String) : Option RetryError :=
  match conn.DeleteInternetGateway id with
  | none => none
  | some err =>
    if ErrMessageContains (some err) "InvalidInternetGatewayID.NotFound" "" then
      none
    else if ErrMessageContains (some err) "DependencyViolation" "" then
      some (RetryableError err)
    else
      some (NonRetryableError err)

/-! ## resourceInternetGatewayCreate -/

/-- The calls `resourceInternetGatewayCreate` makes, in the order it makes them. -/
inductive Effect where
  | CreateInternetGateway
  | SetId (id : String)
  | IGStateRefreshFunc (id : String)
  | Attach (id : String)
  | Read (id : String)
  deriving DecidableEq, Repr

/-- One run of `resource.Retry` around the creation callback: the API answers at
the successive invocations of the callback, and the error `Retry` returns. -/
structure RetryRun where
  attempts : List EC2
  err : Option Err

/-- Everything outside `resourceInternetGatewayCreate` that one call of it meets.
`TimedOut` is the helper `tfresource.TimedOut`; `CreateInternetGateway` is the
pair `(resp.InternetGateway, err)` of the create call; `afterRetry` the API
answers at the probe call made after a timeout; `attach` and `read` the errors
returned by `resourceInternetGatewayAttach` and `resourceInternetGatewayRead`. -/
structure CreateWorld where
  TimedOut : Option Err → Bool
  CreateInternetGateway : Option InternetGateway × Option Err
  retry : RetryRun
  afterRetry : EC2
  attach : Option Err
  read : Option Err

/-- The outcome of one call: the returned error (`none` at top level is a
panic) and the calls made. -/
structure CreateRun where
  result : Option (Option Err)
  effects : List Effect
  deriving DecidableEq, Repr

/-- Puts the calls `pre` in front of those of `r`. -/
def CreateRun.after (pre : List Effect) (r : CreateRun) : CreateRun :=
  ⟨r.result, pre ++ r.effects⟩

/-- The invocations of the creation callback made by `resource.Retry`, starting
from the captured `igRaw`: the final `igRaw` (`none` at top level when a probe
panicked) and the probe calls made. -/
def resourceInternetGatewayCreate.retry (id : String) :
    List EC2 → Option Value → Option (Option Value) × List Effect
  | [], igRaw => (some igRaw, [])
  | conn :: rest, _ =>
    match resourceInternetGatewayCreate.retryFunc conn id with
    | none => (none, [.IGStateRefreshFunc id])
    | some (igRaw, _, _) =>
      let (r, es) := resourceInternetGatewayCreate.retry id rest igRaw
      (r, .IGStateRefreshFunc id :: es)

/-- The end of `resourceInternetGatewayCreate`, from the test `err != nil` that
follows the timeout branch. -/
def resourceInternetGatewayCreate.finish (w : CreateWorld) (id : String)
    (err : Option Err) : CreateRun :=
  match err with
  | some e => ⟨some (some (.errorf "Error refreshing internet gateway state: " e)), []⟩
  | none =>
    match w.attach with
    | some e =>
      ⟨some (some (.errorf ("error attaching EC2 Internet Gateway (" ++ id ++ "): ") e)),
        [.Attach id]⟩
    | none => ⟨some w.read, [.Attach id, .Read id]⟩

/-- The function `resourceInternetGatewayCreate`. -/
def resourceInternetGatewayCreate (w : CreateWorld) : CreateRun :=
  match w.CreateInternetGateway with
  | (_, some err) =>
    ⟨some (some (.errorf "Error creating internet gateway: " err)), [.CreateInternetGateway]⟩
  | (none, none) => ⟨none, [.CreateInternetGateway]⟩
  | (some ig, none) =>
    let id := StringValue ig.InternetGatewayId
    CreateRun.after [.CreateInternetGateway, .SetId id] <|
      match resourceInternetGatewayCreate.retry id w.retry.attempts none with
      | (none, es) => ⟨none, es⟩
      | (some _, es) =>
        CreateRun.after es <|
          if w.TimedOut w.retry.err then
            match IGStateRefreshFunc w.afterRetry id with
            | none => ⟨none, [.IGStateRefreshFunc id]⟩
            | some r =>
              if r.value = none then
                ⟨some (some (.other ("error finding Internet Gateway (" ++ id ++
                  ") after creation; retry running Terraform"))), [.IGStateRefreshFunc id]⟩
              else
                CreateRun.after [.IGStateRefreshFunc id]
                  (resourceInternetGatewayCreate.finish w id r.err)
          else
            resourceInternetGatewayCreate.finish w id w.retry.err

/-! ## resourceInternetGatewayDelete -/

/-- The calls `resourceInternetGatewayDelete` makes, in the order it makes them. -/
inductive DeleteEffect where
  | Detach (id : String)
  | DeleteInternetGateway (id : String)
  deriving DecidableEq, Repr

/-- Everything outside `resourceInternetGatewayDelete` that one call of it meets.
`TimedOut` is the helper `tfresource.TimedOut`; `detach` is the error returned by
`resourceInternetGatewayDetach`; `retry` is the run of `resource.Retry` around the
deletion callback (the API answers at the successive invocations of the callback
and the error `Retry` returns); `afterRetry` the API answers at the
`DeleteInternetGateway` call made after a timeout. -/
structure DeleteWorld where
  TimedOut : Option Err → Bool
  detach : Option Err
  retry : RetryRun
  afterRetry : EC2

/-- The outcome of one call of `resourceInternetGatewayDelete`: the returned
error and the calls made. -/
structure DeleteRun where
  result : Option Err
  effects : List DeleteEffect
  deriving DecidableEq, Repr

/-- The function `resourceInternetGatewayDelete` on the resource with id `id`. -/
def resourceInternetGatewayDelete (id : String) (w : DeleteWorld) : DeleteRun :=
  match w.detach with
  | some err => ⟨some err, [.Detach id]⟩
  | none =>
    let inRetry : List DeleteEffect := w.retry.attempts.map fun _ => .DeleteInternetGateway id
    if w.TimedOut w.retry.err then
      match w.afterRetry.DeleteInternetGateway id with
      | some err =>
        ⟨some (.errorf "Error deleting internet gateway: " err),
          .Detach id :: inRetry ++ [.DeleteInternetGateway id]⟩
      | none => ⟨none, .Detach id :: inRetry ++ [.DeleteInternetGateway id]⟩
    else
      match w.retry.err with
      | some err => ⟨some (.errorf "Error deleting internet gateway: " err), .Detach id :: inRetry⟩
      | none => ⟨none, .Detach id :: inRetry⟩

/-! ## testAccCheckStackSetDestroy (stack_set_test.go) -/

/-- The SDK type `cloudformation.StackSet`. -/
structure StackSet where
  StackSetId : Option String
  StackSetName : Option String
  deriving DecidableEq, Repr

/-- The SDK type `cloudformation.DescribeStackSetOutput`. -/
structure DescribeStackSetOutput where
  StackSet : Option StackSet
  deriving DecidableEq, Repr

/-- The SDK constant `cloudformation.ErrCodeStackSetNotFoundException`. -/
def ErrCodeStackSetNotFoundException : String := "StackSetNotFoundException"

/-- The answers of the CloudFormation API during one check: `DescribeStackSet`
takes the stack set name and gives the pair `(output, err)`. -/
structure CloudFormation where
  DescribeStackSet : String → Option DescribeStackSetOutput × Option Err

/-- A resource of the Terraform state: its `Type` and its `Primary.ID`. -/
structure ResourceState where
  Type_ : String
  ID : String
  deriving DecidableEq, Repr

/-- The function `testAccCheckStackSetDestroy`, on the resources of the root
module in the order in which the `range` loop visits them. -/
def testAccCheckStackSetDestroy (conn : CloudFormation) : List ResourceState → Option Err
  | [] => none
  | rs :: rest =>
    if rs.Type_ ≠ "aws_cloudformation_stack_set" then
      testAccCheckStackSetDestroy conn rest
    else
      let (output, err) := conn.DescribeStackSet rs.ID
      if ErrMessageContains err ErrCodeStackSetNotFoundException "" then
        none
      else
        match err with
        | some e => some e
        | none =>
          match output with
          | some o =>
            if o.StackSet ≠ none then
              some (.other ("CloudFormation StackSet (" ++ rs.ID ++ ") still exists"))
            else
              testAccCheckStackSetDestroy conn rest
          | none => testAccCheckStackSetDestroy conn rest

/-! ## Go maps and resource data -/

/-- A Go `map[string]T`: an association list with distinct keys. `m[k] = v` is
`AList.insert k v m` and a read of `m[k]` is `AList.lookup k m`. -/
abbrev GoMap (β : Type) := AList (fun _ : String => β)

/-- A value stored in a `schema.ResourceData` by `d.Set`. -/
inductive AttrValue where
  | str (s : String)
  | map (m : GoMap String)
  deriving DecidableEq

/-- The part of a `schema.ResourceData` that internet_gateway.go reads and
writes: the id and the attributes that were set. -/
structure ResourceData where
  Id : String
  attrs : GoMap AttrValue
  deriving DecidableEq

/-- The method `d.SetId`. -/
def ResourceData.SetId (d : ResourceData) (id : String) : ResourceData :=
  { d with Id := id }

/-- The method `d.Set`, when it succeeds. -/
def ResourceData.Set (d : ResourceData) (key : String) (v : AttrValue) : ResourceData :=
  { d with attrs := d.attrs.insert key v }

/-! ## resourceInternetGatewayRead and resourceInternetGatewayUpdate -/

/-- Everything outside `resourceInternetGatewayRead` that one call of it meets:
the API answers, the partition and region of `meta`, the two tag maps computed
from the tags of the gateway by the helpers of `internal/tags` with the default
and ignore configurations of `meta` (the argument of `d.Set("tags", ...)` and of
`d.Set("tags_all", ...)`), and the errors of these two `d.Set` calls. -/
structure ReadWorld where
  conn : EC2
  Partition : String
  Region : String
  tags : List (String × String) → GoMap String
  tagsAll : List (String × String) → GoMap String
  setTags : Option Err
  setTagsAll : Option Err

/-- Go `arn.ARN.String()`. -/
def ARNString (partition service region accountID resource : String) : String :=
  "arn:" ++ partition ++ ":" ++ service ++ ":" ++ region ++ ":" ++ accountID ++ ":" ++ resource

/-- The function `resourceInternetGatewayRead`: the resource data after the call
and the returned error; `none` is a panic (of the probe, or of the type assertion
on its value). The verb `%w` is rendered like `%s` by `Err.errorf`. -/
def resourceInternetGatewayRead (w : ReadWorld) (d : ResourceData) :
    Option (ResourceData × Option Err) :=
  match IGStateRefreshFunc w.conn d.Id with
  | none => none
  | some r =>
    match r.err with
    | some err => some (d, some err)
    | none =>
      match r.value with
      | none => some (d.SetId "", none)
      | some (.gateway ig) =>
        let d1 :=
          match ig.Attachments with
          | [] => d.Set "vpc_id" (.str "")
          | a :: _ => d.Set "vpc_id" (.str (StringValue a.VpcId))
        match w.setTags with
        | some err => some (d1, some (.errorf "error setting tags: " err))
        | none =>
          let d2 := d1.Set "tags" (.map (w.tags ig.Tags))
          match w.setTagsAll with
          | some err => some (d2, some (.errorf "error setting tags_all: " err))
          | none =>
            let d3 := d2.Set "tags_all" (.map (w.tagsAll ig.Tags))
            let d4 := d3.Set "owner_id" (.str (StringValue ig.OwnerId))
            let arn := ARNString w.Partition "ec2" w.Region (StringValue ig.OwnerId)
              ("internet-gateway/" ++ d4.Id)
            some (d4.Set "arn" (.str arn), none)
      | some _ => none

/-- The calls `resourceInternetGatewayUpdate` makes, in the order it makes them. -/
inductive UpdateEffect where
  | Detach (id : String)
  | Attach (id : String)
  | UpdateTags (id : String)
  | Read (id : String)
  deriving DecidableEq, Repr

/-- Everything outside `resourceInternetGatewayUpdate` that one call of it meets:
the answers of `d.HasChange("vpc_id")` and `d.HasChange("tags_all")`, and the
errors returned by `resourceInternetGatewayDetach`, `resourceInternetGatewayAttach`,
`UpdateTags` and `resourceInternetGatewayRead`. -/
structure UpdateWorld where
  HasChangeVpcId : Bool
  detach : Option Err
  attach : Option Err
  HasChangeTagsAll : Bool
  updateTags : Option Err
  read : Option Err

/-- The outcome of one call of `resourceInternetGatewayUpdate`: the returned
error and the calls made. -/
structure UpdateRun where
  result : Option Err
  effects : List UpdateEffect
  deriving DecidableEq, Repr

/-- The end of `resourceInternetGatewayUpdate`, from `conn := ...` on; `pre` holds
the calls already made. -/
def resourceInternetGatewayUpdate.finish (id : String) (w : UpdateWorld)
    (pre : List UpdateEffect) : UpdateRun :=
  if w.HasChangeTagsAll then
    match w.updateTags with
    | some err =>
      ⟨some (.errorf ("error updating EC2 Internet Gateway (" ++ id ++ ") tags: ") err),
        pre ++ [.UpdateTags id]⟩
    | none => ⟨w.read, pre ++ [.UpdateTags id, .Read id]⟩
  else
    ⟨w.read, pre ++ [.Read id]⟩

/-- The function `resourceInternetGatewayUpdate` on the resource with id `id`. -/
def resourceInternetGatewayUpdate (id : String) (w : UpdateWorld) : UpdateRun :=
  if w.HasChangeVpcId then
    match w.detach with
    | some err => ⟨some err, [.Detach id]⟩
    | none =>
      match w.attach with
      | some err => ⟨some err, [.Detach id, .Attach id]⟩
      | none => resourceInternetGatewayUpdate.finish id w [.Detach id, .Attach id]
  else
    resourceInternetGatewayUpdate.finish id w []

/-! ## VPC state migration (vpc_migrate.go) -/

/-- The fields `ID`, `Attributes` and `Tainted` of the SDK type
`terraform.InstanceState`; a nil `Attributes` map is `none`. -/
structure InstanceState where
  ID : String
  Attributes : Option (GoMap String)
  Tainted : Bool
  deriving DecidableEq

/-- The SDK method `(*InstanceState).Empty`: the pointer is nil or the id is
empty. -/
def InstanceState.Empty (s : Option InstanceState) : Bool :=
  match s with
  | none => true
  | some s => s.ID == ""

/-- The function `migrateVpcStateV0toV1`; a nil `is` is `none`. -/
def migrateVpcStateV0toV1 (is : Option InstanceState) : Option InstanceState × Option Err :=
  match is with
  | none => (is, none)
  | some s =>
    if InstanceState.Empty is || s.Attributes.isNone then
      (is, none)
    else
      (some { s with
        Attributes := s.Attributes.map fun a =>
          a.insert "assign_generated_ipv6_cidr_block" "false" }, none)

/-- The function `resourceAwsVpcMigrateState` (its `meta` argument is not used). -/
def resourceAwsVpcMigrateState (v : Int) (is : Option InstanceState) :
    Option InstanceState × Option Err :=
  if v = 0 then
    migrateVpcStateV0toV1 is
  else
    (is, some (.other ("Unexpected schema version: " ++ toString v)))

/-! ## Elastic Beanstalk tags (tags_gen.go) -/

/-- The SDK type `elasticbeanstalk.Tag`. -/
structure Tag where
  Key : Option String
  Value : Option String
  deriving DecidableEq, Repr

/-- An argument of `tftags.New`: a `map[string]string` or a `map[string]*string`. -/
inductive TagsInput where
  | strings (m : GoMap String)
  | pointers (m : GoMap (Option String))

/-- The operations of the package `internal/tags` that tags_gen.go calls, on the
type `KVT` that stands for `tftags.KeyValueTags`; the code of the package is not
among the sources, so the operations are parameters. `len` is the Go `len` of a
`KeyValueTags` value. -/
structure Tftags (KVT : Type) where
  New : TagsInput → KVT
  Map : KVT → GoMap String
  len : KVT → Nat
  Removed : KVT → KVT → KVT
  Updated : KVT → KVT → KVT
  IgnoreAws : KVT → KVT
  Keys : KVT → List String

/-- The function `Tags`: one tag for each entry of `tags.Map()`, in the order in
which the `range` loop visits the entries. -/
def Tags {KVT : Type} (tf : Tftags KVT) (tags : KVT) : List Tag :=
  (tf.Map tags).entries.map fun e => ⟨some e.1, some e.2⟩

/-- The function `KeyValueTags`. -/
def KeyValueTags {KVT : Type} (tf : Tftags KVT) (tags : List Tag) : KVT :=
  tf.New (.pointers (tags.foldl (fun m tag => m.insert (StringValue tag.Key) tag.Value) ∅))

/-- The SDK type `elasticbeanstalk.UpdateTagsForResourceInput`; a nil slice is the
empty list. -/
structure UpdateTagsForResourceInput where
  ResourceArn : Option String
  TagsToAdd : List Tag
  TagsToRemove : List String
  deriving DecidableEq, Repr

/-- The answer of the Elastic Beanstalk API to an `UpdateTagsForResource` request. -/
structure ElasticBeanstalk where
  UpdateTagsForResource : UpdateTagsForResourceInput → Option Err

/-- The function `UpdateTags`: the returned error and the requests sent. The verb
`%w` is rendered like `%s` by `Err.errorf`. -/
def UpdateTags {KVT : Type} (tf : Tftags KVT) (conn : ElasticBeanstalk) (identifier : String)
    (oldTagsMap newTagsMap : TagsInput) : Option Err × List UpdateTagsForResourceInput :=
  let oldTags := tf.New oldTagsMap
  let newTags := tf.New newTagsMap
  let removedTags := tf.Removed oldTags newTags
  let updatedTags := tf.Updated oldTags newTags
  if tf.len removedTags = 0 ∧ tf.len updatedTags = 0 then
    (none, [])
  else
    let input : UpdateTagsForResourceInput :=
      { ResourceArn := some identifier
        TagsToAdd := if tf.len updatedTags > 0 then Tags tf (tf.IgnoreAws updatedTags) else []
        TagsToRemove := if tf.len removedTags > 0 then tf.Keys removedTags else [] }
    match conn.UpdateTagsForResource input with
    | some err => (some (.errorf ("error tagging resource (" ++ identifier ++ "): ") err), [input])
    | none => (none, [input])

/-! ## The provider (provider.go)

A Go map literal is the list of its entries, in the order of the source; the
compiler refuses a literal with two equal keys. A read `m[k]` is `List.lookup`,
and a resource constructor `pkg.Func()` is the name `pkg.Func`. -/

/-- The assignment `m[k] = v` on a map given by the list of its entries. -/
def mapAssign (m : List (String × String)) (k v : String) : List (String × String) :=
  (k, v) :: m.filter fun e => e.1 != k

def Provider.DataSourcesMap.part1 : List (String × String) :=
  [("aws_acm_certificate", "acm.DataSourceCertificate"),
   ("aws_acmpca_certificate_authority", "acmpca.DataSourceCertificateAuthority"),
   ("aws_acmpca_certificate", "acmpca.DataSourceCertificate"),
   ("aws_ami", "ec2.DataSourceAMI"),
   ("aws_ami_ids", "ec2.DataSourceAMIIDs"),
   ("aws_api_gateway_api_key", "apigateway.DataSourceAPIKey"),
   ("aws_api_gateway_domain_name", "apigateway.DataSourceDomainName"),
   ("aws_api_gateway_resource", "apigateway.DataSourceResource"),
   ("aws_api_gateway_rest_api", "apigateway.DataSourceRestAPI"),
   ("aws_api_gateway_vpc_link", "apigateway.DataSourceVPCLink"),
   ("aws_apigatewayv2_api", "apigatewayv2.DataSourceAPI"),
   ("aws_apigatewayv2_apis", "apigatewayv2.DataSourceAPIs"),
   ("aws_appmesh_mesh", "appmesh.DataSourceMesh"),
   ("aws_appmesh_virtual_service", "appmesh.DataSourceVirtualService"),
   ("aws_arn", "nas.DataSourceARN"),
   ("aws_autoscaling_group", "autoscaling.DataSourceGroup"),
   ("aws_autoscaling_groups", "autoscaling.DataSourceGroups"),
   ("aws_availability_zone", "ec2.DataSourceAvailabilityZone"),
   ("aws_availability_zones", "ec2.DataSourceAvailabilityZones"),
   ("aws_backup_plan", "backup.DataSourcePlan"),
   ("aws_backup_selection", "backup.DataSourceSelection"),
   ("aws_backup_vault", "backup.DataSourceVault"),
   ("aws_batch_compute_environment", "batch.DataSourceComputeEnvironment"),
   ("aws_batch_job_queue", "batch.DataSourceJobQueue"),
   ("aws_billing_service_account", "nas.DataSourceBillingServiceAccount"),
   ("aws_caller_identity", "nas.DataSourceCallerIdentity"),
   ("aws_canonical_user_id", "nas.DataSourceCanonicalUserID"),
   ("aws_cloudformation_export", "cloudformation.DataSourceExport"),
   ("aws_cloudformation_stack", "cloudformation.DataSourceStack"),
   ("aws_cloudformation_type", "cloudformation.DataSourceType"),
   ("aws_cloudfront_cache_policy", "cloudfront.DataSourceCachePolicy"),
   ("aws_cloudfront_distribution", "cloudfront.DataSourceDistribution"),
   ("aws_cloudfront_function", "cloudfront.DataSourceFunction"),
   ("aws_cloudfront_log_delivery_canonical_user_id", "cloudfront.DataSourceLogDeliveryCanonicalUserID"),
   ("aws_cloudfront_origin_request_policy", "cloudfront.DataSourceOriginRequestPolicy"),
   ("aws_cloudhsm_v2_cluster", "cloudhsmv2.DataSourceCluster"),
   ("aws_cloudtrail_service_account", "cloudtrail.DataSourceServiceAccount"),
   ("aws_cloudwatch_event_connection", "cloudwatchevents.DataSourceConnection"),
   ("aws_cloudwatch_event_source", "cloudwatchevents.DataSourceSource"),
   ("aws_cloudwatch_log_group", "cloudwatchlogs.DataSourceGroup"),
   ("aws_cloudwatch_log_groups", "cloudwatchlogs.DataSourceGroups"),
   ("aws_codeartifact_authorization_token", "codeartifact.DataSourceAuthorizationToken"),
   ("aws_codeartifact_repository_endpoint", "codeartifact.DataSourceRepositoryEndpoint"),
   ("aws_cognito_user_pools", "cognitoidp.DataSourceUserPools"),
   ("aws_codecommit_repository", "codecommit.DataSourceRepository"),
   ("aws_codestarconnections_connection", "codestarconnections.DataSourceConnection"),
   ("aws_connect_contact_flow", "connect.DataSourceContactFlow"),
   ("aws_connect_instance", "connect.DataSourceInstance"),
   ("aws_cur_report_definition", "cur.DataSourceReportDefinition"),
   ("aws_default_tags", "nas.DataSourceDefaultTags"),
   ("aws_db_cluster_snapshot", "rds.DataSourceClusterSnapshot"),
   ("aws_db_event_categories", "rds.DataSourceEventCategories"),
   ("aws_db_instance", "rds.DataSourceInstance"),
   ("aws_db_snapshot", "rds.DataSourceSnapshot"),
   ("aws_db_subnet_group", "rds.DataSourceSubnetGroup"),
   ("aws_directory_service_directory", "ds.DataSourceDirectory"),
   ("aws_docdb_engine_version", "docdb.DataSourceEngineVersion"),
   ("aws_docdb_orderable_db_instance", "docdb.DataSourceOrderableDBInstance"),
   ("aws_dx_connection", "directconnect.DataSourceConnection"),
   ("aws_dx_gateway", "directconnect.DataSourceGateway")]

def Provider.DataSourcesMap.part2 : List (String × String) :=
  [("aws_dx_location", "directconnect.DataSourceLocation"),
   ("aws_dx_locations", "directconnect.DataSourceLocations"),
   ("aws_dynamodb_table", "dynamodb.DataSourceTable"),
   ("aws_ebs_default_kms_key", "ec2.DataSourceEBSDefaultKMSKey"),
   ("aws_ebs_encryption_by_default", "ec2.DataSourceEBSEncryptionByDefault"),
   ("aws_ebs_snapshot", "ec2.DataSourceEBSSnapshot"),
   ("aws_ebs_snapshot_ids", "ec2.DataSourceEBSSnapshotIDs"),
   ("aws_ebs_volume", "ec2.DataSourceEBSVolume"),
   ("aws_ebs_volumes", "ec2.DataSourceEBSVolumes"),
   ("aws_ec2_coip_pool", "ec2.DataSourceCoIPPool"),
   ("aws_ec2_coip_pools", "ec2.DataSourceCoIPPools"),
   ("aws_ec2_host", "ec2.DataSourceHost"),
   ("aws_ec2_instance_type", "ec2.DataSourceInstanceType"),
   ("aws_ec2_instance_type_offering", "ec2.DataSourceInstanceTypeOffering"),
   ("aws_ec2_instance_type_offerings", "ec2.DataSourceInstanceTypeOfferings"),
   ("aws_ec2_local_gateway", "ec2.DataSourceLocalGateway"),
   ("aws_ec2_local_gateways", "ec2.DataSourceLocalGateways"),
   ("aws_ec2_local_gateway_route_table", "ec2.DataSourceLocalGatewayRouteTable"),
   ("aws_ec2_local_gateway_route_tables", "ec2.DataSourceLocalGatewayRouteTables"),
   ("aws_ec2_local_gateway_virtual_interface", "ec2.DataSourceLocalGatewayVirtualInterface"),
   ("aws_ec2_local_gateway_virtual_interface_group", "ec2.DataSourceLocalGatewayVirtualInterfaceGroup"),
   ("aws_ec2_local_gateway_virtual_interface_groups", "ec2.DataSourceLocalGatewayVirtualInterfaceGroups"),
   ("aws_ec2_managed_prefix_list", "ec2.DataSourceManagedPrefixList"),
   ("aws_ec2_spot_price", "ec2.DataSourceSpotPrice"),
   ("aws_ec2_transit_gateway", "ec2.DataSourceTransitGateway"),
   ("aws_ec2_transit_gateway_dx_gateway_attachment", "ec2.DataSourceTransitGatewayDxGatewayAttachment"),
   ("aws_ec2_transit_gateway_peering_attachment", "ec2.DataSourceTransitGatewayPeeringAttachment"),
   ("aws_ec2_transit_gateway_route_table", "ec2.DataSourceTransitGatewayRouteTable"),
   ("aws_ec2_transit_gateway_route_tables", "ec2.DataSourceTransitGatewayRouteTables"),
   ("aws_ec2_transit_gateway_vpc_attachment", "ec2.DataSourceTransitGatewayVPCAttachment"),
   ("aws_ec2_transit_gateway_vpn_attachment", "ec2.DataSourceTransitGatewayVPNAttachment"),
   ("aws_ecr_authorization_token", "ecr.DataSourceAuthorizationToken"),
   ("aws_ecr_image", "ecr.DataSourceImage"),
   ("aws_ecr_repository", "ecr.DataSourceRepository"),
   ("aws_ecs_cluster", "ecs.DataSourceCluster"),
   ("aws_ecs_container_definition", "ecs.DataSourceContainerDefinition"),
   ("aws_ecs_service", "ecs.DataSourceService"),
   ("aws_ecs_task_definition", "ecs.DataSourceTaskDefinition"),
   ("aws_customer_gateway", "ec2.DataSourceCustomerGateway"),
   ("aws_efs_access_point", "efs.DataSourceAccessPoint"),
   ("aws_efs_access_points", "efs.DataSourceAccessPoints"),
   ("aws_efs_file_system", "efs.DataSourceFileSystem"),
   ("aws_efs_mount_target", "efs.DataSourceMountTarget"),
   ("aws_eip", "ec2.DataSourceEIP"),
   ("aws_eks_addon", "eks.DataSourceAddon"),
   ("aws_eks_cluster", "eks.DataSourceCluster"),
   ("aws_eks_clusters", "eks.DataSourceClusters"),
   ("aws_eks_cluster_auth", "eks.DataSourceClusterAuth"),
   ("aws_eks_node_group", "eks.DataSourceNodeGroup"),
   ("aws_eks_node_groups", "eks.DataSourceNodeGroups"),
   ("aws_elastic_beanstalk_application", "elasticbeanstalk.DataSourceApplication"),
   ("aws_elastic_beanstalk_hosted_zone", "elasticbeanstalk.DataSourceHostedZone"),
   ("aws_elastic_beanstalk_solution_stack", "elasticbeanstalk.DataSourceSolutionStack"),
   ("aws_elasticache_cluster", "elasticache.DataSourceCluster"),
   ("aws_elasticache_replication_group", "elasticache.DataSourceReplicationGroup"),
   ("aws_elasticache_user", "elasticache.DataSourceUser"),
   ("aws_elasticsearch_domain", "elasticsearch.DataSourceDomain"),
   ("aws_elb", "elb.DataSourceLoadBalancer"),
   ("aws_elb_hosted_zone_id", "elb.DataSourceHostedZoneID"),
   ("aws_elb_service_account", "elb.DataSourceServiceAccount")]

def Provider.DataSourcesMap.part3 : List (String × String) :=
  [("aws_globalaccelerator_accelerator", "globalaccelerator.DataSourceAccelerator"),
   ("aws_glue_connection", "glue.DataSourceConnection"),
   ("aws_glue_data_catalog_encryption_settings", "glue.DataSourceDataCatalogEncryptionSettings"),
   ("aws_glue_script", "glue.DataSourceScript"),
   ("aws_guardduty_detector", "guardduty.DataSourceDetector"),
   ("aws_iam_account_alias", "iam.DataSourceAccountAlias"),
   ("aws_iam_group", "iam.DataSourceGroup"),
   ("aws_iam_instance_profile", "iam.DataSourceInstanceProfile"),
   ("aws_iam_policy", "iam.DataSourcePolicy"),
   ("aws_iam_policy_document", "iam.DataSourcePolicyDocument"),
   ("aws_iam_role", "iam.DataSourceRole"),
   ("aws_iam_roles", "iam.DataSourceRoles"),
   ("aws_iam_server_certificate", "iam.DataSourceServerCertificate"),
   ("aws_iam_session_context", "iam.DataSourceSessionContext"),
   ("aws_iam_user", "iam.DataSourceUser"),
   ("aws_iam_users", "iam.DataSourceUsers"),
   ("aws_identitystore_group", "identitystore.DataSourceGroup"),
   ("aws_identitystore_user", "identitystore.DataSourceUser"),
   ("aws_imagebuilder_component", "imagebuilder.DataSourceComponent"),
   ("aws_imagebuilder_distribution_configuration", "imagebuilder.DataSourceDistributionConfiguration"),
   ("aws_imagebuilder_image", "imagebuilder.DataSourceImage"),
   ("aws_imagebuilder_image_pipeline", "imagebuilder.DataSourceImagePipeline"),
   ("aws_imagebuilder_image_recipe", "imagebuilder.DataSourceImageRecipe"),
   ("aws_imagebuilder_infrastructure_configuration", "imagebuilder.DataSourceInfrastructureConfiguration"),
   ("aws_inspector_rules_packages", "inspector.DataSourceRulesPackages"),
   ("aws_instance", "ec2.DataSourceInstance"),
   ("aws_instances", "ec2.DataSourceInstances"),
   ("aws_internet_gateway", "ec2.DataSourceInternetGateway"),
   ("aws_iot_endpoint", "iot.DataSourceEndpoint"),
   ("aws_ip_ranges", "nas.DataSourceIPRanges"),
   ("aws_kinesis_firehose_delivery_stream", "firehose.DataSourceDeliveryStream"),
   ("aws_kinesis_stream", "kinesis.DataSourceStream"),
   ("aws_kinesis_stream_consumer", "kinesis.DataSourceStreamConsumer"),
   ("aws_kms_alias", "kms.DataSourceAlias"),
   ("aws_kms_ciphertext", "kms.DataSourceCiphertext"),
   ("aws_kms_key", "kms.DataSourceKey"),
   ("aws_kms_public_key", "kms.DataSourcePublicKey"),
   ("aws_kms_secret", "kms.DataSourceSecret"),
   ("aws_kms_secrets", "kms.DataSourceSecrets"),
   ("aws_lakeformation_data_lake_settings", "lakeformation.DataSourceDataLakeSettings"),
   ("aws_lakeformation_permissions", "lakeformation.DataSourcePermissions"),
   ("aws_lakeformation_resource", "lakeformation.DataSourceResource"),
   ("aws_lambda_alias", "lambda.DataSourceAlias"),
   ("aws_lambda_code_signing_config", "lambda.DataSourceCodeSigningConfig"),
   ("aws_lambda_function", "lambda.DataSourceFunction"),
   ("aws_lambda_invocation", "lambda.DataSourceInvocation"),
   ("aws_lambda_layer_version", "lambda.DataSourceLayerVersion"),
   ("aws_launch_configuration", "autoscaling.DataSourceLaunchConfiguration"),
   ("aws_launch_template", "ec2.DataSourceLaunchTemplate"),
   ("aws_lex_bot_alias", "lexmodelbuilding.DataSourceBotAlias"),
   ("aws_lex_bot", "lexmodelbuilding.DataSourceBot"),
   ("aws_lex_intent", "lexmodelbuilding.DataSourceIntent"),
   ("aws_lex_slot_type", "lexmodelbuilding.DataSourceSlotType"),
   ("aws_mq_broker", "mq.DataSourceBroker"),
   ("aws_msk_broker_nodes", "kafka.DataSourceBrokerNodes"),
   ("aws_msk_cluster", "kafka.DataSourceCluster"),
   ("aws_msk_configuration", "kafka.DataSourceConfiguration"),
   ("aws_msk_kafka_version", "kafka.DataSourceVersion"),
   ("aws_nat_gateway", "ec2.DataSourceNatGateway"),
   ("aws_neptune_orderable_db_instance", "neptune.DataSourceOrderableDBInstance")]

def Provider.DataSourcesMap.part4 : List (String × String) :=
  [("aws_neptune_engine_version", "neptune.DataSourceEngineVersion"),
   ("aws_network_acls", "ec2.DataSourceNetworkACLs"),
   ("aws_network_interface", "ec2.DataSourceNetworkInterface"),
   ("aws_network_interfaces", "ec2.DataSourceNetworkInterfaces"),
   ("aws_organizations_delegated_administrators", "organizations.DataSourceDelegatedAdministrators"),
   ("aws_organizations_delegated_services", "organizations.DataSourceDelegatedServices"),
   ("aws_organizations_organization", "organizations.DataSourceOrganization"),
   ("aws_organizations_organizational_units", "organizations.DataSourceOrganizationalUnits"),
   ("aws_outposts_outpost", "outposts.DataSourceOutpost"),
   ("aws_outposts_outpost_instance_type", "outposts.DataSourceOutpostInstanceType"),
   ("aws_outposts_outpost_instance_types", "outposts.DataSourceOutpostInstanceTypes"),
   ("aws_outposts_outposts", "outposts.DataSourceOutposts"),
   ("aws_outposts_site", "outposts.DataSourceSite"),
   ("aws_outposts_sites", "outposts.DataSourceSites"),
   ("aws_partition", "nas.DataSourcePartition"),
   ("aws_prefix_list", "ec2.DataSourcePrefixList"),
   ("aws_pricing_product", "pricing.DataSourceProduct"),
   ("aws_qldb_ledger", "qldb.DataSourceLedger"),
   ("aws_ram_resource_share", "ram.DataSourceResourceShare"),
   ("aws_rds_certificate", "rds.DataSourceCertificate"),
   ("aws_rds_cluster", "rds.DataSourceCluster"),
   ("aws_rds_engine_version", "rds.DataSourceEngineVersion"),
   ("aws_rds_orderable_db_instance", "rds.DataSourceOrderableInstance"),
   ("aws_redshift_cluster", "redshift.DataSourceCluster"),
   ("aws_redshift_orderable_cluster", "redshift.DataSourceOrderableCluster"),
   ("aws_redshift_service_account", "redshift.DataSourceServiceAccount"),
   ("aws_region", "ec2.DataSourceRegion"),
   ("aws_regions", "ec2.DataSourceRegions"),
   ("aws_resourcegroupstaggingapi_resources", "resourcegroupstagging.DataSourceResources"),
   ("aws_route", "ec2.DataSourceRoute"),
   ("aws_route_table", "ec2.DataSourceRouteTable"),
   ("aws_route_tables", "ec2.DataSourceRouteTables"),
   ("aws_route53_delegation_set", "route53.DataSourceDelegationSet"),
   ("aws_route53_resolver_endpoint", "route53resolver.DataSourceEndpoint"),
   ("aws_route53_resolver_rule", "route53resolver.DataSourceRule"),
   ("aws_route53_resolver_rules", "route53resolver.DataSourceRules"),
   ("aws_route53_zone", "route53.DataSourceZone"),
   ("aws_s3_bucket", "s3.DataSourceBucket"),
   ("aws_s3_bucket_object", "s3.DataSourceBucketObject"),
   ("aws_s3_bucket_objects", "s3.DataSourceBucketObjects"),
   ("aws_sagemaker_prebuilt_ecr_image", "sagemaker.DataSourcePrebuiltECRImage"),
   ("aws_secretsmanager_secret", "secretsmanager.DataSourceSecret"),
   ("aws_secretsmanager_secret_rotation", "secretsmanager.DataSourceSecretRotation"),
   ("aws_secretsmanager_secret_version", "secretsmanager.DataSourceSecretVersion"),
   ("aws_servicecatalog_constraint", "servicecatalog.DataSourceConstraint"),
   ("aws_servicecatalog_launch_paths", "servicecatalog.DataSourceLaunchPaths"),
   ("aws_servicecatalog_portfolio_constraints", "servicecatalog.DataSourcePortfolioConstraints"),
   ("aws_servicecatalog_portfolio", "servicecatalog.DataSourcePortfolio"),
   ("aws_servicecatalog_product", "servicecatalog.DataSourceProduct"),
   ("aws_servicequotas_service", "servicequotas.DataSourceService"),
   ("aws_servicequotas_service_quota", "servicequotas.DataSourceServiceQuota"),
   ("aws_service_discovery_dns_namespace", "servicediscovery.DataSourceDNSNamespace"),
   ("aws_sfn_activity", "sfn.DataSourceActivity"),
   ("aws_sfn_state_machine", "sfn.DataSourceStateMachine"),
   ("aws_signer_signing_job", "signer.DataSourceSigningJob"),
   ("aws_signer_signing_profile", "signer.DataSourceSigningProfile"),
   ("aws_sns_topic", "sns.DataSourceTopic"),
   ("aws_sqs_queue", "sqs.DataSourceQueue"),
   ("aws_ssm_document", "ssm.DataSourceDocument"),
   ("aws_ssm_parameter", "ssm.DataSourceParameter")]

def Provider.DataSourcesMap.part5 : List (String × String) :=
  [("aws_ssm_patch_baseline", "ssm.DataSourcePatchBaseline"),
   ("aws_ssoadmin_instances", "ssoadmin.DataSourceInstances"),
   ("aws_ssoadmin_permission_set", "ssoadmin.DataSourcePermissionSet"),
   ("aws_storagegateway_local_disk", "storagegateway.DataSourceLocalDisk"),
   ("aws_subnet", "ec2.DataSourceSubnet"),
   ("aws_subnets", "ec2.DataSourceSubnets"),
   ("aws_subnet_ids", "ec2.DataSourceSubnetIDs"),
   ("aws_transfer_server", "transfer.DataSourceServer"),
   ("aws_vpcs", "ec2.DataSourceVPCs"),
   ("aws_security_group", "ec2.DataSourceSecurityGroup"),
   ("aws_security_groups", "ec2.DataSourceSecurityGroups"),
   ("aws_vpc", "ec2.DataSourceVPC"),
   ("aws_vpc_dhcp_options", "ec2.DataSourceVPCDHCPOptions"),
   ("aws_vpc_endpoint", "ec2.DataSourceVPCEndpoint"),
   ("aws_vpc_endpoint_service", "ec2.DataSourceVPCEndpointService"),
   ("aws_vpc_peering_connection", "ec2.DataSourceVPCPeeringConnection"),
   ("aws_vpc_peering_connections", "ec2.DataSourceVPCPeeringConnections"),
   ("aws_vpn_gateway", "ec2.DataSourceVPNGateway"),
   ("aws_waf_ipset", "waf.DataSourceIPSet"),
   ("aws_waf_rule", "waf.DataSourceRule"),
   ("aws_waf_rate_based_rule", "waf.DataSourceRateBasedRule"),
   ("aws_waf_web_acl", "waf.DataSourceWebACL"),
   ("aws_wafregional_ipset", "wafregional.DataSourceIPSet"),
   ("aws_wafregional_rule", "wafregional.DataSourceRule"),
   ("aws_wafregional_rate_based_rule", "wafregional.DataSourceRateBasedRule"),
   ("aws_wafregional_web_acl", "wafregional.DataSourceWebACL"),
   ("aws_wafv2_ip_set", "wafv2.DataSourceIPSet"),
   ("aws_wafv2_regex_pattern_set", "wafv2.DataSourceRegexPatternSet"),
   ("aws_wafv2_rule_group", "wafv2.DataSourceRuleGroup"),
   ("aws_wafv2_web_acl", "wafv2.DataSourceWebACL"),
   ("aws_workspaces_bundle", "workspaces.DataSourceBundle"),
   ("aws_workspaces_directory", "workspaces.DataSourceDirectory"),
   ("aws_workspaces_image", "workspaces.DataSourceImage"),
   ("aws_workspaces_workspace", "workspaces.DataSourceWorkspace"),
   ("aws_lb", "elbv2.DataSourceLoadBalancer"),
   ("aws_alb", "elbv2.DataSourceLoadBalancer"),
   ("aws_lb_listener", "elbv2.DataSourceListener"),
   ("aws_alb_listener", "elbv2.DataSourceListener"),
   ("aws_lb_target_group", "elbv2.DataSourceTargetGroup"),
   ("aws_alb_target_group", "elbv2.DataSourceTargetGroup")]

/-- The literal of the field `DataSourcesMap` in `Provider()`. -/
def Provider.DataSourcesMap.literal : List (String × String) :=
  Provider.DataSourcesMap.part1 ++
  Provider.DataSourcesMap.part2 ++
  Provider.DataSourcesMap.part3 ++
  Provider.DataSourcesMap.part4 ++
  Provider.DataSourcesMap.part5

/-- The field `DataSourcesMap` of the provider returned by `Provider()`. -/
def Provider.DataSourcesMap : List (String × String) :=
  mapAssign Provider.DataSourcesMap.literal "aws_serverlessapplicationrepository_application"
    "serverlessapprepo.DataSourceApplication"

def Provider.ResourcesMap.part1 : List (String × String) :=
  [("aws_accessanalyzer_analyzer", "accessanalyzer.ResourceAnalyzer"),
   ("aws_acm_certificate", "acm.ResourceCertificate"),
   ("aws_acm_certificate_validation", "acm.ResourceCertificateValidation"),
   ("aws_acmpca_certificate_authority", "acmpca.ResourceCertificateAuthority"),
   ("aws_acmpca_certificate_authority_certificate", "acmpca.ResourceCertificateAuthorityCertificate"),
   ("aws_acmpca_certificate", "acmpca.ResourceCertificate"),
   ("aws_ami", "ec2.ResourceAMI"),
   ("aws_ami_copy", "ec2.ResourceAMICopy"),
   ("aws_ami_from_instance", "ec2.ResourceAMIFromInstance"),
   ("aws_ami_launch_permission", "ec2.ResourceAMILaunchPermission"),
   ("aws_amplify_app", "amplify.ResourceApp"),
   ("aws_amplify_backend_environment", "amplify.ResourceBackendEnvironment"),
   ("aws_amplify_branch", "amplify.ResourceBranch"),
   ("aws_amplify_domain_association", "amplify.ResourceDomainAssociation"),
   ("aws_amplify_webhook", "amplify.ResourceWebhook"),
   ("aws_api_gateway_account", "apigateway.ResourceAccount"),
   ("aws_api_gateway_api_key", "apigateway.ResourceAPIKey"),
   ("aws_api_gateway_authorizer", "apigateway.ResourceAuthorizer"),
   ("aws_api_gateway_base_path_mapping", "apigateway.ResourceBasePathMapping"),
   ("aws_api_gateway_client_certificate", "apigateway.ResourceClientCertificate"),
   ("aws_api_gateway_deployment", "apigateway.ResourceDeployment"),
   ("aws_api_gateway_documentation_part", "apigateway.ResourceDocumentationPart"),
   ("aws_api_gateway_documentation_version", "apigateway.ResourceDocumentationVersion"),
   ("aws_api_gateway_domain_name", "apigateway.ResourceDomainName"),
   ("aws_api_gateway_gateway_response", "apigateway.ResourceGatewayResponse"),
   ("aws_api_gateway_integration", "apigateway.ResourceIntegration"),
   ("aws_api_gateway_integration_response", "apigateway.ResourceIntegrationResponse"),
   ("aws_api_gateway_method", "apigateway.ResourceMethod"),
   ("aws_api_gateway_method_response", "apigateway.ResourceMethodResponse"),
   ("aws_api_gateway_method_settings", "apigateway.ResourceMethodSettings"),
   ("aws_api_gateway_model", "apigateway.ResourceModel"),
   ("aws_api_gateway_request_validator", "apigateway.ResourceRequestValidator"),
   ("aws_api_gateway_resource", "apigateway.ResourceResource"),
   ("aws_api_gateway_rest_api", "apigateway.ResourceRestAPI"),
   ("aws_api_gateway_rest_api_policy", "apigateway.ResourceRestAPIPolicy"),
   ("aws_api_gateway_stage", "apigateway.ResourceStage"),
   ("aws_api_gateway_usage_plan", "apigateway.ResourceUsagePlan"),
   ("aws_api_gateway_usage_plan_key", "apigateway.ResourceUsagePlanKey"),
   ("aws_api_gateway_vpc_link", "apigateway.ResourceVPCLink"),
   ("aws_apigatewayv2_api", "apigatewayv2.ResourceAPI"),
   ("aws_apigatewayv2_api_mapping", "apigatewayv2.ResourceAPIMapping"),
   ("aws_apigatewayv2_authorizer", "apigatewayv2.ResourceAuthorizer"),
   ("aws_apigatewayv2_deployment", "apigatewayv2.ResourceDeployment"),
   ("aws_apigatewayv2_domain_name", "apigatewayv2.ResourceDomainName"),
   ("aws_apigatewayv2_integration", "apigatewayv2.ResourceIntegration"),
   ("aws_apigatewayv2_integration_response", "apigatewayv2.ResourceIntegrationResponse"),
   ("aws_apigatewayv2_model", "apigatewayv2.ResourceModel"),
   ("aws_apigatewayv2_route", "apigatewayv2.ResourceRoute"),
   ("aws_apigatewayv2_route_response", "apigatewayv2.ResourceRouteResponse"),
   ("aws_apigatewayv2_stage", "apigatewayv2.ResourceStage"),
   ("aws_apigatewayv2_vpc_link", "apigatewayv2.ResourceVPCLink"),
   ("aws_app_cookie_stickiness_policy", "elb.ResourceAppCookieStickinessPolicy"),
   ("aws_appautoscaling_target", "applicationautoscaling.ResourceTarget"),
   ("aws_appautoscaling_policy", "applicationautoscaling.ResourcePolicy"),
   ("aws_appautoscaling_scheduled_action", "applicationautoscaling.ResourceScheduledAction"),
   ("aws_appconfig_application", "appconfig.ResourceApplication"),
   ("aws_appconfig_configuration_profile", "appconfig.ResourceConfigurationProfile"),
   ("aws_appconfig_deployment", "appconfig.ResourceDeployment"),
   ("aws_appconfig_deployment_strategy", "appconfig.ResourceDeploymentStrategy"),
   ("aws_appconfig_environment", "appconfig.ResourceEnvironment")]

def Provider.ResourcesMap.part2 : List (String × String) :=
  [("aws_appconfig_hosted_configuration_version", "appconfig.ResourceHostedConfigurationVersion"),
   ("aws_appmesh_gateway_route", "appmesh.ResourceGatewayRoute"),
   ("aws_appmesh_mesh", "appmesh.ResourceMesh"),
   ("aws_appmesh_route", "appmesh.ResourceRoute"),
   ("aws_appmesh_virtual_gateway", "appmesh.ResourceVirtualGateway"),
   ("aws_appmesh_virtual_node", "appmesh.ResourceVirtualNode"),
   ("aws_appmesh_virtual_router", "appmesh.ResourceVirtualRouter"),
   ("aws_appmesh_virtual_service", "appmesh.ResourceVirtualService"),
   ("aws_apprunner_auto_scaling_configuration_version", "apprunner.ResourceAutoScalingConfigurationVersion"),
   ("aws_apprunner_connection", "apprunner.ResourceConnection"),
   ("aws_apprunner_custom_domain_association", "apprunner.ResourceCustomDomainAssociation"),
   ("aws_apprunner_service", "apprunner.ResourceService"),
   ("aws_appstream_stack", "appstream.ResourceStack"),
   ("aws_appstream_fleet", "appstream.ResourceFleet"),
   ("aws_appstream_image_builder", "appstream.ResourceImageBuilder"),
   ("aws_appsync_api_key", "appsync.ResourceAPIKey"),
   ("aws_appsync_datasource", "appsync.ResourceDataSource"),
   ("aws_appsync_function", "appsync.ResourceFunction"),
   ("aws_appsync_graphql_api", "appsync.ResourceGraphQLAPI"),
   ("aws_appsync_resolver", "appsync.ResourceResolver"),
   ("aws_athena_database", "athena.ResourceDatabase"),
   ("aws_athena_named_query", "athena.ResourceNamedQuery"),
   ("aws_athena_workgroup", "athena.ResourceWorkGroup"),
   ("aws_autoscaling_attachment", "autoscaling.ResourceAttachment"),
   ("aws_autoscaling_group", "autoscaling.ResourceGroup"),
   ("aws_autoscaling_group_tag", "autoscaling.ResourceGroupTag"),
   ("aws_autoscaling_lifecycle_hook", "autoscaling.ResourceLifecycleHook"),
   ("aws_autoscaling_notification", "autoscaling.ResourceNotification"),
   ("aws_autoscaling_policy", "autoscaling.ResourcePolicy"),
   ("aws_autoscaling_schedule", "autoscaling.ResourceSchedule"),
   ("aws_autoscalingplans_scaling_plan", "autoscalingplans.ResourceScalingPlan"),
   ("aws_backup_global_settings", "backup.ResourceGlobalSettings"),
   ("aws_backup_plan", "backup.ResourcePlan"),
   ("aws_backup_region_settings", "backup.ResourceRegionSettings"),
   ("aws_backup_selection", "backup.ResourceSelection"),
   ("aws_backup_vault", "backup.ResourceVault"),
   ("aws_backup_vault_notifications", "backup.ResourceVaultNotifications"),
   ("aws_backup_vault_policy", "backup.ResourceVaultPolicy"),
   ("aws_budgets_budget", "budgets.ResourceBudget"),
   ("aws_budgets_budget_action", "budgets.ResourceBudgetAction"),
   ("aws_chime_voice_connector", "chime.ResourceVoiceConnector"),
   ("aws_chime_voice_connector_group", "chime.ResourceVoiceConnectorGroup"),
   ("aws_chime_voice_connector_logging", "chime.ResourceVoiceConnectorLogging"),
   ("aws_chime_voice_connector_streaming", "chime.ResourceVoiceConnectorStreaming"),
   ("aws_chime_voice_connector_origination", "chime.ResourceVoiceConnectorOrigination"),
   ("aws_chime_voice_connector_termination", "chime.ResourceVoiceConnectorTermination"),
   ("aws_cloud9_environment_ec2", "cloud9.ResourceEnvironmentEC2"),
   ("aws_cloudformation_stack", "cloudformation.ResourceStack"),
   ("aws_cloudformation_stack_set", "cloudformation.ResourceStackSet"),
   ("aws_cloudformation_stack_set_instance", "cloudformation.ResourceStackSetInstance"),
   ("aws_cloudformation_type", "cloudformation.ResourceType"),
   ("aws_cloudfront_cache_policy", "cloudfront.ResourceCachePolicy"),
   ("aws_cloudfront_distribution", "cloudfront.ResourceDistribution"),
   ("aws_cloudfront_function", "cloudfront.ResourceFunction"),
   ("aws_cloudfront_key_group", "cloudfront.ResourceKeyGroup"),
   ("aws_cloudfront_monitoring_subscription", "cloudfront.ResourceMonitoringSubscription"),
   ("aws_cloudfront_origin_access_identity", "cloudfront.ResourceOriginAccessIdentity"),
   ("aws_cloudfront_origin_request_policy", "cloudfront.ResourceOriginRequestPolicy"),
   ("aws_cloudfront_public_key", "cloudfront.ResourcePublicKey"),
   ("aws_cloudfront_realtime_log_config", "cloudfront.ResourceRealtimeLogConfig")]

def Provider.ResourcesMap.part3 : List (String × String) :=
  [("aws_cloudtrail", "cloudtrail.Resource"),
   ("aws_cloudwatch_event_bus", "cloudwatchevents.ResourceBus"),
   ("aws_cloudwatch_event_bus_policy", "cloudwatchevents.ResourceBusPolicy"),
   ("aws_cloudwatch_event_permission", "cloudwatchevents.ResourcePermission"),
   ("aws_cloudwatch_event_rule", "cloudwatchevents.ResourceRule"),
   ("aws_cloudwatch_event_target", "cloudwatchevents.ResourceTarget"),
   ("aws_cloudwatch_event_archive", "cloudwatchevents.ResourceArchive"),
   ("aws_cloudwatch_event_connection", "cloudwatchevents.ResourceConnection"),
   ("aws_cloudwatch_event_api_destination", "cloudwatchevents.ResourceAPIDestination"),
   ("aws_cloudwatch_log_destination", "cloudwatchlogs.ResourceDestination"),
   ("aws_cloudwatch_log_destination_policy", "cloudwatchlogs.ResourceDestinationPolicy"),
   ("aws_cloudwatch_log_group", "cloudwatchlogs.ResourceGroup"),
   ("aws_cloudwatch_log_metric_filter", "cloudwatchlogs.ResourceMetricFilter"),
   ("aws_cloudwatch_log_resource_policy", "cloudwatchlogs.ResourceResourcePolicy"),
   ("aws_cloudwatch_log_stream", "cloudwatchlogs.ResourceStream"),
   ("aws_cloudwatch_log_subscription_filter", "cloudwatchlogs.ResourceSubscriptionFilter"),
   ("aws_config_aggregate_authorization", "config.ResourceAggregateAuthorization"),
   ("aws_config_config_rule", "config.ResourceConfigRule"),
   ("aws_config_configuration_aggregator", "config.ResourceConfigurationAggregator"),
   ("aws_config_configuration_recorder", "config.ResourceConfigurationRecorder"),
   ("aws_config_configuration_recorder_status", "config.ResourceConfigurationRecorderStatus"),
   ("aws_config_conformance_pack", "config.ResourceConformancePack"),
   ("aws_config_delivery_channel", "config.ResourceDeliveryChannel"),
   ("aws_config_organization_conformance_pack", "config.ResourceOrganizationConformancePack"),
   ("aws_config_organization_custom_rule", "config.ResourceOrganizationCustomRule"),
   ("aws_config_organization_managed_rule", "config.ResourceOrganizationManagedRule"),
   ("aws_config_remediation_configuration", "config.ResourceRemediationConfiguration"),
   ("aws_cognito_identity_pool", "cognitoidentity.ResourcePool"),
   ("aws_cognito_identity_pool_roles_attachment", "cognitoidentity.ResourcePoolRolesAttachment"),
   ("aws_cognito_identity_provider", "cognitoidp.ResourceIdentityProvider"),
   ("aws_cognito_resource_server", "cognitoidp.ResourceResourceServer"),
   ("aws_cognito_user_group", "cognitoidp.ResourceUserGroup"),
   ("aws_cognito_user_pool", "cognitoidp.ResourceUserPool"),
   ("aws_cognito_user_pool_client", "cognitoidp.ResourceUserPoolClient"),
   ("aws_cognito_user_pool_domain", "cognitoidp.ResourceUserPoolDomain"),
   ("aws_cognito_user_pool_ui_customization", "cognitoidp.ResourceUserPoolUICustomization"),
   ("aws_cloudhsm_v2_cluster", "cloudhsmv2.ResourceCluster"),
   ("aws_cloudhsm_v2_hsm", "cloudhsmv2.ResourceHSM"),
   ("aws_cloudwatch_composite_alarm", "cloudwatch.ResourceCompositeAlarm"),
   ("aws_cloudwatch_metric_alarm", "cloudwatch.ResourceMetricAlarm"),
   ("aws_cloudwatch_dashboard", "cloudwatch.ResourceDashboard"),
   ("aws_cloudwatch_metric_stream", "cloudwatch.ResourceMetricStream"),
   ("aws_cloudwatch_query_definition", "cloudwatchlogs.ResourceQueryDefinition"),
   ("aws_codedeploy_app", "codedeploy.ResourceApp"),
   ("aws_codedeploy_deployment_config", "codedeploy.ResourceDeploymentConfig"),
   ("aws_codedeploy_deployment_group", "codedeploy.ResourceDeploymentGroup"),
   ("aws_codecommit_repository", "codecommit.ResourceRepository"),
   ("aws_codecommit_trigger", "codecommit.ResourceTrigger"),
   ("aws_codeartifact_domain", "codeartifact.ResourceDomain"),
   ("aws_codeartifact_domain_permissions_policy", "codeartifact.ResourceDomainPermissionsPolicy"),
   ("aws_codeartifact_repository", "codeartifact.ResourceRepository"),
   ("aws_codeartifact_repository_permissions_policy", "codeartifact.ResourceRepositoryPermissionsPolicy"),
   ("aws_codebuild_project", "codebuild.ResourceProject"),
   ("aws_codebuild_report_group", "codebuild.ResourceReportGroup"),
   ("aws_codebuild_source_credential", "codebuild.ResourceSourceCredential"),
   ("aws_codebuild_webhook", "codebuild.ResourceWebhook"),
   ("aws_codepipeline", "codepipeline.Resource"),
   ("aws_codepipeline_webhook", "codepipeline.ResourceWebhook"),
   ("aws_codestarconnections_connection", "codestarconnections.ResourceConnection"),
   ("aws_codestarconnections_host", "codestarconnections.ResourceHost")]

def Provider.ResourcesMap.part4 : List (String × String) :=
  [("aws_codestarnotifications_notification_rule", "codestarnotifications.ResourceNotificationRule"),
   ("aws_connect_contact_flow", "connect.ResourceContactFlow"),
   ("aws_connect_instance", "connect.ResourceInstance"),
   ("aws_cur_report_definition", "cur.ResourceReportDefinition"),
   ("aws_customer_gateway", "ec2.ResourceCustomerGateway"),
   ("aws_datapipeline_pipeline", "datapipeline.ResourcePipeline"),
   ("aws_datasync_agent", "datasync.ResourceAgent"),
   ("aws_datasync_location_efs", "datasync.ResourceLocationEFS"),
   ("aws_datasync_location_fsx_windows_file_system", "datasync.ResourceLocationFSxWindowsFileSystem"),
   ("aws_datasync_location_nfs", "datasync.ResourceLocationNFS"),
   ("aws_datasync_location_s3", "datasync.ResourceLocationS3"),
   ("aws_datasync_location_smb", "datasync.ResourceLocationSMB"),
   ("aws_datasync_task", "datasync.ResourceTask"),
   ("aws_dax_cluster", "dax.ResourceCluster"),
   ("aws_dax_parameter_group", "dax.ResourceParameterGroup"),
   ("aws_dax_subnet_group", "dax.ResourceSubnetGroup"),
   ("aws_db_cluster_snapshot", "rds.ResourceClusterSnapshot"),
   ("aws_db_event_subscription", "rds.ResourceEventSubscription"),
   ("aws_db_instance", "rds.ResourceInstance"),
   ("aws_db_instance_role_association", "rds.ResourceInstanceRoleAssociation"),
   ("aws_db_option_group", "rds.ResourceOptionGroup"),
   ("aws_db_parameter_group", "rds.ResourceParameterGroup"),
   ("aws_db_proxy", "rds.ResourceProxy"),
   ("aws_db_proxy_default_target_group", "rds.ResourceProxyDefaultTargetGroup"),
   ("aws_db_proxy_endpoint", "rds.ResourceProxyEndpoint"),
   ("aws_db_proxy_target", "rds.ResourceProxyTarget"),
   ("aws_db_security_group", "rds.ResourceSecurityGroup"),
   ("aws_db_snapshot", "rds.ResourceSnapshot"),
   ("aws_db_subnet_group", "rds.ResourceSubnetGroup"),
   ("aws_devicefarm_project", "devicefarm.ResourceProject"),
   ("aws_directory_service_directory", "ds.ResourceDirectory"),
   ("aws_directory_service_conditional_forwarder", "ds.ResourceConditionalForwarder"),
   ("aws_directory_service_log_subscription", "ds.ResourceLogSubscription"),
   ("aws_dlm_lifecycle_policy", "dlm.ResourceLifecyclePolicy"),
   ("aws_dms_certificate", "dms.ResourceCertificate"),
   ("aws_dms_endpoint", "dms.ResourceEndpoint"),
   ("aws_dms_event_subscription", "dms.ResourceEventSubscription"),
   ("aws_dms_replication_instance", "dms.ResourceReplicationInstance"),
   ("aws_dms_replication_subnet_group", "dms.ResourceReplicationSubnetGroup"),
   ("aws_dms_replication_task", "dms.ResourceReplicationTask"),
   ("aws_docdb_cluster", "docdb.ResourceCluster"),
   ("aws_docdb_cluster_instance", "docdb.ResourceClusterInstance"),
   ("aws_docdb_cluster_parameter_group", "docdb.ResourceClusterParameterGroup"),
   ("aws_docdb_cluster_snapshot", "docdb.ResourceClusterSnapshot"),
   ("aws_docdb_subnet_group", "docdb.ResourceSubnetGroup"),
   ("aws_dx_bgp_peer", "directconnect.ResourceBGPPeer"),
   ("aws_dx_connection", "directconnect.ResourceConnection"),
   ("aws_dx_connection_association", "directconnect.ResourceConnectionAssociation"),
   ("aws_dx_gateway", "directconnect.ResourceGateway"),
   ("aws_dx_gateway_association", "directconnect.ResourceGatewayAssociation"),
   ("aws_dx_gateway_association_proposal", "directconnect.ResourceGatewayAssociationProposal"),
   ("aws_dx_hosted_private_virtual_interface", "directconnect.ResourceHostedPrivateVirtualInterface"),
   ("aws_dx_hosted_private_virtual_interface_accepter", "directconnect.ResourceHostedPrivateVirtualInterfaceAccepter"),
   ("aws_dx_hosted_public_virtual_interface", "directconnect.ResourceHostedPublicVirtualInterface"),
   ("aws_dx_hosted_public_virtual_interface_accepter", "directconnect.ResourceHostedPublicVirtualInterfaceAccepter"),
   ("aws_dx_hosted_transit_virtual_interface", "directconnect.ResourceHostedTransitVirtualInterface"),
   ("aws_dx_hosted_transit_virtual_interface_accepter", "directconnect.ResourceHostedTransitVirtualInterfaceAccepter"),
   ("aws_dx_lag", "directconnect.ResourceLag"),
   ("aws_dx_private_virtual_interface", "directconnect.ResourcePrivateVirtualInterface"),
   ("aws_dx_public_virtual_interface", "directconnect.ResourcePublicVirtualInterface")]

def Provider.ResourcesMap.part5 : List (String × String) :=
  [("aws_dx_transit_virtual_interface", "directconnect.ResourceTransitVirtualInterface"),
   ("aws_dynamodb_table", "dynamodb.ResourceTable"),
   ("aws_dynamodb_table_item", "dynamodb.ResourceTableItem"),
   ("aws_dynamodb_tag", "dynamodb.ResourceTag"),
   ("aws_dynamodb_global_table", "dynamodb.ResourceGlobalTable"),
   ("aws_dynamodb_kinesis_streaming_destination", "dynamodb.ResourceKinesisStreamingDestination"),
   ("aws_ebs_default_kms_key", "ec2.ResourceEBSDefaultKMSKey"),
   ("aws_ebs_encryption_by_default", "ec2.ResourceEBSEncryptionByDefault"),
   ("aws_ebs_snapshot", "ec2.ResourceEBSSnapshot"),
   ("aws_ebs_snapshot_copy", "ec2.ResourceEBSSnapshotCopy"),
   ("aws_ebs_snapshot_import", "ec2.ResourceEBSSnapshotImport"),
   ("aws_ebs_volume", "ec2.ResourceEBSVolume"),
   ("aws_ec2_availability_zone_group", "ec2.ResourceAvailabilityZoneGroup"),
   ("aws_ec2_capacity_reservation", "ec2.ResourceCapacityReservation"),
   ("aws_ec2_carrier_gateway", "ec2.ResourceCarrierGateway"),
   ("aws_ec2_client_vpn_authorization_rule", "ec2.ResourceClientVPNAuthorizationRule"),
   ("aws_ec2_client_vpn_endpoint", "ec2.ResourceClientVPNEndpoint"),
   ("aws_ec2_client_vpn_network_association", "ec2.ResourceClientVPNNetworkAssociation"),
   ("aws_ec2_client_vpn_route", "ec2.ResourceClientVPNRoute"),
   ("aws_ec2_fleet", "ec2.ResourceFleet"),
   ("aws_ec2_host", "ec2.ResourceHost"),
   ("aws_ec2_local_gateway_route", "ec2.ResourceLocalGatewayRoute"),
   ("aws_ec2_local_gateway_route_table_vpc_association", "ec2.ResourceLocalGatewayRouteTableVPCAssociation"),
   ("aws_ec2_managed_prefix_list", "ec2.ResourceManagedPrefixList"),
   ("aws_ec2_managed_prefix_list_entry", "ec2.ResourceManagedPrefixListEntry"),
   ("aws_ec2_tag", "ec2.ResourceTag"),
   ("aws_ec2_traffic_mirror_filter", "ec2.ResourceTrafficMirrorFilter"),
   ("aws_ec2_traffic_mirror_filter_rule", "ec2.ResourceTrafficMirrorFilterRule"),
   ("aws_ec2_traffic_mirror_target", "ec2.ResourceTrafficMirrorTarget"),
   ("aws_ec2_traffic_mirror_session", "ec2.ResourceTrafficMirrorSession"),
   ("aws_ec2_transit_gateway", "ec2.ResourceTransitGateway"),
   ("aws_ec2_transit_gateway_peering_attachment", "ec2.ResourceTransitGatewayPeeringAttachment"),
   ("aws_ec2_transit_gateway_peering_attachment_accepter", "ec2.ResourceTransitGatewayPeeringAttachmentAccepter"),
   ("aws_ec2_transit_gateway_prefix_list_reference", "ec2.ResourceTransitGatewayPrefixListReference"),
   ("aws_ec2_transit_gateway_route", "ec2.ResourceTransitGatewayRoute"),
   ("aws_ec2_transit_gateway_route_table", "ec2.ResourceTransitGatewayRouteTable"),
   ("aws_ec2_transit_gateway_route_table_association", "ec2.ResourceTransitGatewayRouteTableAssociation"),
   ("aws_ec2_transit_gateway_route_table_propagation", "ec2.ResourceTransitGatewayRouteTablePropagation"),
   ("aws_ec2_transit_gateway_vpc_attachment", "ec2.ResourceTransitGatewayVPCAttachment"),
   ("aws_ec2_transit_gateway_vpc_attachment_accepter", "ec2.ResourceTransitGatewayVPCAttachmentAccepter"),
   ("aws_ecr_lifecycle_policy", "ecr.ResourceLifecyclePolicy"),
   ("aws_ecrpublic_repository", "ecrpublic.ResourceRepository"),
   ("aws_ecr_registry_policy", "ecr.ResourceRegistryPolicy"),
   ("aws_ecr_replication_configuration", "ecr.ResourceReplicationConfiguration"),
   ("aws_ecr_repository", "ecr.ResourceRepository"),
   ("aws_ecr_repository_policy", "ecr.ResourceRepositoryPolicy"),
   ("aws_ecs_capacity_provider", "ecs.ResourceCapacityProvider"),
   ("aws_ecs_cluster", "ecs.ResourceCluster"),
   ("aws_ecs_service", "ecs.ResourceService"),
   ("aws_ecs_tag", "ecs.ResourceTag"),
   ("aws_ecs_task_definition", "ecs.ResourceTaskDefinition"),
   ("aws_efs_access_point", "efs.ResourceAccessPoint"),
   ("aws_efs_backup_policy", "efs.ResourceBackupPolicy"),
   ("aws_efs_file_system", "efs.ResourceFileSystem"),
   ("aws_efs_file_system_policy", "efs.ResourceFileSystemPolicy"),
   ("aws_efs_mount_target", "efs.ResourceMountTarget"),
   ("aws_egress_only_internet_gateway", "ec2.ResourceEgressOnlyInternetGateway"),
   ("aws_eip", "ec2.ResourceEIP"),
   ("aws_eip_association", "ec2.ResourceEIPAssociation"),
   ("aws_eks_cluster", "eks.ResourceCluster")]

def Provider.ResourcesMap.part6 : List (String × String) :=
  [("aws_eks_addon", "eks.ResourceAddon"),
   ("aws_eks_fargate_profile", "eks.ResourceFargateProfile"),
   ("aws_eks_identity_provider_config", "eks.ResourceIdentityProviderConfig"),
   ("aws_eks_node_group", "eks.ResourceNodeGroup"),
   ("aws_elasticache_cluster", "elasticache.ResourceCluster"),
   ("aws_elasticache_global_replication_group", "elasticache.ResourceGlobalReplicationGroup"),
   ("aws_elasticache_parameter_group", "elasticache.ResourceParameterGroup"),
   ("aws_elasticache_replication_group", "elasticache.ResourceReplicationGroup"),
   ("aws_elasticache_security_group", "elasticache.ResourceSecurityGroup"),
   ("aws_elasticache_subnet_group", "elasticache.ResourceSubnetGroup"),
   ("aws_elasticache_user", "elasticache.ResourceUser"),
   ("aws_elasticache_user_group", "elasticache.ResourceUserGroup"),
   ("aws_elastic_beanstalk_application", "elasticbeanstalk.ResourceApplication"),
   ("aws_elastic_beanstalk_application_version", "elasticbeanstalk.ResourceApplicationVersion"),
   ("aws_elastic_beanstalk_configuration_template", "elasticbeanstalk.ResourceConfigurationTemplate"),
   ("aws_elastic_beanstalk_environment", "elasticbeanstalk.ResourceEnvironment"),
   ("aws_elasticsearch_domain", "elasticsearch.ResourceDomain"),
   ("aws_elasticsearch_domain_policy", "elasticsearch.ResourceDomainPolicy"),
   ("aws_elasticsearch_domain_saml_options", "elasticsearch.ResourceDomainSAMLOptions"),
   ("aws_elastictranscoder_pipeline", "elastictranscoder.ResourcePipeline"),
   ("aws_elastictranscoder_preset", "elastictranscoder.ResourcePreset"),
   ("aws_elb", "elb.ResourceLoadBalancer"),
   ("aws_elb_attachment", "elb.ResourceAttachment"),
   ("aws_emr_cluster", "emr.ResourceCluster"),
   ("aws_emr_instance_group", "emr.ResourceInstanceGroup"),
   ("aws_emr_instance_fleet", "emr.ResourceInstanceFleet"),
   ("aws_emr_managed_scaling_policy", "emr.ResourceManagedScalingPolicy"),
   ("aws_emr_security_configuration", "emr.ResourceSecurityConfiguration"),
   ("aws_flow_log", "ec2.ResourceFlowLog"),
   ("aws_fsx_backup", "fsx.ResourceBackup"),
   ("aws_fsx_lustre_file_system", "fsx.ResourceLustreFileSystem"),
   ("aws_fsx_ontap_file_system", "fsx.ResourceOntapFileSystem"),
   ("aws_fsx_windows_file_system", "fsx.ResourceWindowsFileSystem"),
   ("aws_fms_admin_account", "fms.ResourceAdminAccount"),
   ("aws_fms_policy", "fms.ResourcePolicy"),
   ("aws_gamelift_alias", "gamelift.ResourceAlias"),
   ("aws_gamelift_build", "gamelift.ResourceBuild"),
   ("aws_gamelift_fleet", "gamelift.ResourceFleet"),
   ("aws_gamelift_game_session_queue", "gamelift.ResourceGameSessionQueue"),
   ("aws_glacier_vault", "glacier.ResourceVault"),
   ("aws_glacier_vault_lock", "glacier.ResourceVaultLock"),
   ("aws_globalaccelerator_accelerator", "globalaccelerator.ResourceAccelerator"),
   ("aws_globalaccelerator_endpoint_group", "globalaccelerator.ResourceEndpointGroup"),
   ("aws_globalaccelerator_listener", "globalaccelerator.ResourceListener"),
   ("aws_glue_catalog_database", "glue.ResourceCatalogDatabase"),
   ("aws_glue_catalog_table", "glue.ResourceCatalogTable"),
   ("aws_glue_classifier", "glue.ResourceClassifier"),
   ("aws_glue_connection", "glue.ResourceConnection"),
   ("aws_glue_dev_endpoint", "glue.ResourceDevEndpoint"),
   ("aws_glue_crawler", "glue.ResourceCrawler"),
   ("aws_glue_data_catalog_encryption_settings", "glue.ResourceDataCatalogEncryptionSettings"),
   ("aws_glue_job", "glue.ResourceJob"),
   ("aws_glue_ml_transform", "glue.ResourceMLTransform"),
   ("aws_glue_partition", "glue.ResourcePartition"),
   ("aws_glue_registry", "glue.ResourceRegistry"),
   ("aws_glue_resource_policy", "glue.ResourceResourcePolicy"),
   ("aws_glue_schema", "glue.ResourceSchema"),
   ("aws_glue_security_configuration", "glue.ResourceSecurityConfiguration"),
   ("aws_glue_trigger", "glue.ResourceTrigger"),
   ("aws_glue_user_defined_function", "glue.ResourceUserDefinedFunction")]

def Provider.ResourcesMap.part7 : List (String × String) :=
  [("aws_glue_workflow", "glue.ResourceWorkflow"),
   ("aws_guardduty_detector", "guardduty.ResourceDetector"),
   ("aws_guardduty_filter", "guardduty.ResourceFilter"),
   ("aws_guardduty_invite_accepter", "guardduty.ResourceInviteAccepter"),
   ("aws_guardduty_ipset", "guardduty.ResourceIPSet"),
   ("aws_guardduty_member", "guardduty.ResourceMember"),
   ("aws_guardduty_organization_admin_account", "guardduty.ResourceOrganizationAdminAccount"),
   ("aws_guardduty_organization_configuration", "guardduty.ResourceOrganizationConfiguration"),
   ("aws_guardduty_publishing_destination", "guardduty.ResourcePublishingDestination"),
   ("aws_guardduty_threatintelset", "guardduty.ResourceThreatintelset"),
   ("aws_iam_access_key", "iam.ResourceAccessKey"),
   ("aws_iam_account_alias", "iam.ResourceAccountAlias"),
   ("aws_iam_account_password_policy", "iam.ResourceAccountPasswordPolicy"),
   ("aws_iam_group_policy", "iam.ResourceGroupPolicy"),
   ("aws_iam_group", "iam.ResourceGroup"),
   ("aws_iam_group_membership", "iam.ResourceGroupMembership"),
   ("aws_iam_group_policy_attachment", "iam.ResourceGroupPolicyAttachment"),
   ("aws_iam_instance_profile", "iam.ResourceInstanceProfile"),
   ("aws_iam_openid_connect_provider", "iam.ResourceOpenIDConnectProvider"),
   ("aws_iam_policy", "iam.ResourcePolicy"),
   ("aws_iam_policy_attachment", "iam.ResourcePolicyAttachment"),
   ("aws_iam_role_policy_attachment", "iam.ResourceRolePolicyAttachment"),
   ("aws_iam_role_policy", "iam.ResourceRolePolicy"),
   ("aws_iam_role", "iam.ResourceRole"),
   ("aws_iam_saml_provider", "iam.ResourceSamlProvider"),
   ("aws_iam_server_certificate", "iam.ResourceServerCertificate"),
   ("aws_iam_service_linked_role", "iam.ResourceServiceLinkedRole"),
   ("aws_iam_user_group_membership", "iam.ResourceUserGroupMembership"),
   ("aws_iam_user_policy_attachment", "iam.ResourceUserPolicyAttachment"),
   ("aws_iam_user_policy", "iam.ResourceUserPolicy"),
   ("aws_iam_user_ssh_key", "iam.ResourceUserSSHKey"),
   ("aws_iam_user", "iam.ResourceUser"),
   ("aws_iam_user_login_profile", "iam.ResourceUserLoginProfile"),
   ("aws_imagebuilder_component", "imagebuilder.ResourceComponent"),
   ("aws_imagebuilder_distribution_configuration", "imagebuilder.ResourceDistributionConfiguration"),
   ("aws_imagebuilder_image", "imagebuilder.ResourceImage"),
   ("aws_imagebuilder_image_pipeline", "imagebuilder.ResourceImagePipeline"),
   ("aws_imagebuilder_image_recipe", "imagebuilder.ResourceImageRecipe"),
   ("aws_imagebuilder_infrastructure_configuration", "imagebuilder.ResourceInfrastructureConfiguration"),
   ("aws_inspector_assessment_target", "inspector.ResourceAssessmentTarget"),
   ("aws_inspector_assessment_template", "inspector.ResourceAssessmentTemplate"),
   ("aws_inspector_resource_group", "inspector.ResourceResourceGroup"),
   ("aws_instance", "ec2.ResourceInstance"),
   ("aws_internet_gateway", "ec2.ResourceInternetGateway"),
   ("aws_iot_authorizer", "iot.ResourceAuthorizer"),
   ("aws_iot_certificate", "iot.ResourceCertificate"),
   ("aws_iot_policy", "iot.ResourcePolicy"),
   ("aws_iot_policy_attachment", "iot.ResourcePolicyAttachment"),
   ("aws_iot_thing", "iot.ResourceThing"),
   ("aws_iot_thing_principal_attachment", "iot.ResourceThingPrincipalAttachment"),
   ("aws_iot_thing_type", "iot.ResourceThingType"),
   ("aws_iot_topic_rule", "iot.ResourceTopicRule"),
   ("aws_iot_role_alias", "iot.ResourceRoleAlias"),
   ("aws_key_pair", "ec2.ResourceKeyPair"),
   ("aws_kinesis_analytics_application", "kinesisanalytics.ResourceApplication"),
   ("aws_kinesisanalyticsv2_application", "kinesisanalyticsv2.ResourceApplication"),
   ("aws_kinesisanalyticsv2_application_snapshot", "kinesisanalyticsv2.ResourceApplicationSnapshot"),
   ("aws_kinesis_firehose_delivery_stream", "firehose.ResourceDeliveryStream"),
   ("aws_kinesis_stream", "kinesis.ResourceStream"),
   ("aws_kinesis_stream_consumer", "kinesis.ResourceStreamConsumer")]

def Provider.ResourcesMap.part8 : List (String × String) :=
  [("aws_kinesis_video_stream", "kinesisvideo.ResourceStream"),
   ("aws_kms_alias", "kms.ResourceAlias"),
   ("aws_kms_external_key", "kms.ResourceExternalKey"),
   ("aws_kms_grant", "kms.ResourceGrant"),
   ("aws_kms_key", "kms.ResourceKey"),
   ("aws_kms_ciphertext", "kms.ResourceCiphertext"),
   ("aws_lakeformation_data_lake_settings", "lakeformation.ResourceDataLakeSettings"),
   ("aws_lakeformation_permissions", "lakeformation.ResourcePermissions"),
   ("aws_lakeformation_resource", "lakeformation.ResourceResource"),
   ("aws_lambda_alias", "lambda.ResourceAlias"),
   ("aws_lambda_code_signing_config", "lambda.ResourceCodeSigningConfig"),
   ("aws_lambda_event_source_mapping", "lambda.ResourceEventSourceMapping"),
   ("aws_lambda_function_event_invoke_config", "lambda.ResourceFunctionEventInvokeConfig"),
   ("aws_lambda_function", "lambda.ResourceFunction"),
   ("aws_lambda_layer_version", "lambda.ResourceLayerVersion"),
   ("aws_lambda_permission", "lambda.ResourcePermission"),
   ("aws_lambda_provisioned_concurrency_config", "lambda.ResourceProvisionedConcurrencyConfig"),
   ("aws_launch_configuration", "autoscaling.ResourceLaunchConfiguration"),
   ("aws_launch_template", "ec2.ResourceLaunchTemplate"),
   ("aws_lex_bot", "lexmodelbuilding.ResourceBot"),
   ("aws_lex_bot_alias", "lexmodelbuilding.ResourceBotAlias"),
   ("aws_lex_intent", "lexmodelbuilding.ResourceIntent"),
   ("aws_lex_slot_type", "lexmodelbuilding.ResourceSlotType"),
   ("aws_licensemanager_association", "licensemanager.ResourceAssociation"),
   ("aws_licensemanager_license_configuration", "licensemanager.ResourceLicenseConfiguration"),
   ("aws_lightsail_domain", "lightsail.ResourceDomain"),
   ("aws_lightsail_instance", "lightsail.ResourceInstance"),
   ("aws_lightsail_instance_public_ports", "lightsail.ResourceInstancePublicPorts"),
   ("aws_lightsail_key_pair", "lightsail.ResourceKeyPair"),
   ("aws_lightsail_static_ip", "lightsail.ResourceStaticIP"),
   ("aws_lightsail_static_ip_attachment", "lightsail.ResourceStaticIPAttachment"),
   ("aws_lb_cookie_stickiness_policy", "elb.ResourceCookieStickinessPolicy"),
   ("aws_load_balancer_policy", "elb.ResourcePolicy"),
   ("aws_load_balancer_backend_server_policy", "elb.ResourceBackendServerPolicy"),
   ("aws_load_balancer_listener_policy", "elb.ResourceListenerPolicy"),
   ("aws_lb_ssl_negotiation_policy", "elb.ResourceSSLNegotiationPolicy"),
   ("aws_macie2_account", "macie2.ResourceAccount"),
   ("aws_macie2_classification_job", "macie2.ResourceClassificationJob"),
   ("aws_macie2_custom_data_identifier", "macie2.ResourceCustomDataIdentifier"),
   ("aws_macie2_findings_filter", "macie2.ResourceFindingsFilter"),
   ("aws_macie2_invitation_accepter", "macie2.ResourceInvitationAccepter"),
   ("aws_macie2_member", "macie2.ResourceMember"),
   ("aws_macie2_organization_admin_account", "macie2.ResourceOrganizationAdminAccount"),
   ("aws_macie_member_account_association", "macie.ResourceMemberAccountAssociation"),
   ("aws_macie_s3_bucket_association", "macie.ResourceS3BucketAssociation"),
   ("aws_main_route_table_association", "ec2.ResourceMainRouteTableAssociation"),
   ("aws_mq_broker", "mq.ResourceBroker"),
   ("aws_mq_configuration", "mq.ResourceConfiguration"),
   ("aws_media_convert_queue", "mediaconvert.ResourceQueue"),
   ("aws_media_package_channel", "mediapackage.ResourceChannel"),
   ("aws_media_store_container", "mediastore.ResourceContainer"),
   ("aws_media_store_container_policy", "mediastore.ResourceContainerPolicy"),
   ("aws_msk_cluster", "kafka.ResourceCluster"),
   ("aws_msk_configuration", "kafka.ResourceConfiguration"),
   ("aws_msk_scram_secret_association", "kafka.ResourceScramSecretAssociation"),
   ("aws_mwaa_environment", "mwaa.ResourceEnvironment"),
   ("aws_nat_gateway", "ec2.ResourceNatGateway"),
   ("aws_network_acl", "ec2.ResourceNetworkACL"),
   ("aws_default_network_acl", "ec2.ResourceDefaultNetworkACL"),
   ("aws_neptune_cluster", "neptune.ResourceCluster")]

def Provider.ResourcesMap.part9 : List (String × String) :=
  [("aws_neptune_cluster_endpoint", "neptune.ResourceClusterEndpoint"),
   ("aws_neptune_cluster_instance", "neptune.ResourceClusterInstance"),
   ("aws_neptune_cluster_parameter_group", "neptune.ResourceClusterParameterGroup"),
   ("aws_neptune_cluster_snapshot", "neptune.ResourceClusterSnapshot"),
   ("aws_neptune_event_subscription", "neptune.ResourceEventSubscription"),
   ("aws_neptune_parameter_group", "neptune.ResourceParameterGroup"),
   ("aws_neptune_subnet_group", "neptune.ResourceSubnetGroup"),
   ("aws_network_acl_rule", "ec2.ResourceNetworkACLRule"),
   ("aws_network_interface", "ec2.ResourceNetworkInterface"),
   ("aws_network_interface_attachment", "ec2.ResourceNetworkInterfaceAttachment"),
   ("aws_networkfirewall_firewall", "networkfirewall.ResourceFirewall"),
   ("aws_networkfirewall_firewall_policy", "networkfirewall.ResourceFirewallPolicy"),
   ("aws_networkfirewall_logging_configuration", "networkfirewall.ResourceLoggingConfiguration"),
   ("aws_networkfirewall_resource_policy", "networkfirewall.ResourceResourcePolicy"),
   ("aws_networkfirewall_rule_group", "networkfirewall.ResourceRuleGroup"),
   ("aws_opsworks_application", "opsworks.ResourceApplication"),
   ("aws_opsworks_stack", "opsworks.ResourceStack"),
   ("aws_opsworks_java_app_layer", "opsworks.ResourceJavaAppLayer"),
   ("aws_opsworks_haproxy_layer", "opsworks.ResourceHAProxyLayer"),
   ("aws_opsworks_static_web_layer", "opsworks.ResourceStaticWebLayer"),
   ("aws_opsworks_php_app_layer", "opsworks.ResourcePHPAppLayer"),
   ("aws_opsworks_rails_app_layer", "opsworks.ResourceRailsAppLayer"),
   ("aws_opsworks_nodejs_app_layer", "opsworks.ResourceNodejsAppLayer"),
   ("aws_opsworks_memcached_layer", "opsworks.ResourceMemcachedLayer"),
   ("aws_opsworks_mysql_layer", "opsworks.ResourceMySQLLayer"),
   ("aws_opsworks_ganglia_layer", "opsworks.ResourceGangliaLayer"),
   ("aws_opsworks_custom_layer", "opsworks.ResourceCustomLayer"),
   ("aws_opsworks_instance", "opsworks.ResourceInstance"),
   ("aws_opsworks_user_profile", "opsworks.ResourceUserProfile"),
   ("aws_opsworks_permission", "opsworks.ResourcePermission"),
   ("aws_opsworks_rds_db_instance", "opsworks.ResourceRDSDBInstance"),
   ("aws_organizations_organization", "organizations.ResourceOrganization"),
   ("aws_organizations_account", "organizations.ResourceAccount"),
   ("aws_organizations_delegated_administrator", "organizations.ResourceDelegatedAdministrator"),
   ("aws_organizations_policy", "organizations.ResourcePolicy"),
   ("aws_organizations_policy_attachment", "organizations.ResourcePolicyAttachment"),
   ("aws_organizations_organizational_unit", "organizations.ResourceOrganizationalUnit"),
   ("aws_placement_group", "ec2.ResourcePlacementGroup"),
   ("aws_prometheus_workspace", "prometheus.ResourceWorkspace"),
   ("aws_proxy_protocol_policy", "elb.ResourceProxyProtocolPolicy"),
   ("aws_qldb_ledger", "qldb.ResourceLedger"),
   ("aws_quicksight_data_source", "quicksight.ResourceDataSource"),
   ("aws_quicksight_group", "quicksight.ResourceGroup"),
   ("aws_quicksight_group_membership", "quicksight.ResourceGroupMembership"),
   ("aws_quicksight_user", "quicksight.ResourceUser"),
   ("aws_ram_principal_association", "ram.ResourcePrincipalAssociation"),
   ("aws_ram_resource_association", "ram.ResourceResourceAssociation"),
   ("aws_ram_resource_share", "ram.ResourceResourceShare"),
   ("aws_ram_resource_share_accepter", "ram.ResourceResourceShareAccepter"),
   ("aws_rds_cluster", "rds.ResourceCluster"),
   ("aws_rds_cluster_endpoint", "rds.ResourceClusterEndpoint"),
   ("aws_rds_cluster_instance", "rds.ResourceClusterInstance"),
   ("aws_rds_cluster_parameter_group", "rds.ResourceClusterParameterGroup"),
   ("aws_rds_cluster_role_association", "rds.ResourceClusterRoleAssociation"),
   ("aws_rds_global_cluster", "rds.ResourceGlobalCluster"),
   ("aws_redshift_cluster", "redshift.ResourceCluster"),
   ("aws_redshift_security_group", "redshift.ResourceSecurityGroup"),
   ("aws_redshift_parameter_group", "redshift.ResourceParameterGroup"),
   ("aws_redshift_subnet_group", "redshift.ResourceSubnetGroup"),
   ("aws_redshift_snapshot_copy_grant", "redshift.ResourceSnapshotCopyGrant")]

def Provider.ResourcesMap.part10 : List (String × String) :=
  [("aws_redshift_snapshot_schedule", "redshift.ResourceSnapshotSchedule"),
   ("aws_redshift_snapshot_schedule_association", "redshift.ResourceSnapshotScheduleAssociation"),
   ("aws_redshift_event_subscription", "redshift.ResourceEventSubscription"),
   ("aws_redshift_scheduled_action", "redshift.ResourceScheduledAction"),
   ("aws_resourcegroups_group", "resourcegroups.ResourceGroup"),
   ("aws_route53_delegation_set", "route53.ResourceDelegationSet"),
   ("aws_route53_hosted_zone_dnssec", "route53.ResourceHostedZoneDNSSEC"),
   ("aws_route53_key_signing_key", "route53.ResourceKeySigningKey"),
   ("aws_route53_query_log", "route53.ResourceQueryLog"),
   ("aws_route53_record", "route53.ResourceRecord"),
   ("aws_route53_zone_association", "route53.ResourceZoneAssociation"),
   ("aws_route53_vpc_association_authorization", "route53.ResourceVPCAssociationAuthorization"),
   ("aws_route53_zone", "route53.ResourceZone"),
   ("aws_route53_health_check", "route53.ResourceHealthCheck"),
   ("aws_route53_resolver_dnssec_config", "route53resolver.ResourceDNSSECConfig"),
   ("aws_route53_resolver_endpoint", "route53resolver.ResourceEndpoint"),
   ("aws_route53_resolver_firewall_config", "route53resolver.ResourceFirewallConfig"),
   ("aws_route53_resolver_firewall_domain_list", "route53resolver.ResourceFirewallDomainList"),
   ("aws_route53_resolver_firewall_rule", "route53resolver.ResourceFirewallRule"),
   ("aws_route53_resolver_firewall_rule_group", "route53resolver.ResourceFirewallRuleGroup"),
   ("aws_route53_resolver_firewall_rule_group_association", "route53resolver.ResourceFirewallRuleGroupAssociation"),
   ("aws_route53_resolver_query_log_config", "route53resolver.ResourceQueryLogConfig"),
   ("aws_route53_resolver_query_log_config_association", "route53resolver.ResourceQueryLogConfigAssociation"),
   ("aws_route53_resolver_rule_association", "route53resolver.ResourceRuleAssociation"),
   ("aws_route53_resolver_rule", "route53resolver.ResourceRule"),
   ("aws_route53recoverycontrolconfig_cluster", "route53recoverycontrolconfig.ResourceCluster"),
   ("aws_route53recoverycontrolconfig_control_panel", "route53recoverycontrolconfig.ResourceControlPanel"),
   ("aws_route53recoverycontrolconfig_routing_control", "route53recoverycontrolconfig.ResourceRoutingControl"),
   ("aws_route53recoverycontrolconfig_safety_rule", "route53recoverycontrolconfig.ResourceSafetyRule"),
   ("aws_route53recoveryreadiness_cell", "route53recoveryreadiness.ResourceCell"),
   ("aws_route53recoveryreadiness_readiness_check", "route53recoveryreadiness.ResourceReadinessCheck"),
   ("aws_route53recoveryreadiness_recovery_group", "route53recoveryreadiness.ResourceRecoveryGroup"),
   ("aws_route53recoveryreadiness_resource_set", "route53recoveryreadiness.ResourceResourceSet"),
   ("aws_route", "ec2.ResourceRoute"),
   ("aws_route_table", "ec2.ResourceRouteTable"),
   ("aws_default_route_table", "ec2.ResourceDefaultRouteTable"),
   ("aws_route_table_association", "ec2.ResourceRouteTableAssociation"),
   ("aws_sagemaker_app", "sagemaker.ResourceApp"),
   ("aws_sagemaker_app_image_config", "sagemaker.ResourceAppImageConfig"),
   ("aws_sagemaker_code_repository", "sagemaker.ResourceCodeRepository"),
   ("aws_sagemaker_device_fleet", "sagemaker.ResourceDeviceFleet"),
   ("aws_sagemaker_domain", "sagemaker.ResourceDomain"),
   ("aws_sagemaker_endpoint", "sagemaker.ResourceEndpoint"),
   ("aws_sagemaker_endpoint_configuration", "sagemaker.ResourceEndpointConfiguration"),
   ("aws_sagemaker_feature_group", "sagemaker.ResourceFeatureGroup"),
   ("aws_sagemaker_flow_definition", "sagemaker.ResourceFlowDefinition"),
   ("aws_sagemaker_image", "sagemaker.ResourceImage"),
   ("aws_sagemaker_image_version", "sagemaker.ResourceImageVersion"),
   ("aws_sagemaker_human_task_ui", "sagemaker.ResourceHumanTaskUI"),
   ("aws_sagemaker_model", "sagemaker.ResourceModel"),
   ("aws_sagemaker_model_package_group", "sagemaker.ResourceModelPackageGroup"),
   ("aws_sagemaker_notebook_instance_lifecycle_configuration", "sagemaker.ResourceNotebookInstanceLifeCycleConfiguration"),
   ("aws_sagemaker_notebook_instance", "sagemaker.ResourceNotebookInstance"),
   ("aws_sagemaker_studio_lifecycle_config", "sagemaker.ResourceStudioLifecycleConfig"),
   ("aws_sagemaker_user_profile", "sagemaker.ResourceUserProfile"),
   ("aws_sagemaker_workforce", "sagemaker.ResourceWorkforce"),
   ("aws_sagemaker_workteam", "sagemaker.ResourceWorkteam"),
   ("aws_schemas_discoverer", "schemas.ResourceDiscoverer"),
   ("aws_schemas_registry", "schemas.ResourceRegistry"),
   ("aws_schemas_schema", "schemas.ResourceSchema")]

def Provider.ResourcesMap.part11 : List (String × String) :=
  [("aws_secretsmanager_secret", "secretsmanager.ResourceSecret"),
   ("aws_secretsmanager_secret_policy", "secretsmanager.ResourceSecretPolicy"),
   ("aws_secretsmanager_secret_version", "secretsmanager.ResourceSecretVersion"),
   ("aws_secretsmanager_secret_rotation", "secretsmanager.ResourceSecretRotation"),
   ("aws_ses_active_receipt_rule_set", "ses.ResourceActiveReceiptRuleSet"),
   ("aws_ses_domain_identity", "ses.ResourceDomainIdentity"),
   ("aws_ses_domain_identity_verification", "ses.ResourceDomainIdentityVerification"),
   ("aws_ses_domain_dkim", "ses.ResourceDomainDKIM"),
   ("aws_ses_domain_mail_from", "ses.ResourceDomainMailFrom"),
   ("aws_ses_email_identity", "ses.ResourceEmailIdentity"),
   ("aws_ses_identity_policy", "ses.ResourceIdentityPolicy"),
   ("aws_ses_receipt_filter", "ses.ResourceReceiptFilter"),
   ("aws_ses_receipt_rule", "ses.ResourceReceiptRule"),
   ("aws_ses_receipt_rule_set", "ses.ResourceReceiptRuleSet"),
   ("aws_ses_configuration_set", "ses.ResourceConfigurationSet"),
   ("aws_ses_event_destination", "ses.ResourceEventDestination"),
   ("aws_ses_identity_notification_topic", "ses.ResourceIdentityNotificationTopic"),
   ("aws_ses_template", "ses.ResourceTemplate"),
   ("aws_s3_access_point", "s3control.ResourceAccessPoint"),
   ("aws_s3_account_public_access_block", "s3control.ResourceAccountPublicAccessBlock"),
   ("aws_s3_bucket", "s3.ResourceBucket"),
   ("aws_s3_bucket_analytics_configuration", "s3.ResourceBucketAnalyticsConfiguration"),
   ("aws_s3_bucket_policy", "s3.ResourceBucketPolicy"),
   ("aws_s3_bucket_public_access_block", "s3.ResourceBucketPublicAccessBlock"),
   ("aws_s3_bucket_object", "s3.ResourceBucketObject"),
   ("aws_s3_bucket_ownership_controls", "s3.ResourceBucketOwnershipControls"),
   ("aws_s3_bucket_notification", "s3.ResourceBucketNotification"),
   ("aws_s3_bucket_metric", "s3.ResourceBucketMetric"),
   ("aws_s3_bucket_inventory", "s3.ResourceBucketInventory"),
   ("aws_s3_object_copy", "s3.ResourceObjectCopy"),
   ("aws_s3control_bucket", "s3control.ResourceBucket"),
   ("aws_s3control_bucket_policy", "s3control.ResourceBucketPolicy"),
   ("aws_s3control_bucket_lifecycle_configuration", "s3control.ResourceBucketLifecycleConfiguration"),
   ("aws_s3outposts_endpoint", "s3outposts.ResourceEndpoint"),
   ("aws_security_group", "ec2.ResourceSecurityGroup"),
   ("aws_network_interface_sg_attachment", "ec2.ResourceNetworkInterfaceSGAttachment"),
   ("aws_default_security_group", "ec2.ResourceDefaultSecurityGroup"),
   ("aws_security_group_rule", "ec2.ResourceSecurityGroupRule"),
   ("aws_securityhub_account", "securityhub.ResourceAccount"),
   ("aws_securityhub_action_target", "securityhub.ResourceActionTarget"),
   ("aws_securityhub_insight", "securityhub.ResourceInsight"),
   ("aws_securityhub_invite_accepter", "securityhub.ResourceInviteAccepter"),
   ("aws_securityhub_member", "securityhub.ResourceMember"),
   ("aws_securityhub_organization_admin_account", "securityhub.ResourceOrganizationAdminAccount"),
   ("aws_securityhub_organization_configuration", "securityhub.ResourceOrganizationConfiguration"),
   ("aws_securityhub_product_subscription", "securityhub.ResourceProductSubscription"),
   ("aws_securityhub_standards_control", "securityhub.ResourceStandardsControl"),
   ("aws_securityhub_standards_subscription", "securityhub.ResourceStandardsSubscription"),
   ("aws_servicecatalog_budget_resource_association", "servicecatalog.ResourceBudgetResourceAssociation"),
   ("aws_servicecatalog_constraint", "servicecatalog.ResourceConstraint"),
   ("aws_servicecatalog_organizations_access", "servicecatalog.ResourceOrganizationsAccess"),
   ("aws_servicecatalog_portfolio", "servicecatalog.ResourcePortfolio"),
   ("aws_servicecatalog_portfolio_share", "servicecatalog.ResourcePortfolioShare"),
   ("aws_servicecatalog_product", "servicecatalog.ResourceProduct"),
   ("aws_servicecatalog_provisioned_product", "servicecatalog.ResourceProvisionedProduct"),
   ("aws_servicecatalog_service_action", "servicecatalog.ResourceServiceAction"),
   ("aws_servicecatalog_tag_option", "servicecatalog.ResourceTagOption"),
   ("aws_servicecatalog_tag_option_resource_association", "servicecatalog.ResourceTagOptionResourceAssociation"),
   ("aws_servicecatalog_principal_portfolio_association", "servicecatalog.ResourcePrincipalPortfolioAssociation"),
   ("aws_servicecatalog_product_portfolio_association", "servicecatalog.ResourceProductPortfolioAssociation")]

def Provider.ResourcesMap.part12 : List (String × String) :=
  [("aws_servicecatalog_provisioning_artifact", "servicecatalog.ResourceProvisioningArtifact"),
   ("aws_service_discovery_instance", "servicediscovery.ResourceInstance"),
   ("aws_service_discovery_http_namespace", "servicediscovery.ResourceHTTPNamespace"),
   ("aws_service_discovery_private_dns_namespace", "servicediscovery.ResourcePrivateDNSNamespace"),
   ("aws_service_discovery_public_dns_namespace", "servicediscovery.ResourcePublicDNSNamespace"),
   ("aws_service_discovery_service", "servicediscovery.ResourceService"),
   ("aws_servicequotas_service_quota", "servicequotas.ResourceServiceQuota"),
   ("aws_shield_protection", "shield.ResourceProtection"),
   ("aws_shield_protection_group", "shield.ResourceProtectionGroup"),
   ("aws_signer_signing_job", "signer.ResourceSigningJob"),
   ("aws_signer_signing_profile", "signer.ResourceSigningProfile"),
   ("aws_signer_signing_profile_permission", "signer.ResourceSigningProfilePermission"),
   ("aws_simpledb_domain", "simpledb.ResourceDomain"),
   ("aws_ssm_activation", "ssm.ResourceActivation"),
   ("aws_ssm_association", "ssm.ResourceAssociation"),
   ("aws_ssm_document", "ssm.ResourceDocument"),
   ("aws_ssm_maintenance_window", "ssm.ResourceMaintenanceWindow"),
   ("aws_ssm_maintenance_window_target", "ssm.ResourceMaintenanceWindowTarget"),
   ("aws_ssm_maintenance_window_task", "ssm.ResourceMaintenanceWindowTask"),
   ("aws_ssm_patch_baseline", "ssm.ResourcePatchBaseline"),
   ("aws_ssm_patch_group", "ssm.ResourcePatchGroup"),
   ("aws_ssm_parameter", "ssm.ResourceParameter"),
   ("aws_ssm_resource_data_sync", "ssm.ResourceResourceDataSync"),
   ("aws_ssoadmin_account_assignment", "ssoadmin.ResourceAccountAssignment"),
   ("aws_ssoadmin_managed_policy_attachment", "ssoadmin.ResourceManagedPolicyAttachment"),
   ("aws_ssoadmin_permission_set", "ssoadmin.ResourcePermissionSet"),
   ("aws_ssoadmin_permission_set_inline_policy", "ssoadmin.ResourcePermissionSetInlinePolicy"),
   ("aws_storagegateway_cache", "storagegateway.ResourceCache"),
   ("aws_storagegateway_cached_iscsi_volume", "storagegateway.ResourceCachediSCSIVolume"),
   ("aws_storagegateway_file_system_association", "storagegateway.ResourceFileSystemAssociation"),
   ("aws_storagegateway_gateway", "storagegateway.ResourceGateway"),
   ("aws_storagegateway_nfs_file_share", "storagegateway.ResourceNFSFileShare"),
   ("aws_storagegateway_smb_file_share", "storagegateway.ResourceSMBFileShare"),
   ("aws_storagegateway_stored_iscsi_volume", "storagegateway.ResourceStorediSCSIVolume"),
   ("aws_storagegateway_tape_pool", "storagegateway.ResourceTapePool"),
   ("aws_storagegateway_upload_buffer", "storagegateway.ResourceUploadBuffer"),
   ("aws_storagegateway_working_storage", "storagegateway.ResourceWorkingStorage"),
   ("aws_spot_datafeed_subscription", "ec2.ResourceSpotDataFeedSubscription"),
   ("aws_spot_instance_request", "ec2.ResourceSpotInstanceRequest"),
   ("aws_spot_fleet_request", "ec2.ResourceSpotFleetRequest"),
   ("aws_sqs_queue", "sqs.ResourceQueue"),
   ("aws_sqs_queue_policy", "sqs.ResourceQueuePolicy"),
   ("aws_snapshot_create_volume_permission", "ec2.ResourceSnapshotCreateVolumePermission"),
   ("aws_sns_platform_application", "sns.ResourcePlatformApplication"),
   ("aws_sns_sms_preferences", "sns.ResourceSMSPreferences"),
   ("aws_sns_topic", "sns.ResourceTopic"),
   ("aws_sns_topic_policy", "sns.ResourceTopicPolicy"),
   ("aws_sns_topic_subscription", "sns.ResourceTopicSubscription"),
   ("aws_sfn_activity", "sfn.ResourceActivity"),
   ("aws_sfn_state_machine", "sfn.ResourceStateMachine"),
   ("aws_default_subnet", "ec2.ResourceDefaultSubnet"),
   ("aws_subnet", "ec2.ResourceSubnet"),
   ("aws_swf_domain", "swf.ResourceDomain"),
   ("aws_synthetics_canary", "synthetics.ResourceCanary"),
   ("aws_timestreamwrite_database", "timestreamwrite.ResourceDatabase"),
   ("aws_timestreamwrite_table", "timestreamwrite.ResourceTable"),
   ("aws_transfer_server", "transfer.ResourceServer"),
   ("aws_transfer_access", "transfer.ResourceAccess"),
   ("aws_transfer_ssh_key", "transfer.ResourceSSHKey"),
   ("aws_transfer_user", "transfer.ResourceUser")]

def Provider.ResourcesMap.part13 : List (String × String) :=
  [("aws_volume_attachment", "ec2.ResourceVolumeAttachment"),
   ("aws_vpc_dhcp_options_association", "ec2.ResourceVPCDHCPOptionsAssociation"),
   ("aws_default_vpc_dhcp_options", "ec2.ResourceDefaultVPCDHCPOptions"),
   ("aws_vpc_dhcp_options", "ec2.ResourceVPCDHCPOptions"),
   ("aws_vpc_peering_connection", "ec2.ResourceVPCPeeringConnection"),
   ("aws_vpc_peering_connection_accepter", "ec2.ResourceVPCPeeringConnectionAccepter"),
   ("aws_vpc_peering_connection_options", "ec2.ResourceVPCPeeringConnectionOptions"),
   ("aws_default_vpc", "ec2.ResourceDefaultVPC"),
   ("aws_vpc", "ec2.ResourceVPC"),
   ("aws_vpc_endpoint", "ec2.ResourceVPCEndpoint"),
   ("aws_vpc_endpoint_connection_notification", "ec2.ResourceVPCEndpointConnectionNotification"),
   ("aws_vpc_endpoint_route_table_association", "ec2.ResourceVPCEndpointRouteTableAssociation"),
   ("aws_vpc_endpoint_subnet_association", "ec2.ResourceVPCEndpointSubnetAssociation"),
   ("aws_vpc_endpoint_service", "ec2.ResourceVPCEndpointService"),
   ("aws_vpc_endpoint_service_allowed_principal", "ec2.ResourceVPCEndpointServiceAllowedPrincipal"),
   ("aws_vpc_ipv4_cidr_block_association", "ec2.ResourceVPCIPv4CIDRBlockAssociation"),
   ("aws_vpn_connection", "ec2.ResourceVPNConnection"),
   ("aws_vpn_connection_route", "ec2.ResourceVPNConnectionRoute"),
   ("aws_vpn_gateway", "ec2.ResourceVPNGateway"),
   ("aws_vpn_gateway_attachment", "ec2.ResourceVPNGatewayAttachment"),
   ("aws_vpn_gateway_route_propagation", "ec2.ResourceVPNGatewayRoutePropagation"),
   ("aws_waf_byte_match_set", "waf.ResourceByteMatchSet"),
   ("aws_waf_ipset", "waf.ResourceIPSet"),
   ("aws_waf_rate_based_rule", "waf.ResourceRateBasedRule"),
   ("aws_waf_regex_match_set", "waf.ResourceRegexMatchSet"),
   ("aws_waf_regex_pattern_set", "waf.ResourceRegexPatternSet"),
   ("aws_waf_rule", "waf.ResourceRule"),
   ("aws_waf_rule_group", "waf.ResourceRuleGroup"),
   ("aws_waf_size_constraint_set", "waf.ResourceSizeConstraintSet"),
   ("aws_waf_web_acl", "waf.ResourceWebACL"),
   ("aws_waf_xss_match_set", "waf.ResourceXSSMatchSet"),
   ("aws_waf_sql_injection_match_set", "waf.ResourceSQLInjectionMatchSet"),
   ("aws_waf_geo_match_set", "waf.ResourceGeoMatchSet"),
   ("aws_wafregional_byte_match_set", "wafregional.ResourceByteMatchSet"),
   ("aws_wafregional_geo_match_set", "wafregional.ResourceGeoMatchSet"),
   ("aws_wafregional_ipset", "wafregional.ResourceIPSet"),
   ("aws_wafregional_rate_based_rule", "wafregional.ResourceRateBasedRule"),
   ("aws_wafregional_regex_match_set", "wafregional.ResourceRegexMatchSet"),
   ("aws_wafregional_regex_pattern_set", "wafregional.ResourceRegexPatternSet"),
   ("aws_wafregional_rule", "wafregional.ResourceRule"),
   ("aws_wafregional_rule_group", "wafregional.ResourceRuleGroup"),
   ("aws_wafregional_size_constraint_set", "wafregional.ResourceSizeConstraintSet"),
   ("aws_wafregional_sql_injection_match_set", "wafregional.ResourceSQLInjectionMatchSet"),
   ("aws_wafregional_xss_match_set", "wafregional.ResourceXSSMatchSet"),
   ("aws_wafregional_web_acl", "wafregional.ResourceWebACL"),
   ("aws_wafregional_web_acl_association", "wafregional.ResourceWebACLAssociation"),
   ("aws_wafv2_ip_set", "wafv2.ResourceIPSet"),
   ("aws_wafv2_regex_pattern_set", "wafv2.ResourceRegexPatternSet"),
   ("aws_wafv2_rule_group", "wafv2.ResourceRuleGroup"),
   ("aws_wafv2_web_acl", "wafv2.ResourceWebACL"),
   ("aws_wafv2_web_acl_association", "wafv2.ResourceWebACLAssociation"),
   ("aws_wafv2_web_acl_logging_configuration", "wafv2.ResourceWebACLLoggingConfiguration"),
   ("aws_worklink_fleet", "worklink.ResourceFleet"),
   ("aws_worklink_website_certificate_authority_association", "worklink.ResourceWebsiteCertificateAuthorityAssociation"),
   ("aws_workspaces_directory", "workspaces.ResourceDirectory"),
   ("aws_workspaces_workspace", "workspaces.ResourceWorkspace"),
   ("aws_batch_compute_environment", "batch.ResourceComputeEnvironment"),
   ("aws_batch_job_definition", "batch.ResourceJobDefinition"),
   ("aws_batch_job_queue", "batch.ResourceJobQueue"),
   ("aws_pinpoint_app", "pinpoint.ResourceApp")]

def Provider.ResourcesMap.part14 : List (String × String) :=
  [("aws_pinpoint_adm_channel", "pinpoint.ResourceADMChannel"),
   ("aws_pinpoint_apns_channel", "pinpoint.ResourceAPNSChannel"),
   ("aws_pinpoint_apns_sandbox_channel", "pinpoint.ResourceAPNSSandboxChannel"),
   ("aws_pinpoint_apns_voip_channel", "pinpoint.ResourceAPNSVoIPChannel"),
   ("aws_pinpoint_apns_voip_sandbox_channel", "pinpoint.ResourceAPNSVoIPSandboxChannel"),
   ("aws_pinpoint_baidu_channel", "pinpoint.ResourceBaiduChannel"),
   ("aws_pinpoint_email_channel", "pinpoint.ResourceEmailChannel"),
   ("aws_pinpoint_event_stream", "pinpoint.ResourceEventStream"),
   ("aws_pinpoint_gcm_channel", "pinpoint.ResourceGCMChannel"),
   ("aws_pinpoint_sms_channel", "pinpoint.ResourceSMSChannel"),
   ("aws_xray_encryption_config", "xray.ResourceEncryptionConfig"),
   ("aws_xray_group", "xray.ResourceGroup"),
   ("aws_xray_sampling_rule", "xray.ResourceSamplingRule"),
   ("aws_workspaces_ip_group", "workspaces.ResourceIPGroup"),
   ("aws_alb", "elbv2.ResourceLoadBalancer"),
   ("aws_lb", "elbv2.ResourceLoadBalancer"),
   ("aws_alb_listener", "elbv2.ResourceListener"),
   ("aws_lb_listener", "elbv2.ResourceListener"),
   ("aws_alb_listener_certificate", "elbv2.ResourceListenerCertificate"),
   ("aws_lb_listener_certificate", "elbv2.ResourceListenerCertificate"),
   ("aws_alb_listener_rule", "elbv2.ResourceListenerRule"),
   ("aws_lb_listener_rule", "elbv2.ResourceListenerRule"),
   ("aws_alb_target_group", "elbv2.ResourceTargetGroup"),
   ("aws_lb_target_group", "elbv2.ResourceTargetGroup"),
   ("aws_alb_target_group_attachment", "elbv2.ResourceTargetGroupAttachment"),
   ("aws_lb_target_group_attachment", "elbv2.ResourceTargetGroupAttachment")]

/-- The literal of the field `ResourcesMap` in `Provider()`. -/
def Provider.ResourcesMap.literal : List (String × String) :=
  Provider.ResourcesMap.part1 ++
  Provider.ResourcesMap.part2 ++
  Provider.ResourcesMap.part3 ++
  Provider.ResourcesMap.part4 ++
  Provider.ResourcesMap.part5 ++
  Provider.ResourcesMap.part6 ++
  Provider.ResourcesMap.part7 ++
  Provider.ResourcesMap.part8 ++
  Provider.ResourcesMap.part9 ++
  Provider.ResourcesMap.part10 ++
  Provider.ResourcesMap.part11 ++
  Provider.ResourcesMap.part12 ++
  Provider.ResourcesMap.part13 ++
  Provider.ResourcesMap.part14

/-- The field `ResourcesMap` of the provider returned by `Provider()`. -/
def Provider.ResourcesMap : List (String × String) :=
  mapAssign Provider.ResourcesMap.literal
    "aws_serverlessapplicationrepository_cloudformation_stack"
    "serverlessapprepo.ResourceCloudFormationStack"

/-- The variable `EndpointServiceNames`, as `init` sets it. -/
def EndpointServiceNames : List String :=
  ["accessanalyzer", "acm", "acmpca", "amplify", "apigateway", "appconfig",
   "applicationautoscaling", "applicationinsights", "appmesh", "apprunner", "appstream",
   "appsync", "athena", "auditmanager", "autoscaling", "autoscalingplans", "backup", "batch",
   "budgets", "chime", "cloud9", "cloudformation", "cloudfront", "cloudhsm", "cloudsearch",
   "cloudtrail", "cloudwatch", "cloudwatchevents", "cloudwatchlogs", "codeartifact",
   "codebuild", "codecommit", "codedeploy", "codepipeline", "codestarconnections",
   "cognitoidentity", "cognitoidp", "configservice", "connect", "cur", "dataexchange",
   "datapipeline", "datasync", "dax", "detective", "devicefarm", "directconnect", "dlm",
   "dms", "docdb", "ds", "dynamodb", "ec2", "ecr", "ecrpublic", "ecs", "efs", "eks",
   "elasticache", "elasticbeanstalk", "elastictranscoder", "elb", "emr", "emrcontainers",
   "es", "firehose", "fms", "forecast", "fsx", "gamelift", "glacier", "globalaccelerator",
   "glue", "greengrass", "guardduty", "iam", "identitystore", "imagebuilder", "inspector",
   "iot", "iotanalytics", "iotevents", "kafka", "kinesis", "kinesisanalytics",
   "kinesisanalyticsv2", "kinesisvideo", "kms", "lakeformation", "lambda", "lexmodels",
   "licensemanager", "lightsail", "location", "macie", "macie2", "managedblockchain",
   "marketplacecatalog", "mediaconnect", "mediaconvert", "medialive", "mediapackage",
   "mediastore", "mediastoredata", "memorydb", "mq", "mwaa", "neptune", "networkfirewall",
   "networkmanager", "opsworks", "organizations", "outposts", "personalize", "pinpoint",
   "pricing", "qldb", "quicksight", "ram", "rds", "redshift", "resourcegroups",
   "resourcegroupstaggingapi", "route53", "route53domains", "route53recoverycontrolconfig",
   "route53recoveryreadiness", "route53resolver", "s3", "s3control", "s3outposts",
   "sagemaker", "schemas", "sdb", "secretsmanager", "securityhub", "serverlessrepo",
   "servicecatalog", "servicediscovery", "servicequotas", "ses", "shield", "signer", "sns",
   "sqs", "ssm", "ssoadmin", "stepfunctions", "storagegateway", "sts", "swf", "synthetics",
   "timestreamwrite", "transfer", "waf", "wafregional", "wafv2", "worklink", "workmail",
   "workspaces", "xray"]

/-- The variable `descriptions`, as `init` sets it. -/
def descriptions : List (String × String) :=
  [("region",
     "The region where AWS operations will take place. Examples\nare us-east-1, us-west-2, etc."),
   ("access_key",
     "The access key for API operations. You can retrieve this\nfrom the 'Security & Credentials' section of the AWS console."),
   ("secret_key",
     "The secret key for API operations. You can retrieve this\nfrom the 'Security & Credentials' section of the AWS console."),
   ("profile",
     "The profile for API operations. If not set, the default profile\ncreated with `aws configure` will be used."),
   ("shared_credentials_file",
     "The path to the shared credentials file. If not set\nthis defaults to ~/.aws/credentials."),
   ("token",
     "session token. A session token is only required if you are\nusing temporary security credentials."),
   ("max_retries",
     "The maximum number of times an AWS API request is\nbeing executed. If the API request still fails, an error is\nthrown."),
   ("http_proxy",
     "The address of an HTTP proxy to use when accessing the AWS API. Can also be configured using the `HTTP_PROXY` or `HTTPS_PROXY` environment variables."),
   ("endpoint",
     "Use this to override the default service endpoint URL"),
   ("insecure",
     "Explicitly allow the provider to perform \"insecure\" SSL requests. If omitted, default value is `false`"),
   ("skip_credentials_validation",
     "Skip the credentials validation via STS API. Used for AWS API implementations that do not have STS available/implemented."),
   ("skip_get_ec2_platforms",
     "Skip getting the supported EC2 platforms. Used by users that don't have ec2:DescribeAccountAttributes permissions."),
   ("skip_region_validation",
     "Skip static validation of region name. Used by users of alternative AWS-like APIs or users w/ access to regions that are not public (yet)."),
   ("skip_requesting_account_id",
     "Skip requesting the account ID. Used for AWS API implementations that do not have IAM/STS API and/or metadata API."),
   ("skip_medatadata_api_check",
     "Skip the AWS Metadata API check. Used for AWS API implementations that do not have a metadata api endpoint."),
   ("s3_force_path_style",
     "Set this to true to force the request to use path-style addressing,\ni.e., http://s3.amazonaws.com/BUCKET/KEY. By default, the S3 client will\nuse virtual hosted bucket addressing when possible\n(http://BUCKET.s3.amazonaws.com/KEY). Specific to the Amazon S3 service.")]

/-- The read `descriptions[key]`: the empty string for a key that is not in
the map. -/
def descriptionsAt (key : String) : String :=
  (descriptions.lookup key).getD ""

/-- The fields `Type` and `Description` of a `schema.Schema` without element. -/
structure SchemaAttr where
  Type_ : String
  Description : String
  deriving DecidableEq, Repr

/-- The fields `Type` and `Description` of a `schema.Schema`, and the schema of
its element when `Elem` is a `schema.Resource`. -/
structure Schema where
  Type_ : String
  Description : String
  Elem : List (String × SchemaAttr)
  deriving DecidableEq, Repr

/-- The function `assumeRoleSchema`. -/
def assumeRoleSchema : Schema :=
  { Type_ := "TypeList"
    Description := ""
    Elem :=
      [("duration_seconds", ⟨"TypeInt", "Seconds to restrict the assume role session duration."⟩),
       ("external_id", ⟨"TypeString",
          "Unique identifier that might be required for assuming a role in another account."⟩),
       ("policy", ⟨"TypeString",
          "IAM Policy JSON describing further restricting permissions for the IAM Role being assumed."⟩),
       ("policy_arns", ⟨"TypeSet",
          "Amazon Resource Names (ARNs) of IAM Policies describing further restricting permissions for the IAM Role being assumed."⟩),
       ("role_arn", ⟨"TypeString",
          "Amazon Resource Name of an IAM Role to assume prior to making API calls."⟩),
       ("session_name", ⟨"TypeString", "Identifier for the assumed role session."⟩),
       ("tags", ⟨"TypeMap", "Assume role session tags."⟩),
       ("transitive_tag_keys", ⟨"TypeSet",
          "Assume role session tag keys to pass to any subsequent sessions."⟩)] }

/-- The function `endpointsSchema`: one attribute for each endpoint service name. -/
def endpointsSchema : Schema :=
  { Type_ := "TypeSet"
    Description := ""
    Elem := EndpointServiceNames.map fun endpointServiceName =>
      (endpointServiceName, ⟨"TypeString", descriptionsAt "endpoint"⟩) }

/-- The field `Schema` of the provider returned by `Provider()`. -/
def Provider.Schema : List (String × Schema) :=
  [("access_key", ⟨"TypeString", descriptionsAt "access_key", []⟩),
   ("secret_key", ⟨"TypeString", descriptionsAt "secret_key", []⟩),
   ("profile", ⟨"TypeString", descriptionsAt "profile", []⟩),
   ("assume_role", assumeRoleSchema),
   ("shared_credentials_file", ⟨"TypeString", descriptionsAt "shared_credentials_file", []⟩),
   ("token", ⟨"TypeString", descriptionsAt "token", []⟩),
   ("region", ⟨"TypeString", descriptionsAt "region", []⟩),
   ("max_retries", ⟨"TypeInt", descriptionsAt "max_retries", []⟩),
   ("allowed_account_ids", ⟨"TypeSet", "", []⟩),
   ("forbidden_account_ids", ⟨"TypeSet", "", []⟩),
   ("default_tags", ⟨"TypeList",
      "Configuration block with settings to default resource tags across all resources.",
      [("tags", ⟨"TypeMap", "Resource tags to default across all resources"⟩)]⟩),
   ("http_proxy", ⟨"TypeString", descriptionsAt "http_proxy", []⟩),
   ("endpoints", endpointsSchema),
   ("ignore_tags", ⟨"TypeList",
      "Configuration block with settings to ignore resource tags across all resources.",
      [("keys", ⟨"TypeSet", "Resource tag keys to ignore across all resources."⟩),
       ("key_prefixes", ⟨"TypeSet",
          "Resource tag key prefixes to ignore across all resources."⟩)]⟩),
   ("insecure", ⟨"TypeBool", descriptionsAt "insecure", []⟩),
   ("skip_credentials_validation",
      ⟨"TypeBool", descriptionsAt "skip_credentials_validation", []⟩),
   ("skip_get_ec2_platforms", ⟨"TypeBool", descriptionsAt "skip_get_ec2_platforms", []⟩),
   ("skip_region_validation", ⟨"TypeBool", descriptionsAt "skip_region_validation", []⟩),
   ("skip_requesting_account_id",
      ⟨"TypeBool", descriptionsAt "skip_requesting_account_id", []⟩),
   ("skip_metadata_api_check", ⟨"TypeBool", descriptionsAt "skip_metadata_api_check", []⟩),
   ("s3_force_path_style", ⟨"TypeBool", descriptionsAt "s3_force_path_style", []⟩)]

/-- The arguments of the provider whose `Description` is read from `descriptions`
under their own name. -/
def describedArguments : List String :=
  ["access_key", "secret_key", "profile", "shared_credentials_file", "token", "region",
   "max_retries", "http_proxy", "insecure", "skip_credentials_validation",
   "skip_get_ec2_platforms", "skip_region_validation", "skip_requesting_account_id",
   "skip_metadata_api_check", "s3_force_path_style"]

/-- The `Description` of the argument `name` of the provider; the empty string
when there is no such argument. -/
def Provider.DescriptionOf (name : String) : String :=
  match Provider.Schema.lookup name with
  | some s => s.Description
  | none => ""

/-- The function assigned to `provider.ConfigureFunc` in `Provider()`;
`TerraformVersion` is the field of the provider and `providerConfigure` the
function it calls. -/
def Provider.ConfigureFunc {δ ρ : Type} (providerConfigure : δ → String → ρ)
    (TerraformVersion : String) (d : δ) : ρ :=
  let terraformVersion := if TerraformVersion = "" then "0.11+compatible" else TerraformVersion
  providerConfigure d terraformVersion

/-! ## The state reconciliation engine

`waitForState` itself (`resource.StateChangeConf.WaitForState`) is called by
internet_gateway.go but its body is not among the sources; the definitions of
this section follow section 4.1 of the specification. Durations are natural
numbers of one time unit. -/

/-- Modelled from the spec: the Wait Specification of section 3, the input of
`waitForState`, whose code is missing. `probe k` is the Probe Result of
invocation number `k` (counted from 0) of the probe; `transient` is the
predicate that classifies a probe error as retryable; `keepPollingOnUnknown` is
the whitelisting of unknown states. -/
structure WaitSpecification (α : Type) where
  probe : Nat → ProbeResult α
  pending : List String
  target : List String
  timeout : Nat
  pollInterval : Nat
  initialDelay : Option Nat
  notFoundTolerance : Nat
  transient : Err → Bool
  keepPollingOnUnknown : Bool

/-- Modelled from the spec: the context every non-success outcome of the missing
`waitForState` carries (last observed value, last state, elapsed time). -/
structure Diagnostic (α : Type) where
  lastValue : Option α
  lastState : String
  elapsed : Nat
  deriving DecidableEq, Repr

/-- Modelled from the spec: the reasons of an error outcome of the missing
`waitForState`: a non-retryable probe error, an unexpected state with its
description, or a resource that stayed not observable beyond the tolerance. -/
inductive WaitError where
  | probeError (err : Err)
  | unexpectedState (description : String)
  | notFound
  deriving DecidableEq, Repr

/-- Modelled from the spec: the Reconciliation Outcome of section 3, the result
of the missing `waitForState`. -/
inductive ReconciliationOutcome (α : Type) where
  | success (value : Option α) (state : String)
  | timeout (d : Diagnostic α)
  | error (reason : WaitError) (d : Diagnostic α)
  deriving DecidableEq, Repr

/-- What the engine does, in order: the initial delay, invocation number `k` of
the probe, a sleep of the poll interval. -/
inductive WaitEvent where
  | delay (d : Nat)
  | probe (k : Nat)
  | sleep (d : Nat)
  deriving DecidableEq, Repr

/-- An outcome together with what was done to reach it. -/
structure WaitRun (α : Type) where
  outcome : ReconciliationOutcome α
  events : List WaitEvent
  deriving DecidableEq, Repr

/-- Puts the events `pre` in front of those of `r`. -/
def WaitRun.after {α : Type} (pre : List WaitEvent) (r : WaitRun α) : WaitRun α :=
  ⟨r.outcome, pre ++ r.events⟩

/-- Number of probe invocations among the events. -/
def probeCalls (events : List WaitEvent) : Nat :=
  events.countP fun e => match e with
    | .probe _ => true
    | _ => false

/-- Number of poll-interval sleeps among the events. -/
def sleeps (events : List WaitEvent) : Nat :=
  events.countP fun e => match e with
    | .sleep _ => true
    | _ => false

/-- Modelled from the spec: the Probe Result that reports "not observable",
an empty value and an empty state label without error (step 2c of the missing
`waitForState`). -/
def ProbeResult.notObservable {α : Type} (r : ProbeResult α) : Bool :=
  r.err.isNone && r.value.isNone && r.state == ""

/-- Modelled from the spec: the description of an unexpected state carried by
the error outcome of step 2f of the missing `waitForState`. -/
def unexpectedStateDescription (state : String) : String :=
  "unexpected state '" ++ state ++ "'"

/-- Modelled from the spec: the loop of step 2 of the missing `waitForState`,
followed by step 3. `fuel` bounds the number of iterations (`none` when it runs
out); `k` is the number of probe invocations made so far, `elapsed` the time
spent since the loop began (the inter-poll sleeps; a probe takes no time),
`notFound` the count of consecutive "not observable" results, `lastValue` and
`lastState` the last observation. Every return to the head of the loop sleeps
the poll interval. -/
def pollLoop {α : Type} (spec : WaitSpecification α) :
    Nat → Nat → Nat → Nat → Option α → String → Option (WaitRun α)
  | 0, _, _, _, _, _ => none
  | fuel + 1, k, elapsed, notFound, lastValue, lastState =>
    if spec.timeout < elapsed then
      some ⟨.timeout ⟨lastValue, lastState, elapsed⟩, []⟩
    else
      let r := spec.probe k
      let again (notFound1 : Nat) (value : Option α) (state : String) : Option (WaitRun α) :=
        (pollLoop spec fuel (k + 1) (elapsed + spec.pollInterval) notFound1 value state).map
          (WaitRun.after [.probe k, .sleep spec.pollInterval])
      match r.err with
      | some e =>
        if spec.transient e then
          again 0 lastValue lastState
        else
          some ⟨.error (.probeError e) ⟨lastValue, lastState, elapsed⟩, [.probe k]⟩
      | none =>
        if r.notObservable then
          if spec.notFoundTolerance < notFound + 1 then
            some ⟨.error .notFound ⟨lastValue, lastState, elapsed⟩, [.probe k]⟩
          else
            again (notFound + 1) lastValue lastState
        else if r.state ∈ spec.target then
          some ⟨.success r.value r.state, [.probe k]⟩
        else if r.state ∈ spec.pending then
          again 0 r.value r.state
        else if spec.keepPollingOnUnknown then
          again 0 r.value r.state
        else
          some ⟨.error (.unexpectedState (unexpectedStateDescription r.state))
            ⟨r.value, r.state, elapsed⟩, [.probe k]⟩

/-- Modelled from the spec: the operation `waitForState` of section 4.1, whose
code is missing: the initial delay when one is configured (step 1), then the
loop. `fuel` bounds the number of loop iterations. -/
def waitForState {α : Type} (spec : WaitSpecification α) (fuel : Nat) : Option (WaitRun α) :=
  match spec.initialDelay with
  | some d => (pollLoop spec fuel 0 0 0 none "").map (WaitRun.after [.delay d])
  | none => pollLoop spec fuel 0 0 0 none ""

/-- The events of `n` rounds "probe, then sleep `i`", for the invocations `k`,
`k + 1`, and so on. -/
def pollRounds (i : Nat) : Nat → Nat → List WaitEvent
  | _, 0 => []
  | k, n + 1 => .probe k :: .sleep i :: pollRounds i (k + 1) n

/-- The events of the initial delay of a specification. -/
def delayEvents {α : Type} (spec : WaitSpecification α) : List WaitEvent :=
  match spec.initialDelay with
  | some d => [.delay d]
  | none => []

/-- The variables of the loop of `waitForState` at the head of an iteration. -/
structure LoopState (α : Type) where
  elapsed : Nat
  notFound : Nat
  lastValue : Option α
  lastState : String
  deriving DecidableEq, Repr

/-- The variables with which the loop of `waitForState` starts. -/
def LoopState.init {α : Type} : LoopState α := ⟨0, 0, none, ""⟩

/-- Modelled from the spec: steps 2a to 2f of the missing `waitForState` for
invocation `k` of the probe, as a function of the loop variables: either the
outcome that ends the wait, or the variables of the next iteration.
`pollLoop_succ` shows that `pollLoop` iterates this function. -/
def pollStep {α : Type} (spec : WaitSpecification α) (k : Nat) (st : LoopState α) :
    ReconciliationOutcome α ⊕ LoopState α :=
  let r := spec.probe k
  match r.err with
  | some e =>
    if spec.transient e then
      .inr ⟨st.elapsed + spec.pollInterval, 0, st.lastValue, st.lastState⟩
    else
      .inl (.error (.probeError e) ⟨st.lastValue, st.lastState, st.elapsed⟩)
  | none =>
    if r.notObservable then
      if spec.notFoundTolerance < st.notFound + 1 then
        .inl (.error .notFound ⟨st.lastValue, st.lastState, st.elapsed⟩)
      else
        .inr ⟨st.elapsed + spec.pollInterval, st.notFound + 1, st.lastValue, st.lastState⟩
    else if r.state ∈ spec.target then
      .inl (.success r.value r.state)
    else if r.state ∈ spec.pending then
      .inr ⟨st.elapsed + spec.pollInterval, 0, r.value, r.state⟩
    else if spec.keepPollingOnUnknown then
      .inr ⟨st.elapsed + spec.pollInterval, 0, r.value, r.state⟩
    else
      .inl (.error (.unexpectedState (unexpectedStateDescription r.state))
        ⟨r.value, r.state, st.elapsed⟩)

/-- The loop variables after `n` iterations that all went back to the head of the
loop, starting at the head of iteration `k` with the variables `st`; `none` when
one of these iterations ends the wait (timeout or outcome). -/
def rounds {α : Type} (spec : WaitSpecification α) :
    Nat → LoopState α → Nat → Option (LoopState α)
  | _, st, 0 => some st
  | k, st, n + 1 =>
    if spec.timeout < st.elapsed then
      none
    else
      match pollStep spec k st with
      | .inl _ => none
      | .inr st1 => rounds spec (k + 1) st1 n

/-- The loop of `waitForState` entered at iteration `k` with the variables `st`. -/
def pollLoopFrom {α : Type} (spec : WaitSpecification α) (fuel k : Nat) (st : LoopState α) :
    Option (WaitRun α) :=
  pollLoop spec fuel k st.elapsed st.notFound st.lastValue st.lastState

/-- Modelled from the spec: the loop variables with which the missing
`waitForState` makes invocation `k` of the probe (counted from 0), computed from
the results of the invocations before it and the pacing; `none` when the wait
ends before this invocation, because one of the earlier results ends it (steps
2b to 2f) or because the elapsed time exceeds the timeout at the head of an
iteration (step 3). Invocation 0 is always made: no time has elapsed.
`attempt_iff_rounds` relates it to `rounds`, `attempt_of_waitForState` to the
runs of `waitForState`. -/
def attempt {α : Type} (spec : WaitSpecification α) : Nat → Option (LoopState α)
  | 0 => some LoopState.init
  | k + 1 =>
    match attempt spec k with
    | none => none
    | some st =>
      match pollStep spec k st with
      | .inl _ => none
      | .inr st1 => if spec.timeout < st1.elapsed then none else some st1

/-! ## Example inputs -/

/-- A gateway whose first attachment is in state `detaching`. -/
def exampleGateway : InternetGateway :=
  ⟨[⟨some "detaching", some "vpc-1"⟩], some "igw-1", none, []⟩

/-- An API that lists `exampleGateway`, and answers a detach and a delete request
with `detachErr`, the interface lookup with `lookupErr`. -/
def exampleConn (detachErr lookupErr : Option Err) : EC2 where
  DescribeInternetGateways := fun _ => (some ⟨[exampleGateway]⟩, none)
  DetachInternetGateway := fun _ _ => detachErr
  DescribeNetworkInterfaces := fun _ => (⟨[]⟩, lookupErr)
  DeleteInternetGateway := fun _ => detachErr

/-- An API that answers every request with the error `err`. -/
def failingConn (err : Err) : EC2 where
  DescribeInternetGateways := fun _ => (some ⟨[]⟩, some err)
  DetachInternetGateway := fun _ _ => some err
  DescribeNetworkInterfaces := fun _ => (⟨[]⟩, some err)
  DeleteInternetGateway := fun _ => some err

/-- A Batch API that finds nothing. -/
def emptyBatch : Batch where
  FindComputeEnvironmentDetailByName := fun _ => (none, some .notFound)

/-- A `tfresource.NotFound` that recognises `&resource.NotFoundError{}`. -/
def exampleNotFound (err : Option Err) : Bool := err == some .notFound

/-- A `tfresource.TimedOut` that recognises a `*resource.TimeoutError` without
last error. -/
def exampleTimedOut (err : Option Err) : Bool := err == some .timeout

/-- A creation whose retry saw "not found" twice and timed out; `afterRetry` is
the API met by the probe call that follows. -/
def timedOutWorld (afterRetry : EC2) : CreateWorld where
  TimedOut := exampleTimedOut
  CreateInternetGateway := (some exampleGateway, none)
  retry :=
    ⟨[failingConn (.aws "InvalidInternetGatewayID.NotFound" "gone"),
      failingConn (.aws "InvalidInternetGatewayID.NotFound" "gone")], some .timeout⟩
  afterRetry := afterRetry
  attach := none
  read := none

/-- A wait whose probe answers `results` in order and `final` from then on,
polling every 10 units, without initial delay and with no transient errors. -/
def scriptedSpec (results : List (ProbeResult String)) (final : ProbeResult String)
    (pending target : List String) (timeout notFoundTolerance : Nat) :
    WaitSpecification String where
  probe := fun k => results.getD k final
  pending := pending
  target := target
  timeout := timeout
  pollInterval := 10
  initialDelay := none
  notFoundTolerance := notFoundTolerance
  transient := fun _ => false
  keepPollingOnUnknown := false

/-- The attach scenario: `attaching`, `attaching`, then `available`. -/
def attachScenario : WaitSpecification String :=
  scriptedSpec [⟨some "igw-1", "attaching", none⟩, ⟨some "igw-1", "attaching", none⟩]
    ⟨some "igw-1", "available", none⟩ ["attaching"] ["available"] 1000 0

/-- The detach scenario: `detaching` for ever, timeout 50. -/
def detachScenario : WaitSpecification String :=
  scriptedSpec [] ⟨some "igw-1", "detaching", none⟩ ["detaching"] ["detached"] 50 0

/-- The error scenario: `attaching`, `attaching`, then a probe error that is not
transient. -/
def errorScenario : WaitSpecification String :=
  scriptedSpec [⟨some "igw-1", "attaching", none⟩, ⟨some "igw-1", "attaching", none⟩]
    ⟨none, "", some (.other "access denied")⟩ ["attaching"] ["available"] 1000 0

/-- The predicate that classifies the throttling error of the API as transient. -/
def throttled (e : Err) : Bool := e == .aws "Throttling" "slow down"

/-- The transient scenario: two throttling errors, then `available`. -/
def transientScenario : WaitSpecification String :=
  { scriptedSpec [⟨none, "", some (.aws "Throttling" "slow down")⟩,
      ⟨none, "", some (.aws "Throttling" "slow down")⟩]
      ⟨some "igw-1", "available", none⟩ ["attaching"] ["available"] 1000 0 with
    transient := throttled }

/-- The unexpected-state scenario: the probe answers `corrupted`. -/
def corruptedScenario : WaitSpecification String :=
  scriptedSpec [] ⟨some "igw-1", "corrupted", none⟩ ["attaching"] ["available"] 1000 0

/-- The not-found scenario: tolerance 2, three "not observable" results, then
`detached`. -/
def notFoundScenario : WaitSpecification String :=
  scriptedSpec [⟨none, "", none⟩, ⟨none, "", none⟩, ⟨none, "", none⟩]
    ⟨some "igw-1", "detached", none⟩ ["detaching"] ["detached"] 1000 2

/-- A deletion whose retry timed out, after which the gateway is reported gone. -/
def goneAfterTimeoutWorld : DeleteWorld where
  TimedOut := exampleTimedOut
  detach := none
  retry := ⟨[failingConn (.aws "DependencyViolation" "in use")], some .timeout⟩
  afterRetry := failingConn (.aws "InvalidInternetGatewayID.NotFound" "gone")

/-- A CloudFormation API for which the stack set `gone` does not exist any more
and every other stack set still exists. -/
def oneLeftConn : CloudFormation where
  DescribeStackSet := fun name =>
    if name = "gone" then
      (none, some (.aws "StackSetNotFoundException" "StackSet gone not found"))
    else
      (some ⟨some ⟨some (name ++ ":1"), some name⟩⟩, none)

/-- An API that answers `DescribeInternetGateways` without error and with an
empty list. -/
def noGatewayConn : EC2 where
  DescribeInternetGateways := fun _ => (some ⟨[]⟩, none)
  DetachInternetGateway := fun _ _ => none
  DescribeNetworkInterfaces := fun _ => (⟨[]⟩, none)
  DeleteInternetGateway := fun _ => none

/-- An API that lists the gateway `ig`. -/
def gatewayConn (ig : InternetGateway) : EC2 where
  DescribeInternetGateways := fun _ => (some ⟨[ig]⟩, none)
  DetachInternetGateway := fun _ _ => none
  DescribeNetworkInterfaces := fun _ => (⟨[]⟩, none)
  DeleteInternetGateway := fun _ => none

/-- A gateway whose first attachment carries no `State`. -/
def statelessGateway : InternetGateway :=
  ⟨[⟨none, some "vpc-1"⟩], some "igw-1", none, []⟩

/-- A gateway whose first attachment is in state `attached`. -/
def attachedGateway : InternetGateway :=
  ⟨[⟨some "attached", some "vpc-1"⟩], some "igw-1", none, []⟩

/-- A resource data with id `igw-1` and no attribute set. -/
def exampleData : ResourceData := ⟨"igw-1", ∅⟩

/-- A read that meets the API `conn`. -/
def readWorld (conn : EC2) : ReadWorld where
  conn := conn
  Partition := "aws"
  Region := "eu-west-1"
  tags := fun _ => ∅
  tagsAll := fun _ => ∅
  setTags := none
  setTagsAll := none

/-- An update in which `vpc_id` has changed and the detach step fails. -/
def detachFailsWorld : UpdateWorld where
  HasChangeVpcId := true
  detach := some (.other "Error waiting for internet gateway (igw-1) to detach: timeout")
  attach := none
  HasChangeTagsAll := true
  updateTags := none
  read := none

/-- A version 0 state of a VPC. -/
def exampleState : InstanceState :=
  ⟨"vpc-1", some (AList.insert "cidr_block" "10.0.0.0/16" ∅), false⟩

/-- Go `strings.HasPrefix(s, start)`. -/
def stringsHasPrefix (s start : String) : Bool := start.data.isPrefixOf s.data

/-- An implementation of the operations of `internal/tags` on maps from keys to
optional values: `Removed` keeps the old keys that the new tags do not have,
`Updated` keeps the new tags that are absent from the old ones or differ from
them, `IgnoreAws` drops the keys that begin with `aws:`. -/
def listTags : Tftags (GoMap (Option String)) where
  New := fun
    | .strings m => List.toAList (m.entries.map fun e => ⟨e.1, some e.2⟩)
    | .pointers m => m
  Map := fun m => List.toAList (m.entries.map fun e => ⟨e.1, StringValue e.2⟩)
  len := fun m => m.entries.length
  Removed := fun old new => List.toAList (old.entries.filter fun e => (new.lookup e.1).isNone)
  Updated := fun old new =>
    List.toAList (new.entries.filter fun e => old.lookup e.1 != some e.2)
  IgnoreAws := fun m => List.toAList (m.entries.filter fun e => !stringsHasPrefix e.1 "aws:")
  Keys := fun m => m.keys

/-- An Elastic Beanstalk API that accepts every request. -/
def acceptingBeanstalk : ElasticBeanstalk where
  UpdateTagsForResource := fun _ => none

/-- The tags `Name = web`, `env = prod`. -/
def exampleTags : GoMap (Option String) :=
  AList.insert "Name" (some "web") (AList.insert "env" (some "prod") ∅)

/-! ## Theorems: the probes -/

theorem stringsContains_empty (s : String) : stringsContains s "" = true := by
  simp [stringsContains]

theorem ErrMessageContains_aws (code message : String) :
    ErrMessageContains (some (.aws code message)) code "" = true := by
  simp [ErrMessageContains, stringsContains_empty]

theorem ErrMessageContains_iff (err : Option Err) (code : String) :
    ErrMessageContains err code "" = true ↔ ∃ m, err = some (.aws code m) := by
  cases err with
  | none => simp [ErrMessageContains]
  | some e =>
    cases e with
    | aws c m =>
      simp only [ErrMessageContains, stringsContains_empty, Bool.and_true, beq_iff_eq,
        Option.some.injEq, Err.aws.injEq]
      constructor
      · intro h
        exact ⟨m, h, rfl⟩
      · rintro ⟨_, h, _⟩
        exact h
    | notFound => simp [ErrMessageContains]
    | timeout => simp [ErrMessageContains]
    | other t => simp [ErrMessageContains]
    | errorf p c => simp [ErrMessageContains]

theorem Since_gt_ten_seconds (start now : Time)
    (h : 10 * Second < (now : Int) - (start : Int)) : Since start now > 10 * Second := by
  unfold Since
  simp only [Second, minDuration, maxDuration] at *
  split_ifs <;> omega

/-- The captured `start` after one call of the attach probe. -/
theorem IGAttachStateRefreshFunc_start (conn : EC2) (id expected : String)
    (start now later : Time) :
    (IGAttachStateRefreshFunc conn id expected start now later).1 =
      if start = 0 then now else start := by
  unfold IGAttachStateRefreshFunc
  simp only [Time.IsZero, beq_iff_eq]
  split <;> (try split) <;> rfl

/-- One call of the attach probe that sees a gateway more than 10 seconds after
the recorded start returns the expected state. -/
theorem IGAttachStateRefreshFunc_late (conn : EC2) (id expected : String)
    (start now later : Time) (resp : DescribeInternetGatewaysOutput)
    (ig : InternetGateway) (rest : List InternetGateway)
    (hresp : conn.DescribeInternetGateways [id] = (some resp, none))
    (hig : resp.InternetGateways = ig :: rest)
    (h : 10 * Second < (later : Int) - ((if start = 0 then now else start : Time) : Int)) :
    (IGAttachStateRefreshFunc conn id expected start now later).2 =
      some ⟨some (.gateway ig), expected, none⟩ := by
  have hs := Since_gt_ten_seconds _ _ h
  unfold IGAttachStateRefreshFunc
  simp only [hresp, hig, Time.IsZero, beq_iff_eq]
  rw [if_pos hs]

/-- Once `start` is set, later calls see the same `start`. -/
theorem IGAttachStateRefreshFunc_calls_get (id expected : String) (start : Time)
    (hstart : start ≠ 0) (cs : List AttachProbeCall) (k : Nat) (c : AttachProbeCall)
    (hc : cs[k]? = some c) :
    (IGAttachStateRefreshFunc.calls id expected start cs)[k]? =
      some (IGAttachStateRefreshFunc c.conn id expected start c.now c.later).2 := by
  induction cs generalizing k with
  | nil => simp at hc
  | cons d ds ih =>
    cases k with
    | zero =>
      simp only [List.getElem?_cons_zero, Option.some.injEq] at hc
      subst hc
      simp [IGAttachStateRefreshFunc.calls]
    | succ k =>
      simp only [List.getElem?_cons_succ] at hc
      simp only [IGAttachStateRefreshFunc.calls, List.getElem?_cons_succ]
      rw [IGAttachStateRefreshFunc_start, if_neg hstart]
      exact ih k hc

/-- C1. Take the successive calls of one probe returned by
`IGAttachStateRefreshFunc(conn, id, expected)`, whose first call reads a non-zero
clock. On any call `k` in which `DescribeInternetGateways` answers without error
with a gateway `ig` first in its list, and whose clock reading for
`time.Since(start)` is more than 10 seconds after the first call, the probe
returns `(ig, expected, nil)`, whatever the attachments of `ig` are. -/
theorem IGAttachStateRefreshFunc_expected_after_10s (id expected : String)
    (calls : List AttachProbeCall) (k : Nat) (first c : AttachProbeCall)
    (resp : DescribeInternetGatewaysOutput) (ig : InternetGateway)
    (rest : List InternetGateway)
    (hfirst : calls[0]? = some first) (hclock : first.now ≠ 0)
    (hc : calls[k]? = some c)
    (hresp : c.conn.DescribeInternetGateways [id] = (some resp, none))
    (hig : resp.InternetGateways = ig :: rest)
    (helapsed : 10 * Second < (c.later : Int) - (first.now : Int)) :
    (IGAttachStateRefreshFunc.calls id expected 0 calls)[k]? =
      some (some ⟨some (.gateway ig), expected, none⟩) := by
  cases calls with
  | nil => simp at hfirst
  | cons d ds =>
    simp only [List.getElem?_cons_zero, Option.some.injEq] at hfirst
    subst hfirst
    cases k with
    | zero =>
      simp only [List.getElem?_cons_zero, Option.some.injEq] at hc
      subst hc
      simp only [IGAttachStateRefreshFunc.calls, List.getElem?_cons_zero, Option.some.injEq]
      exact IGAttachStateRefreshFunc_late _ _ _ _ _ _ resp ig rest hresp hig (by simpa using helapsed)
    | succ k =>
      simp only [List.getElem?_cons_succ] at hc
      simp only [IGAttachStateRefreshFunc.calls, List.getElem?_cons_succ]
      rw [IGAttachStateRefreshFunc_start, if_pos rfl,
        IGAttachStateRefreshFunc_calls_get id expected d.now hclock ds k c hc]
      congr 1
      exact IGAttachStateRefreshFunc_late _ _ _ _ _ _ resp ig rest hresp hig
        (by simpa [hclock] using helapsed)


/-- Witness of C1: the second call of a probe, 11 seconds after the first, sees a
gateway whose attachment is `detaching` and reports `available`. -/
theorem IGAttachStateRefreshFunc_expected_after_10s_witness :
    (IGAttachStateRefreshFunc.calls "igw-1" "available" 0
      [⟨exampleConn none none, 5, 6⟩, ⟨exampleConn none none, 7, 11000000005⟩])[1]? =
      some (some ⟨some (.gateway exampleGateway), "available", none⟩) :=
  IGAttachStateRefreshFunc_expected_after_10s "igw-1" "available"
    [⟨exampleConn none none, 5, 6⟩, ⟨exampleConn none none, 7, 11000000005⟩] 1
    ⟨exampleConn none none, 5, 6⟩ ⟨exampleConn none none, 7, 11000000005⟩
    ⟨[exampleGateway]⟩ exampleGateway [] rfl (by decide) rfl rfl rfl
    (by norm_num [Second])

/-- C2. In the attach wait (Pending `detached`, `attaching`; Target `available`)
and in the detach wait (Pending `detaching`; Target `detached`) built in
internet_gateway.go, no state belongs to both the Pending and the Target list. -/
theorem stateConf_pending_target_disjoint (id vpcID s : String) :
    (resourceInternetGatewayAttach.stateConf id).Pending = ["detached", "attaching"] ∧
    (resourceInternetGatewayAttach.stateConf id).Target = ["available"] ∧
    (resourceInternetGatewayDetach.stateConf id vpcID).Pending = ["detaching"] ∧
    (resourceInternetGatewayDetach.stateConf id vpcID).Target = ["detached"] ∧
    ¬ (s ∈ (resourceInternetGatewayAttach.stateConf id).Pending ∧
        s ∈ (resourceInternetGatewayAttach.stateConf id).Target) ∧
    ¬ (s ∈ (resourceInternetGatewayDetach.stateConf id vpcID).Pending ∧
        s ∈ (resourceInternetGatewayDetach.stateConf id vpcID).Target) := by
  refine ⟨rfl, rfl, rfl, rfl, ?_, ?_⟩
  · rintro ⟨hp, ht⟩
    simp only [resourceInternetGatewayAttach.stateConf, List.mem_singleton] at ht
    subst ht
    simp [resourceInternetGatewayAttach.stateConf, AttachmentStatusDetached,
      AttachmentStatusAttaching] at hp
  · rintro ⟨hp, ht⟩
    simp only [resourceInternetGatewayDetach.stateConf, List.mem_singleton] at ht hp
    subst ht
    simp [AttachmentStatusDetached, AttachmentStatusDetaching] at hp

/-- C3. The probe returned by `DetachIGStateRefreshFunc` classifies every outcome
of `DetachInternetGateway`: no error, or code `Gateway.NotAttached`, gives
`(42, "detached", nil)`; code `DependencyViolation` gives `42` and `"detaching"`
with the error of the public-network-interface lookup; code
`InvalidInternetGatewayID.NotFound` gives `(nil, "", nil)`; every other error
gives `(42, "", err)`. -/
theorem DetachIGStateRefreshFunc_classification (conn : EC2) (gatewayID vpcID : String) :
    (conn.DetachInternetGateway gatewayID vpcID = none →
      DetachIGStateRefreshFunc conn gatewayID vpcID = ⟨some (.int 42), "detached", none⟩) ∧
    (∀ m, conn.DetachInternetGateway gatewayID vpcID = some (.aws "Gateway.NotAttached" m) →
      DetachIGStateRefreshFunc conn gatewayID vpcID = ⟨some (.int 42), "detached", none⟩) ∧
    (∀ m, conn.DetachInternetGateway gatewayID vpcID = some (.aws "DependencyViolation" m) →
      DetachIGStateRefreshFunc conn gatewayID vpcID =
        ⟨some (.int 42), "detaching", (findPublicNetworkInterfacesForVpcID conn vpcID).2⟩) ∧
    (∀ m, conn.DetachInternetGateway gatewayID vpcID =
        some (.aws "InvalidInternetGatewayID.NotFound" m) →
      DetachIGStateRefreshFunc conn gatewayID vpcID = ⟨none, "", none⟩) ∧
    (∀ err, conn.DetachInternetGateway gatewayID vpcID = some err →
      (∀ m, err ≠ .aws "Gateway.NotAttached" m) →
      (∀ m, err ≠ .aws "DependencyViolation" m) →
      (∀ m, err ≠ .aws "InvalidInternetGatewayID.NotFound" m) →
      DetachIGStateRefreshFunc conn gatewayID vpcID = ⟨some (.int 42), "", some err⟩) := by
  refine ⟨?_, ?_, ?_, ?_, ?_⟩
  · intro h
    simp [DetachIGStateRefreshFunc, h, AttachmentStatusDetached]
  · intro m h
    simp [DetachIGStateRefreshFunc, h, AttachmentStatusDetached]
  · intro m h
    unfold DetachIGStateRefreshFunc
    simp only [h]
    simp only [String.reduceEq, if_false, if_true]
    cases (findPublicNetworkInterfacesForVpcID conn vpcID).2 <;> rfl
  · intro m h
    simp [DetachIGStateRefreshFunc, h]
  · intro err h h1 h2 h3
    unfold DetachIGStateRefreshFunc
    simp only [h]
    cases err with
    | aws code m =>
      have c1 : code ≠ "Gateway.NotAttached" := fun hc => h1 m (by rw [hc])
      have c2 : code ≠ "DependencyViolation" := fun hc => h2 m (by rw [hc])
      have c3 : code ≠ "InvalidInternetGatewayID.NotFound" := fun hc => h3 m (by rw [hc])
      simp only [if_neg c1, if_neg c2, if_neg c3]
    | notFound => rfl
    | timeout => rfl
    | other t => rfl
    | errorf p c => rfl

/-- Witness of C3: the five classes on concrete answers of the API. -/
theorem DetachIGStateRefreshFunc_classification_witness :
    DetachIGStateRefreshFunc (exampleConn none none) "igw-1" "vpc-1" =
      ⟨some (.int 42), "detached", none⟩ ∧
    DetachIGStateRefreshFunc (exampleConn (some (.aws "Gateway.NotAttached" "m")) none)
      "igw-1" "vpc-1" = ⟨some (.int 42), "detached", none⟩ ∧
    DetachIGStateRefreshFunc
      (exampleConn (some (.aws "DependencyViolation" "m")) (some (.other "lookup failed")))
      "igw-1" "vpc-1" = ⟨some (.int 42), "detaching", some (.other "lookup failed")⟩ ∧
    DetachIGStateRefreshFunc
      (exampleConn (some (.aws "InvalidInternetGatewayID.NotFound" "m")) none)
      "igw-1" "vpc-1" = ⟨none, "", none⟩ ∧
    DetachIGStateRefreshFunc (exampleConn (some (.aws "UnauthorizedOperation" "m")) none)
      "igw-1" "vpc-1" = ⟨some (.int 42), "", some (.aws "UnauthorizedOperation" "m")⟩ :=
  ⟨(DetachIGStateRefreshFunc_classification _ "igw-1" "vpc-1").1 rfl,
   (DetachIGStateRefreshFunc_classification _ "igw-1" "vpc-1").2.1 "m" rfl,
   (DetachIGStateRefreshFunc_classification _ "igw-1" "vpc-1").2.2.1 "m" rfl,
   (DetachIGStateRefreshFunc_classification _ "igw-1" "vpc-1").2.2.2.1 "m" rfl,
   (DetachIGStateRefreshFunc_classification _ "igw-1" "vpc-1").2.2.2.2 _ rfl
     (fun _ h => by simp at h) (fun _ h => by simp at h) (fun _ h => by simp at h)⟩

/-- C4. Each of the four probes maps a remote "not found" failure (error code
`InvalidInternetGatewayID.NotFound` for the three gateway probes, an error for
which `tfresource.NotFound` holds for `statusComputeEnvironment`) to the triple
`(nil, "", nil)`, whose error is nil. -/
theorem probes_not_found_not_observable (m : String) :
    (∀ (conn : EC2) (id : String) resp,
      conn.DescribeInternetGateways [id] =
        (resp, some (.aws "InvalidInternetGatewayID.NotFound" m)) →
      IGStateRefreshFunc conn id = some ⟨none, "", none⟩) ∧
    (∀ (conn : EC2) (id expected : String) (start now later : Time) resp,
      conn.DescribeInternetGateways [id] =
        (resp, some (.aws "InvalidInternetGatewayID.NotFound" m)) →
      (IGAttachStateRefreshFunc conn id expected start now later).2 =
        some ⟨none, "", none⟩) ∧
    (∀ (conn : EC2) (gatewayID vpcID : String),
      conn.DetachInternetGateway gatewayID vpcID =
        some (.aws "InvalidInternetGatewayID.NotFound" m) →
      DetachIGStateRefreshFunc conn gatewayID vpcID = ⟨none, "", none⟩) ∧
    (∀ (NotFound : Option Err → Bool) (conn : Batch) (name : String),
      NotFound (conn.FindComputeEnvironmentDetailByName name).2 = true →
      statusComputeEnvironment NotFound conn name = some ⟨none, "", none⟩) := by
  refine ⟨?_, ?_, ?_, ?_⟩
  · intro conn id resp h
    simp [IGStateRefreshFunc, h, ErrMessageContains_aws]
  · intro conn id expected start now later resp h
    simp [IGAttachStateRefreshFunc, h, ErrMessageContains_aws]
  · intro conn gatewayID vpcID h
    simp [DetachIGStateRefreshFunc, h]
  · intro NotFound conn name h
    simp [statusComputeEnvironment, h]

/-- Witness of C4: the four probes against APIs that answer "not found". -/
theorem probes_not_found_not_observable_witness :
    IGStateRefreshFunc (failingConn (.aws "InvalidInternetGatewayID.NotFound" "gone")) "igw-1" =
      some ⟨none, "", none⟩ ∧
    (IGAttachStateRefreshFunc (failingConn (.aws "InvalidInternetGatewayID.NotFound" "gone"))
      "igw-1" "available" 0 5 6).2 = some ⟨none, "", none⟩ ∧
    DetachIGStateRefreshFunc (failingConn (.aws "InvalidInternetGatewayID.NotFound" "gone"))
      "igw-1" "vpc-1" = ⟨none, "", none⟩ ∧
    statusComputeEnvironment exampleNotFound emptyBatch "ce-1" = some ⟨none, "", none⟩ :=
  ⟨(probes_not_found_not_observable "gone").1 _ "igw-1" _ rfl,
   (probes_not_found_not_observable "gone").2.1 _ "igw-1" "available" 0 5 6 _ rfl,
   (probes_not_found_not_observable "gone").2.2.1 _ "igw-1" "vpc-1" rfl,
   (probes_not_found_not_observable "gone").2.2.2 exampleNotFound emptyBatch "ce-1" rfl⟩

/-! ## Theorems: retry callbacks and creation -/

/-- C5. In the retry callback of `resourceInternetGatewayCreate`, whatever the
probe returned: a non-nil gateway ends the retry (nil `RetryError`); a nil gateway
with a nil error gives a retryable error that wraps a `NotFoundError`; a nil
gateway with a non-nil error gives a non-retryable error that carries this error.
The callback applies this to the triple returned by `IGStateRefreshFunc`. -/
theorem resourceInternetGatewayCreate_retryResult (r : ProbeResult Value) :
    (r.value ≠ none → resourceInternetGatewayCreate.retryResult r = none) ∧
    (r.value = none → r.err = none →
      resourceInternetGatewayCreate.retryResult r = some ⟨.notFound, true⟩) ∧
    (∀ err, r.value = none → r.err = some err →
      resourceInternetGatewayCreate.retryResult r = some ⟨err, false⟩) ∧
    (∀ (conn : EC2) (id : String), IGStateRefreshFunc conn id = some r →
      resourceInternetGatewayCreate.retryFunc conn id =
        some (r.value, r.err, resourceInternetGatewayCreate.retryResult r)) := by
  refine ⟨?_, ?_, ?_, ?_⟩
  · intro h
    simp [resourceInternetGatewayCreate.retryResult, h]
  · intro h1 h2
    simp [resourceInternetGatewayCreate.retryResult, h1, h2, RetryableError]
  · intro err h1 h2
    simp [resourceInternetGatewayCreate.retryResult, h1, h2, NonRetryableError]
  · intro conn id h
    simp [resourceInternetGatewayCreate.retryFunc, h]

/-- Witness of C5: the three classes on concrete probe results, and the callback
on an API that lists a gateway. -/
theorem resourceInternetGatewayCreate_retryResult_witness :
    resourceInternetGatewayCreate.retryResult
      ⟨some (.gateway exampleGateway), "available", none⟩ = none ∧
    resourceInternetGatewayCreate.retryResult ⟨none, "", none⟩ = some ⟨.notFound, true⟩ ∧
    resourceInternetGatewayCreate.retryResult ⟨none, "", some (.other "denied")⟩ =
      some ⟨.other "denied", false⟩ ∧
    resourceInternetGatewayCreate.retryFunc (exampleConn none none) "igw-1" =
      some (some (.gateway exampleGateway), none, none) :=
  ⟨(resourceInternetGatewayCreate_retryResult _).1 (by simp),
   (resourceInternetGatewayCreate_retryResult _).2.1 rfl rfl,
   (resourceInternetGatewayCreate_retryResult _).2.2.1 _ rfl rfl,
   (resourceInternetGatewayCreate_retryResult
     ⟨some (.gateway exampleGateway), "available", none⟩).2.2.2 _ "igw-1" rfl⟩

/-- When no probe panics, the retry makes one probe call per invocation of the
callback and nothing else. -/
theorem resourceInternetGatewayCreate_retry_effects (id : String) (attempts : List EC2)
    (igRaw0 igRaw : Option Value) (es : List Effect)
    (h : resourceInternetGatewayCreate.retry id attempts igRaw0 = (some igRaw, es)) :
    es = List.replicate attempts.length (.IGStateRefreshFunc id) := by
  induction attempts generalizing igRaw0 es with
  | nil =>
    simp only [resourceInternetGatewayCreate.retry, Prod.mk.injEq] at h
    simp [← h.2]
  | cons conn rest ih =>
    simp only [resourceInternetGatewayCreate.retry] at h
    cases hf : resourceInternetGatewayCreate.retryFunc conn id with
    | none => simp [hf] at h
    | some t =>
      obtain ⟨v, e, q⟩ := t
      simp only [hf] at h
      cases hr : resourceInternetGatewayCreate.retry id rest v with
      | mk a b =>
        simp only [hr, Prod.mk.injEq] at h
        obtain ⟨h1, h2⟩ := h
        subst h1
        have := ih v b hr
        simp [← h2, this, List.replicate_succ]

/-- C6. Suppose `CreateInternetGateway` succeeded, the creation retry ran to its
end and its error is a timeout (`tfresource.TimedOut`). Then
`resourceInternetGatewayCreate` calls the gateway probe exactly once more (the
probe is called once per retry attempt and once after it). If this last probe
returns no gateway, Create returns the error "error finding Internet Gateway
(id) after creation; retry running Terraform" and ends there, without the attach
step. If it returns a gateway without error, Create goes on to the attach step. -/
theorem resourceInternetGatewayCreate_timeout (w : CreateWorld) (ig : InternetGateway)
    (igRaw : Option Value) (es : List Effect)
    (hcreate : w.CreateInternetGateway = (some ig, none))
    (hretry : resourceInternetGatewayCreate.retry (StringValue ig.InternetGatewayId)
      w.retry.attempts none = (some igRaw, es))
    (htimeout : w.TimedOut w.retry.err = true) :
    (resourceInternetGatewayCreate w).effects.count
        (.IGStateRefreshFunc (StringValue ig.InternetGatewayId)) =
      w.retry.attempts.length + 1 ∧
    (∀ r, IGStateRefreshFunc w.afterRetry (StringValue ig.InternetGatewayId) = some r →
      r.value = none →
      (resourceInternetGatewayCreate w).result =
        some (some (.other ("error finding Internet Gateway (" ++
          StringValue ig.InternetGatewayId ++
          ") after creation; retry running Terraform"))) ∧
      (resourceInternetGatewayCreate w).effects =
        [.CreateInternetGateway, .SetId (StringValue ig.InternetGatewayId)] ++ es ++
          [.IGStateRefreshFunc (StringValue ig.InternetGatewayId)] ∧
      Effect.Attach (StringValue ig.InternetGatewayId) ∉
        (resourceInternetGatewayCreate w).effects) ∧
    (∀ r, IGStateRefreshFunc w.afterRetry (StringValue ig.InternetGatewayId) = some r →
      r.value ≠ none → r.err = none →
      (resourceInternetGatewayCreate w).effects =
        [.CreateInternetGateway, .SetId (StringValue ig.InternetGatewayId)] ++ es ++
          .IGStateRefreshFunc (StringValue ig.InternetGatewayId) ::
          .Attach (StringValue ig.InternetGatewayId) ::
          (if w.attach = none then [.Read (StringValue ig.InternetGatewayId)] else [])) := by
  have hes := resourceInternetGatewayCreate_retry_effects _ _ _ _ _ hretry
  refine ⟨?_, ?_, ?_⟩
  · unfold resourceInternetGatewayCreate
    simp only [hcreate, hretry, htimeout, if_true, CreateRun.after]
    cases hp : IGStateRefreshFunc w.afterRetry (StringValue ig.InternetGatewayId) with
    | none => simp [hes, List.count_replicate]
    | some r =>
      simp only
      by_cases hv : r.value = none
      · simp [hv, hes, List.count_replicate]
      · simp only [hv, if_false]
        unfold resourceInternetGatewayCreate.finish
        cases r.err <;> cases w.attach <;> simp [hes, List.count_replicate]
  · intro r hp hv
    unfold resourceInternetGatewayCreate
    simp only [hcreate, hretry, htimeout, if_true, CreateRun.after, hp, hv]
    simp [hes]
  · intro r hp hv he
    unfold resourceInternetGatewayCreate
    simp only [hcreate, hretry, htimeout, if_true, CreateRun.after, hp, hv, if_false, he,
      resourceInternetGatewayCreate.finish]
    cases w.attach <;> simp

/-- Witness of C6: after a retry that timed out, a probe that still finds nothing
makes Create fail without attaching, and a probe that finds the gateway makes
Create attach and read. -/
theorem resourceInternetGatewayCreate_timeout_witness :
    ((resourceInternetGatewayCreate
        (timedOutWorld (failingConn (.aws "InvalidInternetGatewayID.NotFound" "gone")))).result =
      some (some (.other
        "error finding Internet Gateway (igw-1) after creation; retry running Terraform")) ∧
     (resourceInternetGatewayCreate
        (timedOutWorld (failingConn (.aws "InvalidInternetGatewayID.NotFound" "gone")))).effects =
      [.CreateInternetGateway, .SetId "igw-1", .IGStateRefreshFunc "igw-1",
        .IGStateRefreshFunc "igw-1", .IGStateRefreshFunc "igw-1"]) ∧
    (resourceInternetGatewayCreate (timedOutWorld (exampleConn none none))).effects =
      [.CreateInternetGateway, .SetId "igw-1", .IGStateRefreshFunc "igw-1",
        .IGStateRefreshFunc "igw-1", .IGStateRefreshFunc "igw-1", .Attach "igw-1",
        .Read "igw-1"] := by
  have h := (resourceInternetGatewayCreate_timeout
    (timedOutWorld (failingConn (.aws "InvalidInternetGatewayID.NotFound" "gone")))
    exampleGateway none [.IGStateRefreshFunc "igw-1", .IGStateRefreshFunc "igw-1"]
    rfl rfl rfl).2.1 ⟨none, "", none⟩ rfl rfl
  have g := (resourceInternetGatewayCreate_timeout (timedOutWorld (exampleConn none none))
    exampleGateway none [.IGStateRefreshFunc "igw-1", .IGStateRefreshFunc "igw-1"]
    rfl rfl rfl).2.2 ⟨some (.gateway exampleGateway), "available", none⟩ rfl (by simp) rfl
  exact ⟨⟨h.1, h.2.1⟩, g⟩

/-- C7. In the retry callback of `resourceInternetGatewayDelete`, whatever
`DeleteInternetGateway` answers: no error, or code
`InvalidInternetGatewayID.NotFound`, ends the retry; code `DependencyViolation`
is returned as a retryable error; every other error is returned as a
non-retryable error that carries the same error. -/
theorem resourceInternetGatewayDelete_retryFunc (conn : EC2) (id : String) :
    (conn.DeleteInternetGateway id = none →
      resourceInternetGatewayDelete.retryFunc conn id = none) ∧
    (∀ m, conn.DeleteInternetGateway id = some (.aws "InvalidInternetGatewayID.NotFound" m) →
      resourceInternetGatewayDelete.retryFunc conn id = none) ∧
    (∀ m, conn.DeleteInternetGateway id = some (.aws "DependencyViolation" m) →
      resourceInternetGatewayDelete.retryFunc conn id =
        some ⟨.aws "DependencyViolation" m, true⟩) ∧
    (∀ err, conn.DeleteInternetGateway id = some err →
      (∀ m, err ≠ .aws "InvalidInternetGatewayID.NotFound" m) →
      (∀ m, err ≠ .aws "DependencyViolation" m) →
      resourceInternetGatewayDelete.retryFunc conn id = some ⟨err, false⟩) := by
  refine ⟨?_, ?_, ?_, ?_⟩
  · intro h
    simp [resourceInternetGatewayDelete.retryFunc, h]
  · intro m h
    simp [resourceInternetGatewayDelete.retryFunc, h, ErrMessageContains_aws]
  · intro m h
    have hn : ErrMessageContains (some (.aws "DependencyViolation" m))
        "InvalidInternetGatewayID.NotFound" "" = false := by
      simp [ErrMessageContains]
    simp [resourceInternetGatewayDelete.retryFunc, h, ErrMessageContains_aws, hn,
      RetryableError]
  · intro err h h1 h2
    have n1 : ErrMessageContains (some err) "InvalidInternetGatewayID.NotFound" "" = false := by
      rw [Bool.eq_false_iff, Ne, ErrMessageContains_iff]
      rintro ⟨m, hm⟩
      exact h1 m (Option.some.inj hm)
    have n2 : ErrMessageContains (some err) "DependencyViolation" "" = false := by
      rw [Bool.eq_false_iff, Ne, ErrMessageContains_iff]
      rintro ⟨m, hm⟩
      exact h2 m (Option.some.inj hm)
    simp [resourceInternetGatewayDelete.retryFunc, h, n1, n2, NonRetryableError]

/-- Witness of C7: the four classes on concrete answers of the API. -/
theorem resourceInternetGatewayDelete_retryFunc_witness :
    resourceInternetGatewayDelete.retryFunc (exampleConn none none) "igw-1" = none ∧
    resourceInternetGatewayDelete.retryFunc
      (failingConn (.aws "InvalidInternetGatewayID.NotFound" "gone")) "igw-1" = none ∧
    resourceInternetGatewayDelete.retryFunc
      (failingConn (.aws "DependencyViolation" "in use")) "igw-1" =
      some ⟨.aws "DependencyViolation" "in use", true⟩ ∧
    resourceInternetGatewayDelete.retryFunc (failingConn (.other "broken pipe")) "igw-1" =
      some ⟨.other "broken pipe", false⟩ :=
  ⟨(resourceInternetGatewayDelete_retryFunc _ "igw-1").1 rfl,
   (resourceInternetGatewayDelete_retryFunc _ "igw-1").2.1 "gone" rfl,
   (resourceInternetGatewayDelete_retryFunc _ "igw-1").2.2.1 "in use" rfl,
   (resourceInternetGatewayDelete_retryFunc _ "igw-1").2.2.2 _ rfl
     (fun _ h => by simp at h) (fun _ h => by simp at h)⟩

/-! ## Theorems: the state reconciliation engine -/

theorem WaitRun.after_nil {α : Type} (r : WaitRun α) : WaitRun.after [] r = r := rfl

theorem WaitRun.after_after {α : Type} (xs ys : List WaitEvent) (r : WaitRun α) :
    WaitRun.after xs (WaitRun.after ys r) = WaitRun.after (xs ++ ys) r := by
  simp [WaitRun.after]

theorem delayEvents_after {α : Type} (spec : WaitSpecification α) (fuel : Nat) :
    waitForState spec fuel =
      (pollLoop spec fuel 0 0 0 none "").map (WaitRun.after (delayEvents spec)) := by
  unfold waitForState delayEvents
  cases spec.initialDelay with
  | none =>
    cases pollLoop spec fuel 0 0 0 none "" <;> simp [WaitRun.after]
  | some d => rfl

/-- One iteration that observes a target state. -/
theorem pollLoop_target_step {α : Type} (spec : WaitSpecification α)
    (fuel k elapsed notFound : Nat) (lastValue : Option α) (lastState : String)
    (ht : elapsed ≤ spec.timeout) (he : (spec.probe k).err = none)
    (ho : (spec.probe k).notObservable = false)
    (hin : (spec.probe k).state ∈ spec.target) :
    pollLoop spec (fuel + 1) k elapsed notFound lastValue lastState =
      some ⟨.success (spec.probe k).value (spec.probe k).state, [.probe k]⟩ := by
  unfold pollLoop
  simp only [Nat.not_lt.mpr ht, if_false, he, ho, Bool.false_eq_true, hin, if_true]

/-- One iteration that observes a pending state. -/
theorem pollLoop_pending_step {α : Type} (spec : WaitSpecification α)
    (fuel k elapsed notFound : Nat) (lastValue : Option α) (lastState : String)
    (ht : elapsed ≤ spec.timeout) (he : (spec.probe k).err = none)
    (ho : (spec.probe k).notObservable = false)
    (hnt : (spec.probe k).state ∉ spec.target)
    (hin : (spec.probe k).state ∈ spec.pending) :
    pollLoop spec (fuel + 1) k elapsed notFound lastValue lastState =
      (pollLoop spec fuel (k + 1) (elapsed + spec.pollInterval) 0
        (spec.probe k).value (spec.probe k).state).map
        (WaitRun.after [.probe k, .sleep spec.pollInterval]) := by
  conv_lhs => unfold pollLoop
  simp only [Nat.not_lt.mpr ht, if_false, he, ho, Bool.false_eq_true, hnt, hin, if_true]

/-- The loop is over as soon as the elapsed time exceeds the timeout. -/
theorem pollLoop_timeout_step {α : Type} (spec : WaitSpecification α)
    (fuel k elapsed notFound : Nat) (lastValue : Option α) (lastState : String)
    (ht : spec.timeout < elapsed) :
    pollLoop spec (fuel + 1) k elapsed notFound lastValue lastState =
      some ⟨.timeout ⟨lastValue, lastState, elapsed⟩, []⟩ := by
  unfold pollLoop
  simp only [ht, if_true]

theorem probeCalls_append (xs ys : List WaitEvent) :
    probeCalls (xs ++ ys) = probeCalls xs + probeCalls ys := by
  simp [probeCalls, List.countP_append]

theorem sleeps_append (xs ys : List WaitEvent) :
    sleeps (xs ++ ys) = sleeps xs + sleeps ys := by
  simp [sleeps, List.countP_append]

theorem probeCalls_delayEvents {α : Type} (spec : WaitSpecification α) :
    probeCalls (delayEvents spec) = 0 := by
  unfold delayEvents
  cases spec.initialDelay <;> simp [probeCalls]

theorem sleeps_delayEvents {α : Type} (spec : WaitSpecification α) :
    sleeps (delayEvents spec) = 0 := by
  unfold delayEvents
  cases spec.initialDelay <;> simp [sleeps]

theorem probeCalls_pollRounds (i k n : Nat) : probeCalls (pollRounds i k n) = n := by
  induction n generalizing k with
  | zero => simp [pollRounds, probeCalls]
  | succ n ih =>
    have := ih (k + 1)
    simp only [probeCalls] at this
    simp [pollRounds, probeCalls, List.countP_cons, this]

theorem sleeps_pollRounds (i k n : Nat) : sleeps (pollRounds i k n) = n := by
  induction n generalizing k with
  | zero => simp [pollRounds, sleeps]
  | succ n ih =>
    have := ih (k + 1)
    simp only [sleeps] at this
    simp [pollRounds, sleeps, List.countP_cons, this]

/-- `n` pending observations followed by a target observation, all before the
timeout: the loop makes `n` rounds and succeeds at the next probe call. -/
theorem pollLoop_pending_then_target {α : Type} (spec : WaitSpecification α) (n : Nat) :
    ∀ (fuel k elapsed notFound : Nat) (lastValue : Option α) (lastState : String),
    (∀ j, j < n → (spec.probe (k + j)).err = none ∧
      (spec.probe (k + j)).notObservable = false ∧
      (spec.probe (k + j)).state ∉ spec.target ∧
      (spec.probe (k + j)).state ∈ spec.pending) →
    (spec.probe (k + n)).err = none →
    (spec.probe (k + n)).notObservable = false →
    (spec.probe (k + n)).state ∈ spec.target →
    elapsed + n * spec.pollInterval ≤ spec.timeout →
    pollLoop spec (fuel + n + 1) k elapsed notFound lastValue lastState =
      some ⟨.success (spec.probe (k + n)).value (spec.probe (k + n)).state,
        pollRounds spec.pollInterval k n ++ [.probe (k + n)]⟩ := by
  induction n with
  | zero =>
    intro fuel k elapsed notFound lastValue lastState _ he ho hin ht
    simp only [Nat.zero_mul, Nat.add_zero] at ht he ho hin ⊢
    rw [pollLoop_target_step spec fuel k elapsed notFound lastValue lastState ht he ho hin]
    simp [pollRounds]
  | succ n ih =>
    intro fuel k elapsed notFound lastValue lastState hp he ho hin ht
    have h0 := hp 0 (Nat.succ_pos n)
    simp only [Nat.add_zero] at h0
    have ht0 : elapsed ≤ spec.timeout := le_trans (Nat.le_add_right _ _) ht
    have hfuel : fuel + (n + 1) + 1 = (fuel + n + 1) + 1 := by omega
    rw [hfuel, pollLoop_pending_step spec (fuel + n + 1) k elapsed notFound lastValue lastState
      ht0 h0.1 h0.2.1 h0.2.2.1 h0.2.2.2]
    have hk : k + (n + 1) = k + 1 + n := by omega
    rw [hk] at he ho hin ⊢
    have hp1 : ∀ j, j < n → (spec.probe (k + 1 + j)).err = none ∧
        (spec.probe (k + 1 + j)).notObservable = false ∧
        (spec.probe (k + 1 + j)).state ∉ spec.target ∧
        (spec.probe (k + 1 + j)).state ∈ spec.pending := by
      intro j hj
      have := hp (j + 1) (Nat.succ_lt_succ hj)
      have hkj : k + (j + 1) = k + 1 + j := by omega
      rwa [hkj] at this
    have ht1 : elapsed + spec.pollInterval + n * spec.pollInterval ≤ spec.timeout := by
      rw [Nat.succ_mul] at ht
      omega
    rw [ih fuel (k + 1) (elapsed + spec.pollInterval) 0 _ _ hp1 he ho hin ht1]
    simp [WaitRun.after, pollRounds]

/-- Pending observations for ever: the loop makes a round for each poll instant up
to the timeout and then reports a timeout with the last observation. -/
theorem pollLoop_pending_until_timeout {α : Type} (spec : WaitSpecification α)
    (hall : ∀ k, (spec.probe k).err = none ∧ (spec.probe k).notObservable = false ∧
      (spec.probe k).state ∉ spec.target ∧ (spec.probe k).state ∈ spec.pending)
    (r : Nat) :
    ∀ (fuel k elapsed notFound : Nat) (lastValue : Option α) (lastState : String),
    (∀ j, j < r → elapsed + j * spec.pollInterval ≤ spec.timeout) →
    spec.timeout < elapsed + r * spec.pollInterval →
    pollLoop spec (fuel + r + 1) k elapsed notFound lastValue lastState =
      some ⟨.timeout
        ⟨(match r with
          | 0 => lastValue
          | m + 1 => (spec.probe (k + m)).value),
         (match r with
          | 0 => lastState
          | m + 1 => (spec.probe (k + m)).state),
         elapsed + r * spec.pollInterval⟩,
        pollRounds spec.pollInterval k r⟩ := by
  induction r with
  | zero =>
    intro fuel k elapsed notFound lastValue lastState _ ht
    simp only [Nat.zero_mul, Nat.add_zero] at ht ⊢
    rw [pollLoop_timeout_step spec fuel k elapsed notFound lastValue lastState ht]
    simp [pollRounds]
  | succ r ih =>
    intro fuel k elapsed notFound lastValue lastState hle ht
    have h0 := hall k
    have ht0 : elapsed ≤ spec.timeout := by
      have := hle 0 (Nat.succ_pos r)
      simpa using this
    have hfuel : fuel + (r + 1) + 1 = (fuel + r + 1) + 1 := by omega
    rw [hfuel, pollLoop_pending_step spec (fuel + r + 1) k elapsed notFound lastValue lastState
      ht0 h0.1 h0.2.1 h0.2.2.1 h0.2.2.2]
    have hle1 : ∀ j, j < r →
        elapsed + spec.pollInterval + j * spec.pollInterval ≤ spec.timeout := by
      intro j hj
      have := hle (j + 1) (Nat.succ_lt_succ hj)
      rw [Nat.succ_mul] at this
      omega
    have ht1 : spec.timeout < elapsed + spec.pollInterval + r * spec.pollInterval := by
      rw [Nat.succ_mul] at ht
      omega
    rw [ih fuel (k + 1) (elapsed + spec.pollInterval) 0 _ _ hle1 ht1]
    have hsum : elapsed + spec.pollInterval + r * spec.pollInterval =
        elapsed + (r + 1) * spec.pollInterval := by
      rw [Nat.succ_mul]
      omega
    cases r with
    | zero => simp [WaitRun.after, pollRounds]
    | succ m =>
      have hk : k + 1 + m = k + (m + 1) := by omega
      simp [WaitRun.after, pollRounds, hk, hsum]

/-- Pending observations for ever: whatever the fuel, the loop does not succeed. -/
theorem pollLoop_pending_never_success {α : Type} (spec : WaitSpecification α)
    (hall : ∀ k, (spec.probe k).err = none ∧ (spec.probe k).notObservable = false ∧
      (spec.probe k).state ∉ spec.target ∧ (spec.probe k).state ∈ spec.pending)
    (fuel : Nat) :
    ∀ (k elapsed notFound : Nat) (lastValue : Option α) (lastState : String)
      (run : WaitRun α) (v : Option α) (s : String),
    pollLoop spec fuel k elapsed notFound lastValue lastState = some run →
    run.outcome ≠ .success v s := by
  induction fuel with
  | zero =>
    intro k elapsed notFound lastValue lastState run v s h
    simp [pollLoop] at h
  | succ fuel ih =>
    intro k elapsed notFound lastValue lastState run v s h
    by_cases ht : spec.timeout < elapsed
    · rw [pollLoop_timeout_step spec fuel k elapsed notFound lastValue lastState ht] at h
      simp only [Option.some.injEq] at h
      rw [← h]
      simp
    · have h0 := hall k
      rw [pollLoop_pending_step spec fuel k elapsed notFound lastValue lastState
        (Nat.le_of_not_lt ht) h0.1 h0.2.1 h0.2.2.1 h0.2.2.2] at h
      simp only [Option.map_eq_some'] at h
      obtain ⟨run1, h1, h2⟩ := h
      have := ih _ _ _ _ _ run1 v s h1
      rw [← h2]
      simpa [WaitRun.after] using this

/-- A result whose state label belongs to a list of state labels that does not
hold the empty string is observable. -/
theorem notObservable_of_state_mem {α : Type} (r : ProbeResult α) (states : List String)
    (hs : "" ∉ states) (h : r.state ∈ states) : r.notObservable = false := by
  have hne : r.state ≠ "" := fun h0 => hs (h0 ▸ h)
  simp [ProbeResult.notObservable, hne]

/-- A first result that has no error, is observable (its value or its state label
is not empty) and has a state label among the target states: the wait succeeds
at the first invocation of the probe. -/
theorem waitForState_target_observable {α : Type} (spec : WaitSpecification α) (fuel : Nat)
    (he : (spec.probe 0).err = none)
    (ho : (spec.probe 0).notObservable = false)
    (hin : (spec.probe 0).state ∈ spec.target) :
    waitForState spec (fuel + 1) =
      some ⟨.success (spec.probe 0).value (spec.probe 0).state,
        delayEvents spec ++ [.probe 0]⟩ ∧
    probeCalls (delayEvents spec ++ [.probe 0]) = 1 ∧
    sleeps (delayEvents spec ++ [.probe 0]) = 0 := by
  refine ⟨?_, ?_, ?_⟩
  · rw [delayEvents_after,
      pollLoop_target_step spec fuel 0 0 0 none "" (Nat.zero_le _) he ho hin]
    simp [WaitRun.after]
  · rw [probeCalls_append, probeCalls_delayEvents]
    simp [probeCalls]
  · rw [sleeps_append, sleeps_delayEvents]
    simp [sleeps]

/-- C8. For every wait specification (its target states are state labels: the
empty string, which marks "not yet observable", is not listed among them) whose
probe's first result has no error and a state label belonging to the target
states, `waitForState` returns, for any fuel of at least one iteration, the
success outcome that carries the observed value and label, after exactly one
probe invocation and no sleep of the poll interval. -/
theorem waitForState_target_first {α : Type} (spec : WaitSpecification α) (fuel : Nat)
    (htarget : "" ∉ spec.target)
    (he : (spec.probe 0).err = none)
    (hin : (spec.probe 0).state ∈ spec.target) :
    waitForState spec (fuel + 1) =
      some ⟨.success (spec.probe 0).value (spec.probe 0).state,
        delayEvents spec ++ [.probe 0]⟩ ∧
    probeCalls (delayEvents spec ++ [.probe 0]) = 1 ∧
    sleeps (delayEvents spec ++ [.probe 0]) = 0 :=
  waitForState_target_observable spec fuel he
    (notObservable_of_state_mem _ _ htarget hin) hin

/-- Witness of C8: a probe that answers `available` at once. -/
theorem waitForState_target_first_witness :
    waitForState
      (scriptedSpec [] ⟨some "igw-1", "available", none⟩ ["attaching"] ["available"] 1000 0) 1 =
      some ⟨.success (some "igw-1") "available", [.probe 0]⟩ :=
  (waitForState_target_first
    (scriptedSpec [] ⟨some "igw-1", "available", none⟩ ["attaching"] ["available"] 1000 0) 0
    (by decide) rfl (by decide)).1

/-- Observable pending results on the first `n` invocations, then an observable
target result, in time: the wait succeeds after `n + 1` invocations of the probe
and `n` sleeps of the poll interval. -/
theorem waitForState_pending_then_target_observable {α : Type} (spec : WaitSpecification α)
    (n fuel : Nat)
    (hdisj : ∀ s, s ∈ spec.pending → s ∉ spec.target)
    (hp : ∀ j, j < n → (spec.probe j).err = none ∧
      (spec.probe j).notObservable = false ∧ (spec.probe j).state ∈ spec.pending)
    (he : (spec.probe n).err = none)
    (ho : (spec.probe n).notObservable = false)
    (hin : (spec.probe n).state ∈ spec.target)
    (ht : n * spec.pollInterval < spec.timeout)
    (hfuel : n + 1 ≤ fuel) :
    waitForState spec fuel =
      some ⟨.success (spec.probe n).value (spec.probe n).state,
        delayEvents spec ++ pollRounds spec.pollInterval 0 n ++ [.probe n]⟩ ∧
    probeCalls (delayEvents spec ++ pollRounds spec.pollInterval 0 n ++ [.probe n]) = n + 1 ∧
    sleeps (delayEvents spec ++ pollRounds spec.pollInterval 0 n ++ [.probe n]) = n := by
  refine ⟨?_, ?_, ?_⟩
  · obtain ⟨f, rfl⟩ : ∃ f, fuel = f + n + 1 := ⟨fuel - (n + 1), by omega⟩
    have hp0 : ∀ j, j < n → (spec.probe (0 + j)).err = none ∧
        (spec.probe (0 + j)).notObservable = false ∧
        (spec.probe (0 + j)).state ∉ spec.target ∧
        (spec.probe (0 + j)).state ∈ spec.pending := by
      intro j hj
      rw [Nat.zero_add]
      exact ⟨(hp j hj).1, (hp j hj).2.1, hdisj _ (hp j hj).2.2, (hp j hj).2.2⟩
    have := pollLoop_pending_then_target spec n f 0 0 0 none "" hp0
      (by rwa [Nat.zero_add]) (by rwa [Nat.zero_add]) (by rwa [Nat.zero_add])
      (by omega)
    rw [Nat.zero_add] at this
    rw [delayEvents_after, this]
    simp [WaitRun.after]
  · rw [probeCalls_append, probeCalls_append, probeCalls_delayEvents, probeCalls_pollRounds]
    simp [probeCalls]
  · rw [sleeps_append, sleeps_append, sleeps_delayEvents, sleeps_pollRounds]
    simp [sleeps]

/-- C9. For every N and every wait specification (pending and target states
disjoint, and state labels: the empty string, which marks "not yet observable",
is listed in neither) whose probe returns, without error, a pending state on each
of its first N calls and a target state on call N+1, with
N x poll interval < timeout: for any fuel of at least N+1 iterations
`waitForState` returns success with that target value and label, after exactly
N+1 probe invocations with a sleep of the poll interval between consecutive ones
(N sleeps). -/
theorem waitForState_pending_then_target {α : Type} (spec : WaitSpecification α)
    (n fuel : Nat)
    (hpending : "" ∉ spec.pending)
    (htarget : "" ∉ spec.target)
    (hdisj : ∀ s, s ∈ spec.pending → s ∉ spec.target)
    (hp : ∀ j, j < n → (spec.probe j).err = none ∧ (spec.probe j).state ∈ spec.pending)
    (he : (spec.probe n).err = none)
    (hin : (spec.probe n).state ∈ spec.target)
    (ht : n * spec.pollInterval < spec.timeout)
    (hfuel : n + 1 ≤ fuel) :
    waitForState spec fuel =
      some ⟨.success (spec.probe n).value (spec.probe n).state,
        delayEvents spec ++ pollRounds spec.pollInterval 0 n ++ [.probe n]⟩ ∧
    probeCalls (delayEvents spec ++ pollRounds spec.pollInterval 0 n ++ [.probe n]) = n + 1 ∧
    sleeps (delayEvents spec ++ pollRounds spec.pollInterval 0 n ++ [.probe n]) = n :=
  waitForState_pending_then_target_observable spec n fuel hdisj
    (fun j hj => ⟨(hp j hj).1, notObservable_of_state_mem _ _ hpending (hp j hj).2,
      (hp j hj).2⟩)
    he (notObservable_of_state_mem _ _ htarget hin) hin ht hfuel

/-- Witness of C9: pending `attaching`, target `available`, the probe answers
`attaching`, `attaching`, `available`; the wait succeeds with `available` after
3 probe invocations and 2 sleeps. -/
theorem waitForState_pending_then_target_witness :
    waitForState attachScenario 3 =
      some ⟨.success (some "igw-1") "available",
        [.probe 0, .sleep 10, .probe 1, .sleep 10, .probe 2]⟩ ∧
    probeCalls [.probe 0, .sleep 10, .probe 1, .sleep 10, .probe 2] = 3 ∧
    sleeps [.probe 0, .sleep 10, .probe 1, .sleep 10, .probe 2] = 2 :=
  waitForState_pending_then_target attachScenario 2 3
    (by decide) (by decide) (by decide)
    (fun j hj => by
      have : j = 0 ∨ j = 1 := by omega
      rcases this with h | h <;> subst h <;> exact ⟨rfl, by decide⟩)
    rfl (by decide) (by decide) (by decide)

/-- Observable pending results for ever, with a positive poll interval: the wait
never succeeds, and it ends with the timeout outcome once the elapsed time
exceeds the timeout. -/
theorem waitForState_pending_forever_observable {α : Type} (spec : WaitSpecification α)
    (hpos : 0 < spec.pollInterval)
    (hall : ∀ k, (spec.probe k).err = none ∧ (spec.probe k).notObservable = false ∧
      (spec.probe k).state ∈ spec.pending ∧ (spec.probe k).state ∉ spec.target) :
    (∀ fuel run v s, waitForState spec fuel = some run → run.outcome ≠ .success v s) ∧
    (∀ fuel, spec.timeout / spec.pollInterval + 2 ≤ fuel →
      waitForState spec fuel =
        some ⟨.timeout
          ⟨(spec.probe (spec.timeout / spec.pollInterval)).value,
           (spec.probe (spec.timeout / spec.pollInterval)).state,
           (spec.timeout / spec.pollInterval + 1) * spec.pollInterval⟩,
          delayEvents spec ++
            pollRounds spec.pollInterval 0 (spec.timeout / spec.pollInterval + 1)⟩) ∧
    spec.timeout < (spec.timeout / spec.pollInterval + 1) * spec.pollInterval ∧
    (spec.probe (spec.timeout / spec.pollInterval)).state ∈ spec.pending := by
  have hall1 : ∀ k, (spec.probe k).err = none ∧ (spec.probe k).notObservable = false ∧
      (spec.probe k).state ∉ spec.target ∧ (spec.probe k).state ∈ spec.pending :=
    fun k => ⟨(hall k).1, (hall k).2.1, (hall k).2.2.2, (hall k).2.2.1⟩
  have hlt : spec.timeout < (spec.timeout / spec.pollInterval + 1) * spec.pollInterval := by
    rw [Nat.mul_comm]
    exact Nat.lt_mul_div_succ spec.timeout hpos
  refine ⟨?_, ?_, hlt, (hall _).2.2.1⟩
  · intro fuel run v s h
    rw [delayEvents_after] at h
    simp only [Option.map_eq_some'] at h
    obtain ⟨run1, h1, h2⟩ := h
    have := pollLoop_pending_never_success spec hall1 fuel 0 0 0 none "" run1 v s h1
    rw [← h2]
    simpa [WaitRun.after] using this
  · intro fuel hfuel
    obtain ⟨f, rfl⟩ : ∃ f, fuel = f + (spec.timeout / spec.pollInterval + 1) + 1 :=
      ⟨fuel - (spec.timeout / spec.pollInterval + 2), by omega⟩
    have hle : ∀ j, j < spec.timeout / spec.pollInterval + 1 →
        0 + j * spec.pollInterval ≤ spec.timeout := by
      intro j hj
      rw [Nat.zero_add]
      calc j * spec.pollInterval
          ≤ (spec.timeout / spec.pollInterval) * spec.pollInterval :=
            Nat.mul_le_mul_right _ (Nat.lt_succ_iff.mp hj)
        _ ≤ spec.timeout := Nat.div_mul_le_self _ _
    have := pollLoop_pending_until_timeout spec hall1 (spec.timeout / spec.pollInterval + 1)
      f 0 0 0 none "" hle (by rwa [Nat.zero_add])
    simp only [Nat.zero_add] at this
    rw [delayEvents_after, this]
    simp [WaitRun.after]

/-- C10. For every wait specification (poll interval positive; its pending states
are state labels: the empty string, which marks "not yet observable", is not
listed among them) whose probe returns on every call, without error, a pending
state and never a target state: `waitForState` never returns a success outcome,
and for any fuel of at least `timeout / pollInterval + 2` iterations it returns
the timeout outcome (not an error outcome), reached when the elapsed time
`(timeout / pollInterval + 1) * pollInterval` exceeds the timeout, that carries
the last observed value and pending label. -/
theorem waitForState_pending_forever {α : Type} (spec : WaitSpecification α)
    (hpos : 0 < spec.pollInterval)
    (hpending : "" ∉ spec.pending)
    (hall : ∀ k, (spec.probe k).err = none ∧
      (spec.probe k).state ∈ spec.pending ∧ (spec.probe k).state ∉ spec.target) :
    (∀ fuel run v s, waitForState spec fuel = some run → run.outcome ≠ .success v s) ∧
    (∀ fuel, spec.timeout / spec.pollInterval + 2 ≤ fuel →
      waitForState spec fuel =
        some ⟨.timeout
          ⟨(spec.probe (spec.timeout / spec.pollInterval)).value,
           (spec.probe (spec.timeout / spec.pollInterval)).state,
           (spec.timeout / spec.pollInterval + 1) * spec.pollInterval⟩,
          delayEvents spec ++
            pollRounds spec.pollInterval 0 (spec.timeout / spec.pollInterval + 1)⟩) ∧
    spec.timeout < (spec.timeout / spec.pollInterval + 1) * spec.pollInterval ∧
    (spec.probe (spec.timeout / spec.pollInterval)).state ∈ spec.pending :=
  waitForState_pending_forever_observable spec hpos
    (fun k => ⟨(hall k).1, notObservable_of_state_mem _ _ hpending (hall k).2.1,
      (hall k).2.1, (hall k).2.2⟩)

/-- Witness of C10: pending `detaching`, target `detached`, the probe answers
`detaching` for ever, timeout 50, poll interval 10; the wait ends with a timeout
whose last observed state is `detaching`. -/
theorem waitForState_pending_forever_witness :
    waitForState detachScenario 7 =
      some ⟨.timeout ⟨some "igw-1", "detaching", 60⟩,
        [.probe 0, .sleep 10, .probe 1, .sleep 10, .probe 2, .sleep 10, .probe 3, .sleep 10,
          .probe 4, .sleep 10, .probe 5, .sleep 10]⟩ :=
  (waitForState_pending_forever detachScenario (by decide) (by decide)
    (fun _ => ⟨rfl, by simp [detachScenario, scriptedSpec],
      by simp [detachScenario, scriptedSpec]⟩)).2.1 7 (by decide)

/-! ## Theorems: the loop as an iteration -/

/-- The loop of `waitForState` is the iteration of `pollStep`. -/
theorem pollLoop_succ {α : Type} (spec : WaitSpecification α) (fuel k : Nat)
    (st : LoopState α) :
    pollLoop spec (fuel + 1) k st.elapsed st.notFound st.lastValue st.lastState =
      if spec.timeout < st.elapsed then
        some ⟨.timeout ⟨st.lastValue, st.lastState, st.elapsed⟩, []⟩
      else
        match pollStep spec k st with
        | .inl o => some ⟨o, [.probe k]⟩
        | .inr st1 =>
          (pollLoop spec fuel (k + 1) st1.elapsed st1.notFound st1.lastValue st1.lastState).map
            (WaitRun.after [.probe k, .sleep spec.pollInterval]) := by
  conv_lhs => unfold pollLoop
  unfold pollStep
  by_cases ht : spec.timeout < st.elapsed
  · simp only [ht, if_true]
  · simp only [ht, if_false]
    cases (spec.probe k).err with
    | some e =>
      simp only
      split_ifs <;> rfl
    | none =>
      simp only
      split_ifs <;> rfl

theorem pollLoopFrom_zero {α : Type} (spec : WaitSpecification α) (k : Nat)
    (st : LoopState α) : pollLoopFrom spec 0 k st = none := by
  simp [pollLoopFrom, pollLoop]

theorem pollLoopFrom_succ {α : Type} (spec : WaitSpecification α) (fuel k : Nat)
    (st : LoopState α) :
    pollLoopFrom spec (fuel + 1) k st =
      if spec.timeout < st.elapsed then
        some ⟨.timeout ⟨st.lastValue, st.lastState, st.elapsed⟩, []⟩
      else
        match pollStep spec k st with
        | .inl o => some ⟨o, [.probe k]⟩
        | .inr st1 =>
          (pollLoopFrom spec fuel (k + 1) st1).map
            (WaitRun.after [.probe k, .sleep spec.pollInterval]) :=
  pollLoop_succ spec fuel k st

theorem waitForState_eq_pollLoopFrom {α : Type} (spec : WaitSpecification α) (fuel : Nat) :
    waitForState spec fuel =
      (pollLoopFrom spec fuel 0 LoopState.init).map (WaitRun.after (delayEvents spec)) :=
  delayEvents_after spec fuel

theorem map_after_nil {α : Type} (x : Option (WaitRun α)) :
    x.map (WaitRun.after []) = x := by
  cases x <;> rfl

theorem map_after_after {α : Type} (xs ys : List WaitEvent) (x : Option (WaitRun α)) :
    (x.map (WaitRun.after ys)).map (WaitRun.after xs) = x.map (WaitRun.after (xs ++ ys)) := by
  cases x <;> simp [WaitRun.after]

/-- More fuel does not change a result. -/
theorem pollLoopFrom_mono {α : Type} (spec : WaitSpecification α) (m fuel : Nat) :
    ∀ (k : Nat) (st : LoopState α) (run : WaitRun α),
    pollLoopFrom spec fuel k st = some run → pollLoopFrom spec (fuel + m) k st = some run := by
  induction fuel with
  | zero =>
    intro k st run h
    simp [pollLoopFrom_zero] at h
  | succ fuel ih =>
    intro k st run h
    have hf : fuel + 1 + m = (fuel + m) + 1 := by omega
    rw [hf, pollLoopFrom_succ]
    rw [pollLoopFrom_succ] at h
    by_cases ht : spec.timeout < st.elapsed
    · simpa [ht] using h
    · simp only [ht, if_false] at h ⊢
      cases hs : pollStep spec k st with
      | inl o => simpa [hs] using h
      | inr st1 =>
        simp only [hs, Option.map_eq_some'] at h ⊢
        obtain ⟨run1, h1, h2⟩ := h
        exact ⟨run1, ih _ _ _ h1, h2⟩

/-- Two results of the same wait, whatever the fuel, are equal. -/
theorem waitForState_unique {α : Type} (spec : WaitSpecification α) (f1 f2 : Nat)
    (r1 r2 : WaitRun α) (h1 : waitForState spec f1 = some r1)
    (h2 : waitForState spec f2 = some r2) : r1 = r2 := by
  rw [waitForState_eq_pollLoopFrom, Option.map_eq_some'] at h1 h2
  obtain ⟨a1, ha1, rfl⟩ := h1
  obtain ⟨a2, ha2, rfl⟩ := h2
  have e1 := pollLoopFrom_mono spec f2 f1 _ _ _ ha1
  have e2 := pollLoopFrom_mono spec f1 f2 _ _ _ ha2
  rw [Nat.add_comm] at e2
  rw [e1] at e2
  rw [Option.some.inj e2]

/-- Rounds that all go back to the head of the loop are a front part of the run. -/
theorem pollLoopFrom_rounds {α : Type} (spec : WaitSpecification α) (fuel n : Nat) :
    ∀ (k : Nat) (st st1 : LoopState α), rounds spec k st n = some st1 →
    pollLoopFrom spec (fuel + n) k st =
      (pollLoopFrom spec fuel (k + n) st1).map
        (WaitRun.after (pollRounds spec.pollInterval k n)) := by
  induction n with
  | zero =>
    intro k st st1 h
    simp only [rounds, Option.some.injEq] at h
    subst h
    simp only [Nat.add_zero, pollRounds, map_after_nil]
  | succ n ih =>
    intro k st st1 h
    have hf : fuel + (n + 1) = (fuel + n) + 1 := by omega
    rw [hf, pollLoopFrom_succ]
    simp only [rounds] at h
    by_cases ht : spec.timeout < st.elapsed
    · simp [ht] at h
    · simp only [ht, if_false] at h ⊢
      cases hs : pollStep spec k st with
      | inl o => simp [hs] at h
      | inr st2 =>
        simp only [hs] at h ⊢
        rw [ih (k + 1) st2 st1 h]
        have hk : k + 1 + n = k + (n + 1) := by omega
        rw [hk, map_after_after]
        rfl

/-- An invocation of the probe that is part of a run is reached by rounds that
all went back to the head of the loop, and passes the timeout test. -/
theorem rounds_of_probe_mem {α : Type} (spec : WaitSpecification α) (n : Nat) :
    ∀ (fuel k : Nat) (st : LoopState α) (run : WaitRun α),
    pollLoopFrom spec fuel k st = some run → WaitEvent.probe (k + n) ∈ run.events →
    ∃ st1, rounds spec k st n = some st1 ∧ st1.elapsed ≤ spec.timeout := by
  induction n with
  | zero =>
    intro fuel k st run h hm
    cases fuel with
    | zero => simp [pollLoopFrom_zero] at h
    | succ fuel =>
      rw [pollLoopFrom_succ] at h
      by_cases ht : spec.timeout < st.elapsed
      · simp only [ht, if_true, Option.some.injEq] at h
        subst h
        simp at hm
      · exact ⟨st, rfl, Nat.le_of_not_lt ht⟩
  | succ n ih =>
    intro fuel k st run h hm
    cases fuel with
    | zero => simp [pollLoopFrom_zero] at h
    | succ fuel =>
      rw [pollLoopFrom_succ] at h
      by_cases ht : spec.timeout < st.elapsed
      · simp only [ht, if_true, Option.some.injEq] at h
        subst h
        simp at hm
      · simp only [ht, if_false] at h
        cases hs : pollStep spec k st with
        | inl o =>
          simp only [hs, Option.some.injEq] at h
          subst h
          simp at hm
        | inr st2 =>
          simp only [hs, Option.map_eq_some'] at h
          obtain ⟨run1, h1, h2⟩ := h
          subst h2
          have hk : k + (n + 1) = k + 1 + n := by omega
          rw [hk] at hm
          have hm1 : WaitEvent.probe (k + 1 + n) ∈ run1.events := by
            simp only [WaitRun.after, List.cons_append, List.nil_append, List.mem_cons] at hm
            rcases hm with hm | hm | hm
            · injection hm with hm
              omega
            · cases hm
            · exact hm
          obtain ⟨st1, hr, hle⟩ := ih fuel (k + 1) st2 run1 h1 hm1
          exact ⟨st1, by simp [rounds, ht, hs, hr], hle⟩

theorem probe_not_mem_delayEvents {α : Type} (spec : WaitSpecification α) (m : Nat) :
    WaitEvent.probe m ∉ delayEvents spec := by
  unfold delayEvents
  cases spec.initialDelay <;> simp

/-- The last of `n + 1` rounds. -/
theorem rounds_succ_last {α : Type} (spec : WaitSpecification α) (n : Nat) :
    ∀ (k : Nat) (st : LoopState α),
    rounds spec k st (n + 1) =
      (rounds spec k st n).bind fun st1 =>
        if spec.timeout < st1.elapsed then
          none
        else
          match pollStep spec (k + n) st1 with
          | .inl _ => none
          | .inr st2 => some st2 := by
  induction n with
  | zero =>
    intro k st
    simp only [rounds, Option.some_bind, Nat.add_zero]
  | succ n ih =>
    intro k st
    rw [rounds]
    by_cases ht : spec.timeout < st.elapsed
    · simp [rounds, ht]
    · simp only [ht, if_false]
      cases hs : pollStep spec k st with
      | inl o => simp [rounds, ht, hs]
      | inr st2 =>
        simp only
        rw [ih (k + 1) st2]
        have hk : k + 1 + n = k + (n + 1) := by omega
        conv_rhs => rw [rounds]
        simp only [ht, if_false, hs, hk]

/-- A wait that reaches invocation `m` of the probe in time and is ended by its
result: the result of the wait, for enough fuel. -/
theorem waitForState_stop_at {α : Type} (spec : WaitSpecification α) (m : Nat)
    (st : LoopState α) (o : ReconciliationOutcome α)
    (hr : rounds spec 0 LoopState.init m = some st) (ht : st.elapsed ≤ spec.timeout)
    (hs : pollStep spec m st = .inl o) (fuel : Nat) (hfuel : m + 1 ≤ fuel) :
    waitForState spec fuel =
      some ⟨o, delayEvents spec ++ pollRounds spec.pollInterval 0 m ++ [.probe m]⟩ := by
  obtain ⟨f, rfl⟩ : ∃ f, fuel = (f + 1) + m := ⟨fuel - (m + 1), by omega⟩
  rw [waitForState_eq_pollLoopFrom, pollLoopFrom_rounds spec (f + 1) m 0 _ st hr,
    Nat.zero_add, pollLoopFrom_succ]
  simp [Nat.not_lt.mpr ht, hs, WaitRun.after]

/-- An invocation of the probe that is part of a run of a wait is reached by
rounds that all went back to the head of the loop, and passes the timeout test. -/
theorem rounds_of_waitForState {α : Type} (spec : WaitSpecification α) (m : Nat)
    (h : ∃ fuel run, waitForState spec fuel = some run ∧ WaitEvent.probe m ∈ run.events) :
    ∃ st, rounds spec 0 LoopState.init m = some st ∧ st.elapsed ≤ spec.timeout := by
  obtain ⟨fuel, run, hrun, hm⟩ := h
  rw [waitForState_eq_pollLoopFrom, Option.map_eq_some'] at hrun
  obtain ⟨run1, h1, rfl⟩ := hrun
  have hm1 : WaitEvent.probe (0 + m) ∈ run1.events := by
    rw [Nat.zero_add]
    simp only [WaitRun.after, List.mem_append] at hm
    rcases hm with hm | hm
    · exact absurd hm (probe_not_mem_delayEvents spec m)
    · exact hm
  exact rounds_of_probe_mem spec m fuel 0 _ run1 h1 hm1

theorem probe_mem_pollRounds (i m : Nat) (n : Nat) :
    ∀ k, WaitEvent.probe m ∈ pollRounds i k n → m < k + n := by
  induction n with
  | zero =>
    intro k h
    simp [pollRounds] at h
  | succ n ih =>
    intro k h
    simp only [pollRounds, List.mem_cons] at h
    rcases h with h | h | h
    · injection h with h
      omega
    · cases h
    · have := ih (k + 1) h
      omega

theorem probe_mem_run_events {α : Type} (spec : WaitSpecification α) (m n : Nat)
    (h : WaitEvent.probe m ∈
      delayEvents spec ++ pollRounds spec.pollInterval 0 n ++ [.probe n]) : m ≤ n := by
  simp only [List.mem_append, List.mem_singleton] at h
  rcases h with (h | h) | h
  · exact absurd h (probe_not_mem_delayEvents spec m)
  · have := probe_mem_pollRounds _ _ _ _ h
    omega
  · injection h with h
    omega

theorem probeCalls_run_events {α : Type} (spec : WaitSpecification α) (n : Nat) :
    probeCalls (delayEvents spec ++ pollRounds spec.pollInterval 0 n ++ [.probe n]) = n + 1 := by
  rw [probeCalls_append, probeCalls_append, probeCalls_delayEvents, probeCalls_pollRounds]
  simp [probeCalls]

theorem err_none_of_notObservable {α : Type} (r : ProbeResult α)
    (h : r.notObservable = true) : r.err = none := by
  unfold ProbeResult.notObservable at h
  simp only [Bool.and_eq_true, Option.isNone_iff_eq_none] at h
  exact h.1.1

/-- Invocation `k` of the probe is made with the variables `st` exactly when the
`k` rounds before it all went back to the head of the loop and left the
variables `st`, which pass the timeout test. -/
theorem attempt_iff_rounds {α : Type} (spec : WaitSpecification α) (k : Nat) :
    ∀ st : LoopState α, attempt spec k = some st ↔
      rounds spec 0 LoopState.init k = some st ∧ st.elapsed ≤ spec.timeout := by
  induction k with
  | zero =>
    intro st
    simp only [attempt, rounds, Option.some.injEq]
    constructor
    · intro h
      subst h
      exact ⟨rfl, Nat.zero_le _⟩
    · intro h
      exact h.1
  | succ k ih =>
    intro st
    rw [rounds_succ_last, Nat.zero_add, attempt]
    cases h0 : attempt spec k with
    | none =>
      constructor
      · intro h
        cases h
      · rintro ⟨h, _⟩
        rw [Option.bind_eq_some] at h
        obtain ⟨st0, hr, hf⟩ := h
        by_cases ht : spec.timeout < st0.elapsed
        · simp [ht] at hf
        · have := (ih st0).mpr ⟨hr, Nat.le_of_not_lt ht⟩
          rw [h0] at this
          cases this
    | some st0 =>
      obtain ⟨hr, hle⟩ := (ih st0).mp h0
      rw [hr]
      simp only [Option.some_bind, Nat.not_lt.mpr hle, if_false]
      cases hs : pollStep spec k st0 with
      | inl o => simp
      | inr st1 =>
        by_cases ht : spec.timeout < st1.elapsed
        · simp only [ht, if_true]
          constructor
          · intro h
            cases h
          · rintro ⟨h, hle1⟩
            simp only [Option.some.injEq] at h
            subst h
            exact absurd ht (Nat.not_lt.mpr hle1)
        · simp only [ht, if_false, Option.some.injEq]
          constructor
          · intro h
            subst h
            exact ⟨rfl, Nat.le_of_not_lt ht⟩
          · intro h
            exact h.1

/-- An invocation of the probe that is part of a run of a wait is one that
`attempt` computes. -/
theorem attempt_of_waitForState {α : Type} (spec : WaitSpecification α) (k : Nat)
    (h : ∃ fuel run, waitForState spec fuel = some run ∧ WaitEvent.probe k ∈ run.events) :
    ∃ st, attempt spec k = some st := by
  obtain ⟨st, hr, ht⟩ := rounds_of_waitForState spec k h
  exact ⟨st, (attempt_iff_rounds spec k st).mpr ⟨hr, ht⟩⟩

/-- A round that goes back to the head of the loop sleeps the poll interval. -/
theorem pollStep_inr_elapsed {α : Type} (spec : WaitSpecification α) (k : Nat)
    (st st1 : LoopState α) (h : pollStep spec k st = .inr st1) :
    st1.elapsed = st.elapsed + spec.pollInterval := by
  unfold pollStep at h
  cases he : (spec.probe k).err with
  | some e =>
    simp only [he] at h
    split_ifs at h
    · injection h with h
      rw [← h]
  | none =>
    simp only [he] at h
    split_ifs at h <;> (injection h with h; rw [← h])

/-- Invocation `k` of the probe is made when `k` times the poll interval have
elapsed. -/
theorem attempt_elapsed {α : Type} (spec : WaitSpecification α) (k : Nat) :
    ∀ st : LoopState α, attempt spec k = some st → st.elapsed = k * spec.pollInterval := by
  induction k with
  | zero =>
    intro st h
    simp only [attempt, Option.some.injEq] at h
    subst h
    simp [LoopState.init]
  | succ k ih =>
    intro st h
    rw [attempt] at h
    cases h0 : attempt spec k with
    | none => simp [h0] at h
    | some st0 =>
      simp only [h0] at h
      cases hs : pollStep spec k st0 with
      | inl o => simp [hs] at h
      | inr st1 =>
        simp only [hs] at h
        split_ifs at h
        simp only [Option.some.injEq] at h
        subst h
        rw [pollStep_inr_elapsed spec k st0 st1 hs, ih st0 h0, Nat.succ_mul]

/-- Results that each send the loop back to its head whatever the not-found
counter (a transient error, or an observable state that is not a target and is
pending or, when unknown states keep polling, unknown), in time: the next
invocation of the probe is made. -/
theorem attempt_of_polling {α : Type} (spec : WaitSpecification α) (k : Nat)
    (h : ∀ j, j < k →
      (∃ e, (spec.probe j).err = some e ∧ spec.transient e = true) ∨
      ((spec.probe j).err = none ∧ (spec.probe j).notObservable = false ∧
        (spec.probe j).state ∉ spec.target ∧
        ((spec.probe j).state ∈ spec.pending ∨ spec.keepPollingOnUnknown = true)))
    (ht : k * spec.pollInterval ≤ spec.timeout) :
    ∃ st, attempt spec k = some st := by
  induction k with
  | zero => exact ⟨_, rfl⟩
  | succ k ih =>
    have hle : k * spec.pollInterval ≤ spec.timeout := by
      rw [Nat.succ_mul] at ht
      omega
    obtain ⟨st0, h0⟩ := ih (fun j hj => h j (Nat.lt_succ_of_lt hj)) hle
    have hel := attempt_elapsed spec k st0 h0
    cases hs : pollStep spec k st0 with
    | inl o =>
      exfalso
      rcases h k (Nat.lt_succ_self k) with ⟨e, he, hte⟩ | ⟨he, ho, hnt, hp | hw⟩
      · simp [pollStep, he, hte] at hs
      · simp [pollStep, he, ho, hnt, hp] at hs
      · by_cases hp : (spec.probe k).state ∈ spec.pending
        · simp [pollStep, he, ho, hnt, hp] at hs
        · simp [pollStep, he, ho, hnt, hp, hw] at hs
    | inr st1 =>
      have hel1 := pollStep_inr_elapsed spec k st0 st1 hs
      have hnot : ¬ spec.timeout < st1.elapsed := by
        rw [hel1, hel]
        rw [Nat.succ_mul] at ht
        omega
      exact ⟨st1, by rw [attempt]; simp [h0, hs, hnot]⟩

/-- "Not observable" results on the first `t` invocations, within the tolerance
and in time: the next invocation of the probe is made with the not-found counter
at `t` and nothing observed. -/
theorem attempt_notObservable {α : Type} (spec : WaitSpecification α) (t : Nat)
    (hno : ∀ j, j < t → (spec.probe j).notObservable = true)
    (htol : t ≤ spec.notFoundTolerance)
    (ht : t * spec.pollInterval ≤ spec.timeout) :
    attempt spec t = some ⟨t * spec.pollInterval, t, none, ""⟩ := by
  induction t with
  | zero => simp [attempt, LoopState.init]
  | succ t ih =>
    have hle : t * spec.pollInterval ≤ spec.timeout := by
      rw [Nat.succ_mul] at ht
      omega
    have h0 := ih (fun j hj => hno j (Nat.lt_succ_of_lt hj)) (Nat.le_of_succ_le htol) hle
    have hn := hno t (Nat.lt_succ_self t)
    have hx : ¬ spec.notFoundTolerance < t + 1 := Nat.not_lt.mpr htol
    have hnot : ¬ spec.timeout < t * spec.pollInterval + spec.pollInterval := by
      rw [Nat.succ_mul] at ht
      omega
    rw [attempt]
    simp [h0, pollStep, err_none_of_notObservable _ hn, hn, hx, hnot, Nat.succ_mul]

/-- A wait that makes invocation `k` of the probe and is ended by its result: the
result of the wait, for enough fuel. -/
theorem waitForState_stop_at_attempt {α : Type} (spec : WaitSpecification α) (k : Nat)
    (st : LoopState α) (o : ReconciliationOutcome α)
    (hreach : attempt spec k = some st)
    (hs : pollStep spec k st = .inl o) (fuel : Nat) (hfuel : k + 1 ≤ fuel) :
    waitForState spec fuel =
      some ⟨o, delayEvents spec ++ pollRounds spec.pollInterval 0 k ++ [.probe k]⟩ :=
  waitForState_stop_at spec k st o ((attempt_iff_rounds spec k st).mp hreach).1
    ((attempt_iff_rounds spec k st).mp hreach).2 hs fuel hfuel

/-! ## Theorems: errors, unexpected states and absence in a wait -/

/-- C11. For every K = k + 1, if the first K - 1 results of the probe do not end
the wait, so that the K-th invocation of the probe is made (`attempt spec k`
computes, from these results and the pacing alone, the loop variables `st` of
that invocation), and the K-th result is an error that is not classified as
transient, then for any fuel of at least K iterations `waitForState` returns the
error outcome that carries this error, together with the last observation and
the elapsed time; the run ends with the K-th invocation: the probe was invoked
exactly K times. -/
theorem waitForState_nonretryable_error {α : Type} (spec : WaitSpecification α)
    (k : Nat) (st : LoopState α) (e : Err)
    (hreach : attempt spec k = some st)
    (herr : (spec.probe k).err = some e) (hnr : spec.transient e = false) :
    (∀ fuel, k + 1 ≤ fuel →
      waitForState spec fuel =
        some ⟨.error (.probeError e) ⟨st.lastValue, st.lastState, st.elapsed⟩,
          delayEvents spec ++ pollRounds spec.pollInterval 0 k ++ [.probe k]⟩) ∧
    probeCalls (delayEvents spec ++ pollRounds spec.pollInterval 0 k ++ [.probe k]) =
      k + 1 := by
  refine ⟨fun fuel hfuel => ?_, probeCalls_run_events spec k⟩
  apply waitForState_stop_at_attempt spec k st _ hreach _ fuel hfuel
  simp [pollStep, herr, hnr]

/-- Witness of C11: `attaching`, `attaching`, then an error that is not transient;
the wait fails with this error after 3 probe invocations, 20 time units after
its start, the last observed state being `attaching`. -/
theorem waitForState_nonretryable_error_witness :
    (∀ fuel, 2 + 1 ≤ fuel →
      waitForState errorScenario fuel =
        some ⟨.error (.probeError (.other "access denied")) ⟨some "igw-1", "attaching", 20⟩,
          [.probe 0, .sleep 10, .probe 1, .sleep 10, .probe 2]⟩) ∧
    probeCalls [.probe 0, .sleep 10, .probe 1, .sleep 10, .probe 2] = 2 + 1 :=
  waitForState_nonretryable_error errorScenario 2 ⟨20, 0, some "igw-1", "attaching"⟩
    (.other "access denied") rfl rfl rfl

/-- Transient errors on the first `m` invocations, in time: the loop goes back to
its head `m` times, and nothing has been observed. -/
theorem rounds_transient {α : Type} (spec : WaitSpecification α) (m : Nat)
    (htr : ∀ j, j < m → ∃ e, (spec.probe j).err = some e ∧ spec.transient e = true)
    (ht : m * spec.pollInterval ≤ spec.timeout) :
    rounds spec 0 LoopState.init m = some ⟨m * spec.pollInterval, 0, none, ""⟩ := by
  induction m with
  | zero => simp [rounds, LoopState.init]
  | succ m ih =>
    have hle : m * spec.pollInterval ≤ spec.timeout := by
      rw [Nat.succ_mul] at ht
      omega
    rw [rounds_succ_last, ih (fun j hj => htr j (Nat.lt_succ_of_lt hj)) hle]
    obtain ⟨e, he, hte⟩ := htr m (Nat.lt_succ_self m)
    simp [Nat.not_lt.mpr hle, pollStep, he, hte, Nat.succ_mul]

/-- Transient errors on the first `m` invocations, then an observable target
result, in time: the wait succeeds after `m + 1` invocations of the probe. -/
theorem waitForState_transient_then_target_observable {α : Type}
    (spec : WaitSpecification α) (m fuel : Nat)
    (htr : ∀ j, j < m → ∃ e, (spec.probe j).err = some e ∧ spec.transient e = true)
    (he : (spec.probe m).err = none)
    (ho : (spec.probe m).notObservable = false)
    (hin : (spec.probe m).state ∈ spec.target)
    (ht : m * spec.pollInterval ≤ spec.timeout)
    (hfuel : m + 1 ≤ fuel) :
    waitForState spec fuel =
      some ⟨.success (spec.probe m).value (spec.probe m).state,
        delayEvents spec ++ pollRounds spec.pollInterval 0 m ++ [.probe m]⟩ := by
  apply waitForState_stop_at spec m _ _ (rounds_transient spec m htr ht) ht _ fuel hfuel
  simp [pollStep, he, ho, hin]

/-- C12. For every M, if the probe returns an error classified as transient on
each of its first M invocations and, on invocation M+1, within the timeout
(M x poll interval <= timeout), a result without error whose state label is a
target state (the target states are state labels: the empty string, which marks
"not yet observable", is not listed among them), then for any fuel of at least
M+1 iterations `waitForState` returns the success outcome with the value and
label of that last result, after exactly M+1 probe invocations; the outcome
holds none of the transient errors. -/
theorem waitForState_transient_then_target {α : Type} (spec : WaitSpecification α)
    (m fuel : Nat)
    (htarget : "" ∉ spec.target)
    (htr : ∀ j, j < m → ∃ e, (spec.probe j).err = some e ∧ spec.transient e = true)
    (he : (spec.probe m).err = none)
    (hin : (spec.probe m).state ∈ spec.target)
    (ht : m * spec.pollInterval ≤ spec.timeout)
    (hfuel : m + 1 ≤ fuel) :
    waitForState spec fuel =
      some ⟨.success (spec.probe m).value (spec.probe m).state,
        delayEvents spec ++ pollRounds spec.pollInterval 0 m ++ [.probe m]⟩ ∧
    probeCalls (delayEvents spec ++ pollRounds spec.pollInterval 0 m ++ [.probe m]) =
      m + 1 :=
  ⟨waitForState_transient_then_target_observable spec m fuel htr he
      (notObservable_of_state_mem _ _ htarget hin) hin ht hfuel,
    probeCalls_run_events spec m⟩

/-- Witness of C12: two throttling errors, then `available`; the wait succeeds
after 3 probe invocations. -/
theorem waitForState_transient_then_target_witness :
    waitForState transientScenario 3 =
      some ⟨.success (some "igw-1") "available",
        [.probe 0, .sleep 10, .probe 1, .sleep 10, .probe 2]⟩ :=
  (waitForState_transient_then_target transientScenario 2 3
    (by decide)
    (fun j hj => by
      have : j = 0 ∨ j = 1 := by omega
      rcases this with h | h <;> subst h <;> exact ⟨_, rfl, rfl⟩)
    rfl (by decide) (by decide) (by decide)).1

theorem stringsContains_unexpectedStateDescription (state : String) :
    stringsContains (unexpectedStateDescription state) state = true := by
  simp only [stringsContains, unexpectedStateDescription, String.data_append,
    decide_eq_true_eq]
  exact ⟨_, _, rfl⟩

/-- C13. For every wait specification that has not whitelisted unknown states, if
the probe's first result has no error and a non-empty state label that is in
neither the pending nor the target states, `waitForState` returns, for any fuel
of at least one iteration, an error outcome whose description contains that
label, after exactly one probe invocation. -/
theorem waitForState_unexpected_state {α : Type} (spec : WaitSpecification α) (fuel : Nat)
    (hw : spec.keepPollingOnUnknown = false)
    (he : (spec.probe 0).err = none)
    (hne : (spec.probe 0).state ≠ "")
    (hnp : (spec.probe 0).state ∉ spec.pending)
    (hnt : (spec.probe 0).state ∉ spec.target) :
    waitForState spec (fuel + 1) =
      some ⟨.error (.unexpectedState (unexpectedStateDescription (spec.probe 0).state))
          ⟨(spec.probe 0).value, (spec.probe 0).state, 0⟩,
        delayEvents spec ++ [.probe 0]⟩ ∧
    stringsContains (unexpectedStateDescription (spec.probe 0).state)
      (spec.probe 0).state = true ∧
    probeCalls (delayEvents spec ++ [.probe 0]) = 1 := by
  refine ⟨?_, stringsContains_unexpectedStateDescription _, ?_⟩
  · have ho : (spec.probe 0).notObservable = false := by
      simp [ProbeResult.notObservable, hne]
    have hs : pollStep spec 0 LoopState.init =
        .inl (.error (.unexpectedState (unexpectedStateDescription (spec.probe 0).state))
          ⟨(spec.probe 0).value, (spec.probe 0).state, 0⟩) := by
      simp [pollStep, he, ho, hnp, hnt, hw, LoopState.init]
    have := waitForState_stop_at spec 0 LoopState.init _ rfl (Nat.zero_le _) hs (fuel + 1)
      (by omega)
    simpa [pollRounds] using this
  · rw [probeCalls_append, probeCalls_delayEvents]
    simp [probeCalls]

/-- Witness of C13: the probe answers `corrupted`; the wait fails after one probe
invocation with an error whose description contains `corrupted`. -/
theorem waitForState_unexpected_state_witness :
    waitForState corruptedScenario 1 =
      some ⟨.error (.unexpectedState "unexpected state 'corrupted'")
        ⟨some "igw-1", "corrupted", 0⟩, [.probe 0]⟩ ∧
    stringsContains "unexpected state 'corrupted'" "corrupted" = true ∧
    probeCalls [.probe 0] = 1 :=
  waitForState_unexpected_state corruptedScenario 0 rfl rfl (by decide)
    (by simp [corruptedScenario, scriptedSpec]) (by simp [corruptedScenario, scriptedSpec])

/-- After `j` consecutive "not observable" results, the not-found counter is at
least `j`. -/
theorem rounds_notFound_ge {α : Type} (spec : WaitSpecification α) (a j : Nat) :
    ∀ st : LoopState α, rounds spec 0 LoopState.init (a + j) = some st →
    (∀ i, i < j → (spec.probe (a + i)).notObservable = true) → j ≤ st.notFound := by
  induction j with
  | zero =>
    intro st _ _
    exact Nat.zero_le _
  | succ j ih =>
    intro st hr hno
    have ha : a + (j + 1) = (a + j) + 1 := by omega
    rw [ha, rounds_succ_last, Option.bind_eq_some] at hr
    obtain ⟨st0, h0, h1⟩ := hr
    have hj := ih st0 h0 (fun i hi => hno i (Nat.lt_succ_of_lt hi))
    have hn := hno j (Nat.lt_succ_self j)
    have he := err_none_of_notObservable _ hn
    rw [Nat.zero_add] at h1
    by_cases ht : spec.timeout < st0.elapsed
    · simp [ht] at h1
    · simp only [ht, if_false, pollStep, he, hn, if_true] at h1
      by_cases hx : spec.notFoundTolerance < st0.notFound + 1
      · simp [hx] at h1
      · simp only [hx, if_false, Option.some.injEq] at h1
        rw [← h1]
        exact Nat.succ_le_succ hj

/-- After `j` consecutive "not observable" results, the not-found counter of the
next invocation is at least `j`. -/
theorem attempt_notFound_ge {α : Type} (spec : WaitSpecification α) (a j : Nat)
    (st : LoopState α) (hreach : attempt spec (a + j) = some st)
    (hno : ∀ i, i < j → (spec.probe (a + i)).notObservable = true) : j ≤ st.notFound :=
  rounds_notFound_ge spec a j st ((attempt_iff_rounds spec (a + j) st).mp hreach).1 hno

/-- C14. For every not-found tolerance T, if the probe reports "not observable"
(empty value, empty state label, no error) on the T+1 consecutive calls `a`,
`a + 1`, ..., `a + T` of a wait (`attempt spec (a + T)` computes, from the
earlier results and the pacing alone, the loop variables `st` with which the
last of these calls is made), then for any fuel of at least `a + T + 1`
iterations `waitForState` returns the not-found outcome at the last of these
calls, and no run of the wait invokes the probe after it. -/
theorem waitForState_not_found_terminal {α : Type} (spec : WaitSpecification α) (a : Nat)
    (st : LoopState α)
    (hreach : attempt spec (a + spec.notFoundTolerance) = some st)
    (hno : ∀ j, j ≤ spec.notFoundTolerance → (spec.probe (a + j)).notObservable = true) :
    (∀ fuel, a + spec.notFoundTolerance + 1 ≤ fuel →
      waitForState spec fuel =
        some ⟨.error .notFound ⟨st.lastValue, st.lastState, st.elapsed⟩,
          delayEvents spec ++ pollRounds spec.pollInterval 0 (a + spec.notFoundTolerance) ++
            [.probe (a + spec.notFoundTolerance)]⟩) ∧
    (∀ fuel run m, waitForState spec fuel = some run → WaitEvent.probe m ∈ run.events →
      m ≤ a + spec.notFoundTolerance) := by
  have hge := attempt_notFound_ge spec a spec.notFoundTolerance st hreach
    (fun i hi => hno i (Nat.le_of_lt hi))
  have hn := hno spec.notFoundTolerance (Nat.le_refl _)
  have hs : pollStep spec (a + spec.notFoundTolerance) st =
      .inl (.error .notFound ⟨st.lastValue, st.lastState, st.elapsed⟩) := by
    simp [pollStep, err_none_of_notObservable _ hn, hn, Nat.lt_succ_of_le hge]
  have hall := waitForState_stop_at_attempt spec _ st _ hreach hs
  refine ⟨hall, ?_⟩
  intro fuel run m hrun hm
  have := waitForState_unique spec fuel _ run _ hrun (hall _ (Nat.le_refl _))
  rw [this] at hm
  exact probe_mem_run_events spec m _ hm

/-- Witness of C14: tolerance 2, three "not observable" results followed by
`detached`; the wait is decided at the third invocation of the probe, 20 time
units after its start, and the fourth invocation is never made. -/
theorem waitForState_not_found_terminal_witness :
    (∀ fuel, 0 + 2 + 1 ≤ fuel →
      waitForState notFoundScenario fuel =
        some ⟨.error .notFound ⟨none, "", 20⟩,
          [.probe 0, .sleep 10, .probe 1, .sleep 10, .probe 2]⟩) ∧
    (∀ fuel run m, waitForState notFoundScenario fuel = some run →
      WaitEvent.probe m ∈ run.events → m ≤ 0 + 2) :=
  waitForState_not_found_terminal notFoundScenario 0 ⟨20, 2, none, ""⟩ rfl
    (fun j hj => by
      have hj2 : j ≤ 2 := hj
      have : j = 0 ∨ j = 1 ∨ j = 2 := by omega
      rcases this with h | h | h <;> subst h <;> rfl)

/-! ## Theorems: deletion, destroy check and probe states -/

/-- After a retry that timed out, `resourceInternetGatewayDelete` wraps whatever
error the extra `DeleteInternetGateway` call returns. -/
theorem resourceInternetGatewayDelete_after_timeout (id : String) (w : DeleteWorld) (err : Err)
    (hd : w.detach = none) (ht : w.TimedOut w.retry.err = true)
    (he : w.afterRetry.DeleteInternetGateway id = some err) :
    (resourceInternetGatewayDelete id w).result =
      some (.errorf "Error deleting internet gateway: " err) := by
  simp [resourceInternetGatewayDelete, hd, ht, he]

/-- C15, at the failing input. The retry of `resourceInternetGatewayDelete` timed
out and the extra `DeleteInternetGateway` call answers
`InvalidInternetGatewayID.NotFound`. Inside the retry this answer ends the
operation without error (the callback returns nil), but after the timeout Delete
returns the error "Error deleting internet gateway: ..." and not nil. -/
theorem resourceInternetGatewayDelete_gone_after_timeout :
    goneAfterTimeoutWorld.TimedOut goneAfterTimeoutWorld.retry.err = true ∧
    goneAfterTimeoutWorld.afterRetry.DeleteInternetGateway "igw-1" =
      some (.aws "InvalidInternetGatewayID.NotFound" "gone") ∧
    resourceInternetGatewayDelete.retryFunc goneAfterTimeoutWorld.afterRetry "igw-1" = none ∧
    (resourceInternetGatewayDelete "igw-1" goneAfterTimeoutWorld).result =
      some (.errorf "Error deleting internet gateway: "
        (.aws "InvalidInternetGatewayID.NotFound" "gone")) ∧
    (resourceInternetGatewayDelete "igw-1" goneAfterTimeoutWorld).effects =
      [.Detach "igw-1", .DeleteInternetGateway "igw-1", .DeleteInternetGateway "igw-1"] := by
  refine ⟨rfl, rfl, ?_, ?_, rfl⟩
  · simp [resourceInternetGatewayDelete.retryFunc, goneAfterTimeoutWorld, failingConn,
      ErrMessageContains_aws]
  · exact resourceInternetGatewayDelete_after_timeout _ _ _ rfl rfl rfl

/-- A stack set that is gone ends `testAccCheckStackSetDestroy` with nil, whatever
resources come after it. -/
theorem testAccCheckStackSetDestroy_first_gone (conn : CloudFormation) (rs : ResourceState)
    (rest : List ResourceState) (output : Option DescribeStackSetOutput) (m : String)
    (hty : rs.Type_ = "aws_cloudformation_stack_set")
    (hgone : conn.DescribeStackSet rs.ID =
      (output, some (.aws "StackSetNotFoundException" m))) :
    testAccCheckStackSetDestroy conn (rs :: rest) = none := by
  simp [testAccCheckStackSetDestroy, hty, hgone, ErrCodeStackSetNotFoundException,
    ErrMessageContains_aws]

/-- C16, at the failing input. The state holds two resources of type
`aws_cloudformation_stack_set`; the API still describes the stack set `left`
(a non-nil `StackSet`, no error) and answers "not found" for `gone`. Visited in
the order `gone`, `left` the check returns nil although `left` still exists;
visited in the order `left`, `gone` it returns the "still exists" error. -/
theorem testAccCheckStackSetDestroy_order :
    oneLeftConn.DescribeStackSet "left" = (some ⟨some ⟨some "left:1", some "left"⟩⟩, none) ∧
    testAccCheckStackSetDestroy oneLeftConn
      [⟨"aws_cloudformation_stack_set", "gone"⟩, ⟨"aws_cloudformation_stack_set", "left"⟩] =
      none ∧
    testAccCheckStackSetDestroy oneLeftConn
      [⟨"aws_cloudformation_stack_set", "left"⟩, ⟨"aws_cloudformation_stack_set", "gone"⟩] =
      some (.other "CloudFormation StackSet (left) still exists") := by
  refine ⟨by decide, ?_, ?_⟩
  · exact testAccCheckStackSetDestroy_first_gone oneLeftConn _ _ none
      "StackSet gone not found" rfl rfl
  · simp [testAccCheckStackSetDestroy, oneLeftConn, ErrMessageContains]

/-- A successful answer that lists no gateway makes the probe of
`IGStateRefreshFunc` panic. -/
theorem IGStateRefreshFunc_empty_list (conn : EC2) (id : String)
    (h : conn.DescribeInternetGateways [id] = (some ⟨[]⟩, none)) :
    IGStateRefreshFunc conn id = none := by
  simp [IGStateRefreshFunc, h]

/-- C17, at the failing input. `DescribeInternetGateways` answers without error
and with an empty list of gateways: the probe returned by `IGStateRefreshFunc`
does not yield a triple, its access `resp.InternetGateways[0]` panics. -/
theorem IGStateRefreshFunc_no_gateway :
    noGatewayConn.DescribeInternetGateways ["igw-1"] = (some ⟨[]⟩, none) ∧
    IGStateRefreshFunc noGatewayConn "igw-1" = none :=
  ⟨rfl, IGStateRefreshFunc_empty_list noGatewayConn "igw-1" rfl⟩

/-- The four shapes of the triples returned by the detach probe. -/
theorem DetachIGStateRefreshFunc_shapes (conn : EC2) (gatewayID vpcID : String) :
    DetachIGStateRefreshFunc conn gatewayID vpcID = ⟨none, "", none⟩ ∨
    DetachIGStateRefreshFunc conn gatewayID vpcID = ⟨some (.int 42), "detached", none⟩ ∨
    (∃ e, DetachIGStateRefreshFunc conn gatewayID vpcID = ⟨some (.int 42), "detaching", e⟩) ∨
    (∃ e, DetachIGStateRefreshFunc conn gatewayID vpcID = ⟨some (.int 42), "", some e⟩) := by
  unfold DetachIGStateRefreshFunc
  cases conn.DetachInternetGateway gatewayID vpcID with
  | none => exact Or.inr (Or.inl rfl)
  | some err =>
    cases err with
    | aws code m =>
      simp only
      split_ifs
      · exact Or.inl rfl
      · exact Or.inr (Or.inl rfl)
      · cases (findPublicNetworkInterfacesForVpcID conn vpcID).2 with
        | none => exact Or.inr (Or.inr (Or.inl ⟨none, rfl⟩))
        | some e => exact Or.inr (Or.inr (Or.inl ⟨some e, rfl⟩))
      · exact Or.inr (Or.inr (Or.inr ⟨_, rfl⟩))
    | notFound => exact Or.inr (Or.inr (Or.inr ⟨_, rfl⟩))
    | timeout => exact Or.inr (Or.inr (Or.inr ⟨_, rfl⟩))
    | other t => exact Or.inr (Or.inr (Or.inr ⟨_, rfl⟩))
    | errorf p c => exact Or.inr (Or.inr (Or.inr ⟨_, rfl⟩))

/-- C18. Over the error-free outcomes of the probe returned by
`DetachIGStateRefreshFunc`, the non-empty state labels are exactly `detaching`
and `detached`: every such label is one of the two, and each of the two occurs.
Hence every label returned without error is empty, and then the result is the
"not observable" one, or belongs to the Pending or the Target list of the detach
wait built in `resourceInternetGatewayDetach`: that wait observes no unexpected
state. -/
theorem DetachIGStateRefreshFunc_states :
    (∀ (conn : EC2) (gatewayID vpcID : String),
      (DetachIGStateRefreshFunc conn gatewayID vpcID).err = none →
      (DetachIGStateRefreshFunc conn gatewayID vpcID).state ≠ "" →
      (DetachIGStateRefreshFunc conn gatewayID vpcID).state = "detaching" ∨
      (DetachIGStateRefreshFunc conn gatewayID vpcID).state = "detached") ∧
    (∃ (conn : EC2) (gatewayID vpcID : String),
      (DetachIGStateRefreshFunc conn gatewayID vpcID).err = none ∧
      (DetachIGStateRefreshFunc conn gatewayID vpcID).state = "detaching") ∧
    (∃ (conn : EC2) (gatewayID vpcID : String),
      (DetachIGStateRefreshFunc conn gatewayID vpcID).err = none ∧
      (DetachIGStateRefreshFunc conn gatewayID vpcID).state = "detached") ∧
    (∀ (conn : EC2) (gatewayID vpcID : String),
      (DetachIGStateRefreshFunc conn gatewayID vpcID).err = none →
      (DetachIGStateRefreshFunc conn gatewayID vpcID).notObservable = true ∨
      (DetachIGStateRefreshFunc conn gatewayID vpcID).state ∈
        (resourceInternetGatewayDetach.stateConf gatewayID vpcID).Pending ∨
      (DetachIGStateRefreshFunc conn gatewayID vpcID).state ∈
        (resourceInternetGatewayDetach.stateConf gatewayID vpcID).Target) := by
  refine ⟨?_, ?_, ?_, ?_⟩
  · intro conn gatewayID vpcID he hne
    rcases DetachIGStateRefreshFunc_shapes conn gatewayID vpcID with h | h | ⟨e, h⟩ | ⟨e, h⟩
    · rw [h] at hne
      exact absurd rfl hne
    · rw [h]
      exact Or.inr rfl
    · rw [h]
      exact Or.inl rfl
    · rw [h] at hne
      exact absurd rfl hne
  · exact ⟨exampleConn (some (.aws "DependencyViolation" "in use")) none, "igw-1", "vpc-1",
      rfl, rfl⟩
  · exact ⟨exampleConn none none, "igw-1", "vpc-1", rfl, rfl⟩
  · intro conn gatewayID vpcID he
    rcases DetachIGStateRefreshFunc_shapes conn gatewayID vpcID with h | h | ⟨e, h⟩ | ⟨e, h⟩
    · rw [h]
      exact Or.inl rfl
    · rw [h]
      exact Or.inr (Or.inr (by
        simp [resourceInternetGatewayDetach.stateConf, AttachmentStatusDetached]))
    · rw [h]
      exact Or.inr (Or.inl (by
        simp [resourceInternetGatewayDetach.stateConf, AttachmentStatusDetaching]))
    · rw [h] at he
      simp at he

/-- Witness of C18: the labels of two error-free outcomes. -/
theorem DetachIGStateRefreshFunc_states_witness :
    ((DetachIGStateRefreshFunc (exampleConn (some (.aws "DependencyViolation" "in use")) none)
        "igw-1" "vpc-1").state = "detaching" ∨
      (DetachIGStateRefreshFunc (exampleConn (some (.aws "DependencyViolation" "in use")) none)
        "igw-1" "vpc-1").state = "detached") ∧
    ((DetachIGStateRefreshFunc
        (failingConn (.aws "InvalidInternetGatewayID.NotFound" "gone")) "igw-1" "vpc-1"
        ).notObservable = true ∨
      (DetachIGStateRefreshFunc
        (failingConn (.aws "InvalidInternetGatewayID.NotFound" "gone")) "igw-1" "vpc-1").state ∈
        (resourceInternetGatewayDetach.stateConf "igw-1" "vpc-1").Pending ∨
      (DetachIGStateRefreshFunc
        (failingConn (.aws "InvalidInternetGatewayID.NotFound" "gone")) "igw-1" "vpc-1").state ∈
        (resourceInternetGatewayDetach.stateConf "igw-1" "vpc-1").Target) :=
  ⟨DetachIGStateRefreshFunc_states.1 _ "igw-1" "vpc-1" rfl (by decide),
   DetachIGStateRefreshFunc_states.2.2.2 _ "igw-1" "vpc-1" rfl⟩

/-- One call of the attach probe that sees a gateway at most 10 seconds after the
recorded start: `detached` without attachment, the state of the first attachment
when it carries one, a panic when it carries none. -/
theorem IGAttachStateRefreshFunc_early (conn : EC2) (id expected : String)
    (start now later : Time) (resp : DescribeInternetGatewaysOutput)
    (ig : InternetGateway) (rest : List InternetGateway)
    (hresp : conn.DescribeInternetGateways [id] = (some resp, none))
    (hig : resp.InternetGateways = ig :: rest)
    (h : Since (if start = 0 then now else start) later ≤ 10 * Second) :
    (ig.Attachments = [] →
      (IGAttachStateRefreshFunc conn id expected start now later).2 =
        some ⟨some (.gateway ig), "detached", none⟩) ∧
    (∀ a others s, ig.Attachments = a :: others → a.State = some s →
      (IGAttachStateRefreshFunc conn id expected start now later).2 =
        some ⟨some (.gateway ig), s, none⟩) ∧
    (∀ a others, ig.Attachments = a :: others → a.State = none →
      (IGAttachStateRefreshFunc conn id expected start now later).2 = none) := by
  have hn : ¬ Since (if start = 0 then now else start) later > 10 * Second := not_lt.mpr h
  refine ⟨?_, ?_, ?_⟩
  · intro ha
    unfold IGAttachStateRefreshFunc
    simp only [hresp, hig, Time.IsZero, beq_iff_eq]
    rw [if_neg hn]
    simp [ha, AttachmentStatusDetached]
  · intro a others s ha hs
    unfold IGAttachStateRefreshFunc
    simp only [hresp, hig, Time.IsZero, beq_iff_eq]
    rw [if_neg hn]
    simp [ha, hs]
  · intro a others ha hs
    unfold IGAttachStateRefreshFunc
    simp only [hresp, hig, Time.IsZero, beq_iff_eq]
    rw [if_neg hn]
    simp [ha, hs]

/-- C19, at the failing input. On the first call of the probe returned by
`IGAttachStateRefreshFunc`, one nanosecond after its start, the API returns a
gateway whose first attachment carries no `State`: the probe does not return
`(gateway, state, nil)`, the dereference `*ig.Attachments[0].State` panics. -/
theorem IGAttachStateRefreshFunc_nil_state :
    (gatewayConn statelessGateway).DescribeInternetGateways ["igw-1"] =
      (some ⟨[statelessGateway]⟩, none) ∧
    Since 5 6 ≤ 10 * Second ∧
    (IGAttachStateRefreshFunc (gatewayConn statelessGateway) "igw-1" "available" 0 5 6).2 =
      none :=
  ⟨rfl, by decide,
   (IGAttachStateRefreshFunc_early (gatewayConn statelessGateway) "igw-1" "available" 0 5 6
     ⟨[statelessGateway]⟩ statelessGateway [] rfl rfl (by decide)).2.2 _ _ rfl rfl⟩

/-- C20. There are observations, seen one nanosecond after the first call, for
which the probe returned by `IGAttachStateRefreshFunc` returns without error a
non-empty label that is neither in the Pending list (`detached`, `attaching`)
nor in the Target list (`available`) of the attach wait built in
`resourceInternetGatewayAttach`: a gateway whose first attachment is `attached`,
and one whose first attachment is `detaching`. -/
theorem IGAttachStateRefreshFunc_unexpected_states :
    (Since 5 6 ≤ 10 * Second) ∧
    ((IGAttachStateRefreshFunc (gatewayConn attachedGateway) "igw-1" "available" 0 5 6).2 =
        some ⟨some (.gateway attachedGateway), "attached", none⟩ ∧
      "attached" ≠ "" ∧
      "attached" ∉ (resourceInternetGatewayAttach.stateConf "igw-1").Pending ∧
      "attached" ∉ (resourceInternetGatewayAttach.stateConf "igw-1").Target) ∧
    ((IGAttachStateRefreshFunc (gatewayConn exampleGateway) "igw-1" "available" 0 5 6).2 =
        some ⟨some (.gateway exampleGateway), "detaching", none⟩ ∧
      "detaching" ≠ "" ∧
      "detaching" ∉ (resourceInternetGatewayAttach.stateConf "igw-1").Pending ∧
      "detaching" ∉ (resourceInternetGatewayAttach.stateConf "igw-1").Target) := by
  refine ⟨by decide, ⟨?_, by decide, by decide, by decide⟩, ⟨?_, by decide, by decide, by decide⟩⟩
  · exact (IGAttachStateRefreshFunc_early (gatewayConn attachedGateway) "igw-1" "available"
      0 5 6 ⟨[attachedGateway]⟩ attachedGateway [] rfl rfl (by decide)).2.1 _ _ _ rfl rfl
  · exact (IGAttachStateRefreshFunc_early (gatewayConn exampleGateway) "igw-1" "available"
      0 5 6 ⟨[exampleGateway]⟩ exampleGateway [] rfl rfl (by decide)).2.1 _ _ _ rfl rfl

/-! ## Theorems: update, read and state migration -/

/-- C21. When `vpc_id` has changed, `resourceInternetGatewayUpdate` starts with the
detach step, which is made once and before any attach step; and if the detach
step returns an error, Update returns that very error and makes no other call:
no attach, no tag update, no read. -/
theorem resourceInternetGatewayUpdate_detach_first (id : String) (w : UpdateWorld)
    (hchange : w.HasChangeVpcId = true) :
    (∃ rest, (resourceInternetGatewayUpdate id w).effects = .Detach id :: rest ∧
      UpdateEffect.Detach id ∉ rest) ∧
    (∀ err, w.detach = some err →
      (resourceInternetGatewayUpdate id w).result = some err ∧
      (resourceInternetGatewayUpdate id w).effects = [.Detach id]) ∧
    (w.detach = none →
      ∃ rest, (resourceInternetGatewayUpdate id w).effects =
        .Detach id :: .Attach id :: rest) := by
  refine ⟨?_, ?_, ?_⟩
  · unfold resourceInternetGatewayUpdate
    simp only [hchange, if_true]
    cases w.detach with
    | some err => exact ⟨[], rfl, by simp⟩
    | none =>
      cases w.attach with
      | some err => exact ⟨[.Attach id], rfl, by simp⟩
      | none =>
        simp only [resourceInternetGatewayUpdate.finish]
        split
        · split
          · exact ⟨[.Attach id, .UpdateTags id], rfl, by simp⟩
          · exact ⟨[.Attach id, .UpdateTags id, .Read id], rfl, by simp⟩
        · exact ⟨[.Attach id, .Read id], rfl, by simp⟩
  · intro err hd
    simp [resourceInternetGatewayUpdate, hchange, hd]
  · intro hd
    unfold resourceInternetGatewayUpdate
    simp only [hchange, if_true, hd]
    cases w.attach with
    | some err => exact ⟨[], rfl⟩
    | none =>
      simp only [resourceInternetGatewayUpdate.finish]
      split
      · split
        · exact ⟨_, rfl⟩
        · exact ⟨_, rfl⟩
      · exact ⟨_, rfl⟩

/-- Witness of C21: the detach step fails; Update returns its error after the
single call of the detach step. -/
theorem resourceInternetGatewayUpdate_detach_first_witness :
    (resourceInternetGatewayUpdate "igw-1" detachFailsWorld).result =
      some (.other "Error waiting for internet gateway (igw-1) to detach: timeout") ∧
    (resourceInternetGatewayUpdate "igw-1" detachFailsWorld).effects = [.Detach "igw-1"] :=
  (resourceInternetGatewayUpdate_detach_first "igw-1" detachFailsWorld rfl).2.1 _ rfl

/-- C30. When the gateway probe reports the gateway as not observable (nil value,
nil error), `resourceInternetGatewayRead` returns nil and a resource data that
differs from the one it got only by its id, which is empty; when the probe
returns an error, Read returns that error and the resource data it got. -/
theorem resourceInternetGatewayRead_early_exits (w : ReadWorld) (d : ResourceData)
    (r : ProbeResult Value) (hprobe : IGStateRefreshFunc w.conn d.Id = some r) :
    (r.err = none → r.value = none →
      resourceInternetGatewayRead w d = some (⟨"", d.attrs⟩, none)) ∧
    (∀ err, r.err = some err → resourceInternetGatewayRead w d = some (d, some err)) := by
  refine ⟨?_, ?_⟩
  · intro he hv
    simp [resourceInternetGatewayRead, hprobe, he, hv, ResourceData.SetId]
  · intro err he
    simp [resourceInternetGatewayRead, hprobe, he]

/-- Witness of C30: a gateway that is gone empties the id; an API error is
returned and the data is left as it was. -/
theorem resourceInternetGatewayRead_early_exits_witness :
    resourceInternetGatewayRead
        (readWorld (failingConn (.aws "InvalidInternetGatewayID.NotFound" "gone")))
        exampleData = some (⟨"", ∅⟩, none) ∧
    resourceInternetGatewayRead (readWorld (failingConn (.other "broken pipe"))) exampleData =
      some (exampleData, some (.other "broken pipe")) :=
  ⟨(resourceInternetGatewayRead_early_exits
      (readWorld (failingConn (.aws "InvalidInternetGatewayID.NotFound" "gone")))
      exampleData ⟨none, "", none⟩ rfl).1 rfl rfl,
   (resourceInternetGatewayRead_early_exits (readWorld (failingConn (.other "broken pipe")))
      exampleData ⟨none, "", some (.other "broken pipe")⟩ rfl).2 _ rfl⟩

/-- C22. `migrateVpcStateV0toV1` returns a nil error for every instance state.
When the state is not empty and its attribute map is not nil, the result is the
input state with an attribute map in which `assign_generated_ipv6_cidr_block` is
`"false"` and every other key reads as in the input; when the state is empty, or
its attribute map is nil, the state is returned unchanged. -/
theorem migrateVpcStateV0toV1_result :
    (∀ is, (migrateVpcStateV0toV1 is).2 = none) ∧
    (∀ (s : InstanceState) (a : GoMap String), s.ID ≠ "" → s.Attributes = some a →
      ∃ b : GoMap String,
        (migrateVpcStateV0toV1 (some s)).1 = some { s with Attributes := some b } ∧
        b.lookup "assign_generated_ipv6_cidr_block" = some "false" ∧
        ∀ k, k ≠ "assign_generated_ipv6_cidr_block" → b.lookup k = a.lookup k) ∧
    (∀ is, InstanceState.Empty is = true → (migrateVpcStateV0toV1 is).1 = is) ∧
    (∀ s : InstanceState, s.Attributes = none →
      (migrateVpcStateV0toV1 (some s)).1 = some s) := by
  refine ⟨?_, ?_, ?_, ?_⟩
  · intro is
    unfold migrateVpcStateV0toV1
    cases is with
    | none => rfl
    | some s =>
      simp only
      split <;> rfl
  · intro s a hid ha
    refine ⟨a.insert "assign_generated_ipv6_cidr_block" "false", ?_, AList.lookup_insert a,
      fun k hk => AList.lookup_insert_ne hk⟩
    simp [migrateVpcStateV0toV1, InstanceState.Empty, hid, ha]
  · intro is he
    unfold migrateVpcStateV0toV1
    cases is with
    | none => rfl
    | some s => simp [he]
  · intro s ha
    simp [migrateVpcStateV0toV1, ha]

/-- Witness of C22: the migration of a version 0 state. -/
theorem migrateVpcStateV0toV1_result_witness :
    ∃ b : GoMap String,
      (migrateVpcStateV0toV1 (some exampleState)).1 =
        some { exampleState with Attributes := some b } ∧
      b.lookup "assign_generated_ipv6_cidr_block" = some "false" ∧
      ∀ k, k ≠ "assign_generated_ipv6_cidr_block" →
        b.lookup k = (AList.insert "cidr_block" "10.0.0.0/16" ∅ : GoMap String).lookup k :=
  migrateVpcStateV0toV1_result.2.1 exampleState _ (by decide) rfl

/-- C23. `resourceAwsVpcMigrateState` migrates only schema version 0: for `v = 0`
it returns the result of `migrateVpcStateV0toV1`, and for every other `v` it
returns the state it got together with the error "Unexpected schema version: v". -/
theorem resourceAwsVpcMigrateState_versions (is : Option InstanceState) :
    resourceAwsVpcMigrateState 0 is = migrateVpcStateV0toV1 is ∧
    (∀ v : Int, v ≠ 0 →
      resourceAwsVpcMigrateState v is =
        (is, some (.other ("Unexpected schema version: " ++ toString v)))) := by
  refine ⟨by simp [resourceAwsVpcMigrateState], ?_⟩
  intro v hv
  simp [resourceAwsVpcMigrateState, hv]

/-- Witness of C23: schema versions 2 and -1 are refused. -/
theorem resourceAwsVpcMigrateState_versions_witness :
    resourceAwsVpcMigrateState 2 (some exampleState) =
      (some exampleState, some (.other "Unexpected schema version: 2")) ∧
    resourceAwsVpcMigrateState (-1) (some exampleState) =
      (some exampleState, some (.other "Unexpected schema version: -1")) :=
  ⟨(resourceAwsVpcMigrateState_versions (some exampleState)).2 2 (by decide),
   (resourceAwsVpcMigrateState_versions (some exampleState)).2 (-1) (by decide)⟩

/-- C24. `migrateVpcStateV0toV1` is idempotent: applied to its own result it
returns the same state and a nil error. -/
theorem migrateVpcStateV0toV1_idempotent (is : Option InstanceState) :
    migrateVpcStateV0toV1 (migrateVpcStateV0toV1 is).1 =
      ((migrateVpcStateV0toV1 is).1, none) := by
  cases is with
  | none => rfl
  | some s =>
    by_cases hid : s.ID = ""
    · simp [migrateVpcStateV0toV1, InstanceState.Empty, hid]
    · cases ha : s.Attributes with
      | none => simp [migrateVpcStateV0toV1, ha]
      | some a =>
        simp [migrateVpcStateV0toV1, InstanceState.Empty, hid, ha, AList.insert_insert]

/-! ## Theorems: Elastic Beanstalk tags -/

/-- Without removed or updated tag, `UpdateTags` sends no request and returns nil. -/
theorem UpdateTags_no_change {KVT : Type} (tf : Tftags KVT) (conn : ElasticBeanstalk)
    (identifier : String) (oldTagsMap newTagsMap : TagsInput)
    (hrem : tf.len (tf.Removed (tf.New oldTagsMap) (tf.New newTagsMap)) = 0)
    (hupd : tf.len (tf.Updated (tf.New oldTagsMap) (tf.New newTagsMap)) = 0) :
    UpdateTags tf conn identifier oldTagsMap newTagsMap = (none, []) := by
  simp [UpdateTags, hrem, hupd]

/-- With no removed tag and updated tags that `IgnoreAws` all drops, `UpdateTags`
sends a request whose `TagsToAdd` and `TagsToRemove` are both empty. -/
theorem UpdateTags_empty_request {KVT : Type} (tf : Tftags KVT) (conn : ElasticBeanstalk)
    (identifier : String) (oldTagsMap newTagsMap : TagsInput)
    (hrem : tf.len (tf.Removed (tf.New oldTagsMap) (tf.New newTagsMap)) = 0)
    (hupd : 0 < tf.len (tf.Updated (tf.New oldTagsMap) (tf.New newTagsMap)))
    (hign : (tf.Map (tf.IgnoreAws
      (tf.Updated (tf.New oldTagsMap) (tf.New newTagsMap)))).entries = []) :
    (UpdateTags tf conn identifier oldTagsMap newTagsMap).2 =
      [⟨some identifier, [], []⟩] := by
  have hne : tf.len (tf.Updated (tf.New oldTagsMap) (tf.New newTagsMap)) ≠ 0 :=
    Nat.pos_iff_ne_zero.mp hupd
  unfold UpdateTags
  simp only [hrem, hne, and_false, if_false, gt_iff_lt, hupd, if_true, lt_self_iff_false,
    Tags, hign, List.map_nil]
  cases conn.UpdateTagsForResource ⟨some identifier, [], []⟩ <;> rfl

/-- C25, at the failing input. The old tags are empty and the new tags hold the
single key `aws:createdBy`: one tag is updated, none is removed, and the updated
tag is dropped by `IgnoreAws`. `UpdateTags` then sends an `UpdateTagsForResource`
request whose `TagsToAdd` and `TagsToRemove` are both empty. -/
theorem UpdateTags_sends_empty_request :
    UpdateTags listTags acceptingBeanstalk "arn:aws:elasticbeanstalk:eu-west-1:1:environment/a/b"
      (.strings ∅) (.strings (AList.insert "aws:createdBy" "ops" ∅)) =
      (none, [⟨some "arn:aws:elasticbeanstalk:eu-west-1:1:environment/a/b", [], []⟩]) := by
  have h := UpdateTags_empty_request listTags acceptingBeanstalk
    "arn:aws:elasticbeanstalk:eu-west-1:1:environment/a/b"
    (.strings ∅) (.strings (AList.insert "aws:createdBy" "ops" ∅)) (by decide) (by decide)
    (by decide)
  have h1 : (UpdateTags listTags acceptingBeanstalk
      "arn:aws:elasticbeanstalk:eu-west-1:1:environment/a/b"
      (.strings ∅) (.strings (AList.insert "aws:createdBy" "ops" ∅))).1 = none := by
    unfold UpdateTags
    simp only [acceptingBeanstalk]
    split <;> rfl
  exact Prod.ext h1 h

theorem dlookup_map_value {β γ : Type} (f : β → γ) (es : List (Σ _ : String, β))
    (k : String) :
    List.dlookup k (es.map fun e => (⟨e.1, f e.2⟩ : Σ _ : String, γ)) =
      (List.dlookup k es).map f := by
  induction es with
  | nil => rfl
  | cons e es ih =>
    obtain ⟨a, b⟩ := e
    by_cases h : k = a
    · subst h
      simp [List.dlookup_cons_eq]
    · rw [List.map_cons, List.dlookup_cons_ne _ _ h, List.dlookup_cons_ne _ _ h, ih]

/-- The map that `KeyValueTags` builds from the tags of the entries `es`, whose
keys are distinct, reads like `es`. -/
theorem lookup_foldl_insert_tags (es : List (Σ _ : String, String)) :
    es.NodupKeys → ∀ (init : GoMap (Option String)) (k : String),
    ((es.map fun e => (⟨some e.1, some e.2⟩ : Tag)).foldl
      (fun m tag => m.insert (StringValue tag.Key) tag.Value) init).lookup k =
      match List.dlookup k es with
      | some v => some (some v)
      | none => init.lookup k := by
  induction es with
  | nil =>
    intro _ init k
    rfl
  | cons e es ih =>
    intro hnd init k
    obtain ⟨a, b⟩ := e
    have hnd1 := (List.nodupKeys_cons.mp hnd).2
    have hna : a ∉ es.keys := (List.nodupKeys_cons.mp hnd).1
    rw [List.map_cons, List.foldl_cons, ih hnd1]
    by_cases h : k = a
    · subst h
      rw [List.dlookup_cons_eq, List.dlookup_eq_none.mpr hna]
      simp [StringValue, AList.lookup_insert]
    · rw [List.dlookup_cons_ne _ _ h]
      cases List.dlookup k es with
      | some v => rfl
      | none => simp [StringValue, AList.lookup_insert_ne h]

/-- C26. Let the operations of `internal/tags` be such that the map of
`tftags.New(m)`, for `m` a `map[string]*string`, reads at every key the string
value of `m` there. Then for every tags value `t`, seen through the
`map[string]string` that `t.Map()` returns: `Tags(t)` holds exactly one tag for
each key of the map (its keys are the keys of the map, without repetition), a tag
`(k, v)` is emitted exactly when the map holds `v` at `k`, and
`KeyValueTags(Tags(t))` reads, at every key, as `t` does. -/
theorem Tags_KeyValueTags_round_trip {KVT : Type} (tf : Tftags KVT) (t : KVT)
    (hlaw : ∀ (m : GoMap (Option String)) (k : String),
      (tf.Map (tf.New (.pointers m))).lookup k = (m.lookup k).map StringValue) :
    (Tags tf t).map (fun tag => StringValue tag.Key) = (tf.Map t).keys ∧
    ((Tags tf t).map fun tag => StringValue tag.Key).Nodup ∧
    (∀ k v, (⟨some k, some v⟩ : Tag) ∈ Tags tf t ↔ (tf.Map t).lookup k = some v) ∧
    (∀ k, (tf.Map (KeyValueTags tf (Tags tf t))).lookup k = (tf.Map t).lookup k) := by
  have hkeys : (Tags tf t).map (fun tag => StringValue tag.Key) = (tf.Map t).keys := by
    simp [Tags, AList.keys, List.keys, StringValue, Function.comp_def]
  refine ⟨hkeys, ?_, ?_, ?_⟩
  · rw [hkeys]
    exact (tf.Map t).keys_nodup
  · intro k v
    rw [← Option.mem_def, AList.mem_lookup_iff]
    simp only [Tags, List.mem_map, Tag.mk.injEq, Option.some.injEq]
    constructor
    · rintro ⟨⟨a, b⟩, hm, rfl, rfl⟩
      exact hm
    · intro hm
      exact ⟨⟨k, v⟩, hm, rfl, rfl⟩
  · intro k
    unfold KeyValueTags
    rw [hlaw]
    unfold Tags
    rw [lookup_foldl_insert_tags _ (tf.Map t).nodupKeys]
    unfold AList.lookup
    cases List.dlookup k (tf.Map t).entries with
    | none => simp
    | some v => simp [StringValue]

/-- The example implementation of `internal/tags` satisfies the condition of C26. -/
theorem listTags_Map_New (m : GoMap (Option String)) (k : String) :
    (listTags.Map (listTags.New (.pointers m))).lookup k = (m.lookup k).map StringValue := by
  simp only [listTags, AList.lookup_to_alist]
  rw [dlookup_map_value]
  rfl

/-- Witness of C26: the tags `Name = web`, `env = prod` with the example
implementation of `internal/tags`. -/
theorem Tags_KeyValueTags_round_trip_witness :
    (Tags listTags exampleTags).map (fun tag => StringValue tag.Key) =
      (listTags.Map exampleTags).keys ∧
    ((Tags listTags exampleTags).map fun tag => StringValue tag.Key).Nodup ∧
    (∀ k v, (⟨some k, some v⟩ : Tag) ∈ Tags listTags exampleTags ↔
      (listTags.Map exampleTags).lookup k = some v) ∧
    (∀ k, (listTags.Map (KeyValueTags listTags (Tags listTags exampleTags))).lookup k =
      (listTags.Map exampleTags).lookup k) :=
  Tags_KeyValueTags_round_trip listTags exampleTags listTags_Map_New

/-! ## Theorems: the provider -/

/-- Every argument that reads its description under its own name, except
`skip_metadata_api_check`, has an entry in `descriptions` and a non-empty
`Description`; so has every attribute of `endpoints`, which reads the entry
`endpoint`. -/
theorem Provider_descriptions_present :
    (∀ name, name ∈ describedArguments → name ≠ "skip_metadata_api_check" →
      (descriptions.lookup name).isSome = true ∧ Provider.DescriptionOf name ≠ "") ∧
    (∀ a, a ∈ endpointsSchema.Elem → a.2.Description = descriptionsAt "endpoint") ∧
    descriptionsAt "endpoint" ≠ "" := by
  refine ⟨?_, ?_, by decide⟩
  · intro name hmem hne
    simp only [describedArguments, List.mem_cons, List.mem_singleton, List.not_mem_nil,
      or_false] at hmem
    rcases hmem with h | h | h | h | h | h | h | h | h | h | h | h | h | h | h <;> subst h <;>
      first
      | exact absurd rfl hne
      | exact ⟨rfl, by decide⟩
  · intro a ha
    simp only [endpointsSchema, List.mem_map] at ha
    obtain ⟨n, _, rfl⟩ := ha
    rfl

/-- C27, at the failing input. The argument `skip_metadata_api_check` reads its
description under its own name, but `descriptions` has no entry under that key
(the entry is spelled `skip_medatadata_api_check`), so the `Description` of the
argument is the empty string. -/
theorem Provider_skip_metadata_api_check_description :
    "skip_metadata_api_check" ∈ describedArguments ∧
    descriptions.lookup "skip_metadata_api_check" = none ∧
    (descriptions.lookup "skip_medatadata_api_check").isSome = true ∧
    Provider.DescriptionOf "skip_metadata_api_check" = "" := by
  refine ⟨by decide, rfl, rfl, rfl⟩

/-- C28. The function assigned to `provider.ConfigureFunc` calls
`providerConfigure` with the version `"0.11+compatible"` when
`provider.TerraformVersion` is empty, and with `TerraformVersion` itself
otherwise. -/
theorem Provider_ConfigureFunc_version {δ ρ : Type} (providerConfigure : δ → String → ρ)
    (TerraformVersion : String) (d : δ) :
    (TerraformVersion = "" →
      Provider.ConfigureFunc providerConfigure TerraformVersion d =
        providerConfigure d "0.11+compatible") ∧
    (TerraformVersion ≠ "" →
      Provider.ConfigureFunc providerConfigure TerraformVersion d =
        providerConfigure d TerraformVersion) := by
  refine ⟨?_, ?_⟩
  · intro h
    simp [Provider.ConfigureFunc, h]
  · intro h
    simp [Provider.ConfigureFunc, h]

/-- Witness of C28: with a `providerConfigure` that hands back the version it
gets, an empty version gives `0.11+compatible` and `1.0.9` gives `1.0.9`. -/
theorem Provider_ConfigureFunc_version_witness :
    Provider.ConfigureFunc (fun (_ : Unit) (v : String) => v) "" () = "0.11+compatible" ∧
    Provider.ConfigureFunc (fun (_ : Unit) (v : String) => v) "1.0.9" () = "1.0.9" :=
  ⟨(Provider_ConfigureFunc_version (fun (_ : Unit) (v : String) => v) "" ()).1 rfl,
   (Provider_ConfigureFunc_version (fun (_ : Unit) (v : String) => v) "1.0.9" ()).2
     (by decide)⟩

set_option maxRecDepth 1000000 in
/-- C29. In `ResourcesMap` every `aws_alb` name is registered with the same
resource constructor as the `aws_lb` name with the same suffix, for the suffixes
"", `_listener`, `_listener_certificate`, `_listener_rule`, `_target_group` and
`_target_group_attachment`; in `DataSourcesMap` the same holds for the suffixes
"", `_listener` and `_target_group`. -/
theorem Provider_alb_lb_same_constructor :
    (∀ suffix, suffix ∈ ["", "_listener", "_listener_certificate", "_listener_rule",
        "_target_group", "_target_group_attachment"] →
      ∃ c, Provider.ResourcesMap.lookup ("aws_alb" ++ suffix) = some c ∧
        Provider.ResourcesMap.lookup ("aws_lb" ++ suffix) = some c) ∧
    (∀ suffix, suffix ∈ ["", "_listener", "_target_group"] →
      ∃ c, Provider.DataSourcesMap.lookup ("aws_alb" ++ suffix) = some c ∧
        Provider.DataSourcesMap.lookup ("aws_lb" ++ suffix) = some c) ∧
    Provider.ResourcesMap.lookup "aws_alb" = some "elbv2.ResourceLoadBalancer" ∧
    Provider.ResourcesMap.lookup "aws_alb_listener" = some "elbv2.ResourceListener" ∧
    Provider.ResourcesMap.lookup "aws_alb_listener_certificate" =
      some "elbv2.ResourceListenerCertificate" ∧
    Provider.ResourcesMap.lookup "aws_alb_listener_rule" = some "elbv2.ResourceListenerRule" ∧
    Provider.ResourcesMap.lookup "aws_alb_target_group" = some "elbv2.ResourceTargetGroup" ∧
    Provider.ResourcesMap.lookup "aws_alb_target_group_attachment" =
      some "elbv2.ResourceTargetGroupAttachment" ∧
    Provider.DataSourcesMap.lookup "aws_alb" = some "elbv2.DataSourceLoadBalancer" ∧
    Provider.DataSourcesMap.lookup "aws_alb_listener" = some "elbv2.DataSourceListener" ∧
    Provider.DataSourcesMap.lookup "aws_alb_target_group" =
      some "elbv2.DataSourceTargetGroup" := by
  have r1 : Provider.ResourcesMap.lookup "aws_alb" = some "elbv2.ResourceLoadBalancer" := rfl
  have r2 : Provider.ResourcesMap.lookup "aws_alb_listener" = some "elbv2.ResourceListener" := rfl
  have r3 : Provider.ResourcesMap.lookup "aws_alb_listener_certificate" =
      some "elbv2.ResourceListenerCertificate" := rfl
  have r4 : Provider.ResourcesMap.lookup "aws_alb_listener_rule" =
      some "elbv2.ResourceListenerRule" := rfl
  have r5 : Provider.ResourcesMap.lookup "aws_alb_target_group" =
      some "elbv2.ResourceTargetGroup" := rfl
  have r6 : Provider.ResourcesMap.lookup "aws_alb_target_group_attachment" =
      some "elbv2.ResourceTargetGroupAttachment" := rfl
  have s1 : Provider.ResourcesMap.lookup "aws_lb" = some "elbv2.ResourceLoadBalancer" := rfl
  have s2 : Provider.ResourcesMap.lookup "aws_lb_listener" = some "elbv2.ResourceListener" := rfl
  have s3 : Provider.ResourcesMap.lookup "aws_lb_listener_certificate" =
      some "elbv2.ResourceListenerCertificate" := rfl
  have s4 : Provider.ResourcesMap.lookup "aws_lb_listener_rule" =
      some "elbv2.ResourceListenerRule" := rfl
  have s5 : Provider.ResourcesMap.lookup "aws_lb_target_group" =
      some "elbv2.ResourceTargetGroup" := rfl
  have s6 : Provider.ResourcesMap.lookup "aws_lb_target_group_attachment" =
      some "elbv2.ResourceTargetGroupAttachment" := rfl
  have d1 : Provider.DataSourcesMap.lookup "aws_alb" = some "elbv2.DataSourceLoadBalancer" := rfl
  have d2 : Provider.DataSourcesMap.lookup "aws_alb_listener" =
      some "elbv2.DataSourceListener" := rfl
  have d3 : Provider.DataSourcesMap.lookup "aws_alb_target_group" =
      some "elbv2.DataSourceTargetGroup" := rfl
  have e1 : Provider.DataSourcesMap.lookup "aws_lb" = some "elbv2.DataSourceLoadBalancer" := rfl
  have e2 : Provider.DataSourcesMap.lookup "aws_lb_listener" =
      some "elbv2.DataSourceListener" := rfl
  have e3 : Provider.DataSourcesMap.lookup "aws_lb_target_group" =
      some "elbv2.DataSourceTargetGroup" := rfl
  refine ⟨?_, ?_, r1, r2, r3, r4, r5, r6, d1, d2, d3⟩
  · intro suffix h
    simp only [List.mem_cons, List.mem_singleton, List.not_mem_nil, or_false] at h
    rcases h with h | h | h | h | h | h <;> subst h
    · exact ⟨_, r1, s1⟩
    · exact ⟨_, r2, s2⟩
    · exact ⟨_, r3, s3⟩
    · exact ⟨_, r4, s4⟩
    · exact ⟨_, r5, s5⟩
    · exact ⟨_, r6, s6⟩
  · intro suffix h
    simp only [List.mem_cons, List.mem_singleton, List.not_mem_nil, or_false] at h
    rcases h with h | h | h <;> subst h
    · exact ⟨_, d1, e1⟩
    · exact ⟨_, d2, e2⟩
    · exact ⟨_, d3, e3⟩

/-- Witness of C29: the names `aws_alb_listener` and `aws_lb_listener`, as
resources and as data sources. -/
theorem Provider_alb_lb_same_constructor_witness :
    (∃ c, Provider.ResourcesMap.lookup ("aws_alb" ++ "_listener") = some c ∧
      Provider.ResourcesMap.lookup ("aws_lb" ++ "_listener") = some c) ∧
    (∃ c, Provider.DataSourcesMap.lookup ("aws_alb" ++ "_listener") = some c ∧
      Provider.DataSourcesMap.lookup ("aws_lb" ++ "_listener") = some c) :=
  ⟨Provider_alb_lb_same_constructor.1 "_listener" (by simp),
   Provider_alb_lb_same_constructor.2.1 "_listener" (by simp)⟩
end TerraformAws
